import Mathlib

/-!
# SceneManager.cpp : resource registry, transform composition, shader-state binding

A shallow embedding of `SceneManager.cpp` (CS-330 final project scene manager).

* Scalars are a type parameter `R` with its arithmetic operations; the C math
  library (`cos`, `sin`, `sqrt`) is a parameter (`glm.Libm`).  The type `float`
  is IEEE 754 binary32, every operation rounded to nearest; the statements
  about exact arithmetic take `R` to be a field.
* Everything that reaches OpenGL (texture calls, uniform writes made through
  the `ShaderManager`) is recorded, in program order, in the `gl` log of the
  state; the current value of a uniform is the value of its latest write.
* Console output (`std::cout`) and the stb image buffer management are not
  part of the state.
-/

set_option autoImplicit false

/-! ## glm (external library): vectors, matrices, transforms -/

namespace glm

/-- C math library functions used by glm on the scalar type `R`. -/
structure Libm (R : Type) where
  cos : R → R
  sin : R → R
  sqrt : R → R

/-- The glm type `vec2`. -/
structure vec2 (R : Type) where
  x : R
  y : R
deriving DecidableEq

/-- The glm type `vec3`. -/
structure vec3 (R : Type) where
  x : R
  y : R
  z : R
deriving DecidableEq

/-- The glm type `vec4`. -/
structure vec4 (R : Type) where
  x : R
  y : R
  z : R
  w : R
deriving DecidableEq

/-- The glm type `mat4`: column major, `m[i]` is column `i`. -/
structure mat4 (R : Type) where
  c0 : vec4 R
  c1 : vec4 R
  c2 : vec4 R
  c3 : vec4 R
deriving DecidableEq

variable {R : Type} [Zero R] [One R] [Add R] [Sub R] [Mul R] [Div R] [Neg R] [OfScientific R]

/-- Componentwise `vec3 + vec3`. -/
def vec3.add (a b : vec3 R) : vec3 R := ⟨a.x + b.x, a.y + b.y, a.z + b.z⟩

/-- The product `vec3 * scalar`. -/
def vec3.mulScalar (v : vec3 R) (s : R) : vec3 R := ⟨v.x * s, v.y * s, v.z * s⟩

/-- The product `scalar * vec3`. -/
def vec3.scalarMul (s : R) (v : vec3 R) : vec3 R := ⟨s * v.x, s * v.y, s * v.z⟩

/-- Componentwise `vec4 + vec4`. -/
def vec4.add (a b : vec4 R) : vec4 R := ⟨a.x + b.x, a.y + b.y, a.z + b.z, a.w + b.w⟩

/-- The product `vec4 * scalar`. -/
def vec4.mulScalar (v : vec4 R) (s : R) : vec4 R := ⟨v.x * s, v.y * s, v.z * s, v.w * s⟩

/-- The constructor `mat4(1)`: the identity matrix. -/
def mat4.one : mat4 R := ⟨⟨1, 0, 0, 0⟩, ⟨0, 1, 0, 0⟩, ⟨0, 0, 1, 0⟩, ⟨0, 0, 0, 1⟩⟩

/-- The operator `mat4 * mat4` of glm (`type_mat4x4.inl`): column `j` of the
result is `A[0]*B[j][0] + A[1]*B[j][1] + A[2]*B[j][2] + A[3]*B[j][3]`. -/
def mat4.mul (m1 m2 : mat4 R) : mat4 R :=
  let col (b : vec4 R) : vec4 R :=
    (((m1.c0.mulScalar b.x).add (m1.c1.mulScalar b.y)).add (m1.c2.mulScalar b.z)).add
      (m1.c3.mulScalar b.w)
  ⟨col m2.c0, col m2.c1, col m2.c2, col m2.c3⟩

/-- The function `glm::radians`: degrees times the literal for pi/180. -/
def radians (degrees : R) : R := degrees * 0.01745329251994329576923690768489

/-- The function `glm::dot` on `vec3`. -/
def dot (a b : vec3 R) : R := a.x * b.x + a.y * b.y + a.z * b.z

/-- The function `glm::inversesqrt`. -/
def inversesqrt (L : Libm R) (x : R) : R := 1 / L.sqrt x

/-- The function `glm::normalize` on `vec3`: `v * inversesqrt(dot(v, v))`. -/
def normalize (L : Libm R) (v : vec3 R) : vec3 R := v.mulScalar (inversesqrt L (dot v v))

/-- The function `glm::scale(v)` of `gtx/transform`: `scale(mat4(1), v)`. -/
def scale (v : vec3 R) : mat4 R :=
  let m : mat4 R := mat4.one
  ⟨m.c0.mulScalar v.x, m.c1.mulScalar v.y, m.c2.mulScalar v.z, m.c3⟩

/-- The function `glm::translate(v)` of `gtx/transform`: `translate(mat4(1), v)`,
whose last column is `m[0]*v[0] + m[1]*v[1] + m[2]*v[2] + m[3]`. -/
def translate (v : vec3 R) : mat4 R :=
  let m : mat4 R := mat4.one
  ⟨m.c0, m.c1, m.c2,
    (((m.c0.mulScalar v.x).add (m.c1.mulScalar v.y)).add (m.c2.mulScalar v.z)).add m.c3⟩

/-- The function `glm::rotate(angle, v)` of `gtx/transform`: `rotate(mat4(1), angle, v)`
(`ext/matrix_transform.inl`), the axis-angle rotation about the normalised axis. -/
def rotate (L : Libm R) (angle : R) (v : vec3 R) : mat4 R :=
  let m : mat4 R := mat4.one
  let c := L.cos angle
  let s := L.sin angle
  let axis := normalize L v
  let temp := vec3.scalarMul (1 - c) axis
  let r00 := c + temp.x * axis.x
  let r01 := temp.x * axis.y + s * axis.z
  let r02 := temp.x * axis.z - s * axis.y
  let r10 := temp.y * axis.x - s * axis.z
  let r11 := c + temp.y * axis.y
  let r12 := temp.y * axis.z + s * axis.x
  let r20 := temp.z * axis.x + s * axis.y
  let r21 := temp.z * axis.y - s * axis.x
  let r22 := c + temp.z * axis.z
  ⟨((m.c0.mulScalar r00).add (m.c1.mulScalar r01)).add (m.c2.mulScalar r02),
   ((m.c0.mulScalar r10).add (m.c1.mulScalar r11)).add (m.c2.mulScalar r12),
   ((m.c0.mulScalar r20).add (m.c1.mulScalar r21)).add (m.c2.mulScalar r22),
   m.c3⟩

/-- The `mat4` whose entry in row `i`, column `j` is `M i j`. -/
def mat4.ofMatrix (M : Matrix (Fin 4) (Fin 4) R) : mat4 R :=
  ⟨⟨M 0 0, M 1 0, M 2 0, M 3 0⟩, ⟨M 0 1, M 1 1, M 2 1, M 3 1⟩,
   ⟨M 0 2, M 1 2, M 2 2, M 3 2⟩, ⟨M 0 3, M 1 3, M 2 3, M 3 3⟩⟩

end glm

/-! ## The scalar type `float` of the program (IEEE 754 binary32) -/

/-- A finite value of the C type `float` (IEEE 754 binary32): the number
`mantissa * 2 ^ exponent`.  The operations below return it in lowest terms (`mantissa`
odd, or `0 * 2 ^ 0` for zero) with a significand of at most 24 bits.  The exponent range
is not bounded: overflow to infinity, subnormal numbers, NaN and the sign of zero are not
modelled. -/
structure float where
  mantissa : Int
  exponent : Int
deriving DecidableEq

namespace float

/-- Halves the significand `n` while it is even and not zero (at most `fuel` times),
counting the halvings in the exponent `e`. -/
def reduce : Nat → Nat → Int → Nat × Int
  | 0, n, e => (n, e)
  | fuel + 1, n, e =>
    if n ≠ 0 ∧ n % 2 = 0 then reduce fuel (n / 2) (e + 1) else (n, e)

/-- Drops the lowest bit of the significand `n` while `n` does not fit in 24 bits (at most
`fuel` times).  `guard` is the bit dropped last and `sticky` tells whether anything nonzero
was dropped before it. -/
def truncate : Nat → Nat → Int → Bool → Bool → Nat × Int × Bool × Bool
  | 0, n, e, guard, sticky => (n, e, guard, sticky)
  | fuel + 1, n, e, guard, sticky =>
    if 2 ^ 24 ≤ n then truncate fuel (n / 2) (e + 1) (decide (n % 2 = 1)) (sticky || guard)
    else (n, e, guard, sticky)

/-- The `float` nearest to `± (n + f) * 2 ^ e`, ties to even, where `f` is `0` when
`sticky` is false and some fraction strictly between `0` and `1` when `sticky` is true
(in which case `n` has at least 26 bits). -/
def round (negative : Bool) (n : Nat) (e : Int) (sticky : Bool) : float :=
  let t := truncate n n e false sticky
  let up : Bool := t.2.2.1 && (t.2.2.2 || decide (t.1 % 2 = 1))
  let m : Nat := if up then t.1 + 1 else t.1
  let r := reduce m m t.2.1
  if r.1 = 0 then ⟨0, 0⟩
  else ⟨if negative then -(r.1 : Int) else (r.1 : Int), r.2⟩

/-- The number of bits of `n` (at most `fuel`). -/
def bits : Nat → Nat → Nat
  | 0, _ => 0
  | fuel + 1, n => if n = 0 then 0 else bits fuel (n / 2) + 1

/-- The `float` nearest to `± (n / d) * 2 ^ e`, ties to even; a zero denominator (an
infinity or a NaN in IEEE arithmetic) is not modelled and gives zero. -/
def ofRatio (negative : Bool) (n d : Nat) (e : Int) : float :=
  if d = 0 then ⟨0, 0⟩
  else
    let k : Nat := 26 + bits d d
    round negative (n * 2 ^ k / d) (e - (k : Int)) (decide (n * 2 ^ k % d ≠ 0))

/-- The operator `+` on `float`: the exact sum, rounded. -/
def add (a b : float) : float :=
  let e : Int := min a.exponent b.exponent
  let m : Int := a.mantissa * 2 ^ (a.exponent - e).toNat + b.mantissa * 2 ^ (b.exponent - e).toNat
  round (decide (m < 0)) m.natAbs e false

/-- The unary operator `-` on `float`. -/
def neg (a : float) : float := ⟨-a.mantissa, a.exponent⟩

/-- The operator `-` on `float`: the exact difference, rounded. -/
def sub (a b : float) : float := add a (neg b)

/-- The operator `*` on `float`: the exact product, rounded. -/
def mul (a b : float) : float :=
  round (decide (a.mantissa * b.mantissa < 0)) (a.mantissa * b.mantissa).natAbs
    (a.exponent + b.exponent) false

/-- The operator `/` on `float`: the exact quotient, rounded. -/
def div (a b : float) : float :=
  ofRatio (decide (a.mantissa * b.mantissa < 0)) a.mantissa.natAbs b.mantissa.natAbs
    (a.exponent - b.exponent)

instance : Zero float := ⟨⟨0, 0⟩⟩
instance : One float := ⟨⟨1, 0⟩⟩
instance : Add float := ⟨add⟩
instance : Sub float := ⟨sub⟩
instance : Mul float := ⟨mul⟩
instance : Div float := ⟨div⟩
instance : Neg float := ⟨neg⟩

/-- A decimal literal denotes the `float` nearest to its value (a literal of type
`double` that the program converts to `float` is taken to give that same `float`). -/
instance : OfScientific float where
  ofScientific m s e :=
    if s then ofRatio false m (10 ^ e) 0 else round false (m * 10 ^ e) 0 false

end float

/-! ## The matrices the specification names (textbook homogeneous transforms) -/

namespace Spec

variable {R : Type} [Field R]

/-- Translation by `t`. -/
def Translate (t : glm.vec3 R) : Matrix (Fin 4) (Fin 4) R :=
  !![1, 0, 0, t.x; 0, 1, 0, t.y; 0, 0, 1, t.z; 0, 0, 0, 1]

/-- Rotation about the X axis by `a` radians. -/
def RotateX (L : glm.Libm R) (a : R) : Matrix (Fin 4) (Fin 4) R :=
  !![1, 0, 0, 0; 0, L.cos a, -L.sin a, 0; 0, L.sin a, L.cos a, 0; 0, 0, 0, 1]

/-- Rotation about the Y axis by `a` radians. -/
def RotateY (L : glm.Libm R) (a : R) : Matrix (Fin 4) (Fin 4) R :=
  !![L.cos a, 0, L.sin a, 0; 0, 1, 0, 0; -L.sin a, 0, L.cos a, 0; 0, 0, 0, 1]

/-- Rotation about the Z axis by `a` radians. -/
def RotateZ (L : glm.Libm R) (a : R) : Matrix (Fin 4) (Fin 4) R :=
  !![L.cos a, -L.sin a, 0, 0; L.sin a, L.cos a, 0, 0; 0, 0, 1, 0; 0, 0, 0, 1]

/-- Scaling by `s`. -/
def Scale (s : glm.vec3 R) : Matrix (Fin 4) (Fin 4) R :=
  !![s.x, 0, 0, 0; 0, s.y, 0, 0; 0, 0, s.z, 0; 0, 0, 0, 1]

end Spec

/-! ## OpenGL, the image decoder and the shader manager (external collaborators) -/

/-- OpenGL enumerants used by the scene manager. -/
inductive GLenum where
  | GL_TEXTURE_2D
  | GL_TEXTURE_WRAP_S
  | GL_TEXTURE_WRAP_T
  | GL_TEXTURE_MIN_FILTER
  | GL_TEXTURE_MAG_FILTER
  | GL_REPEAT
  | GL_LINEAR
  | GL_RGB
  | GL_RGBA
  | GL_RGB8
  | GL_RGBA8
  | GL_UNSIGNED_BYTE
deriving DecidableEq

/-- Result of a successful `stbi_load`: the decoded pixel buffer with the
width, height and channel count it reports. -/
structure Image where
  width : Int
  height : Int
  colorChannels : Int
  pixels : List Nat
deriving DecidableEq

/-- Value carried by a uniform write. -/
inductive UniformValue (R : Type) where
  | int (v : Int)
  | bool (v : Bool)
  | sampler2D (v : Int)
  | float (v : R)
  | vec2 (v : glm.vec2 R)
  | vec3 (v : glm.vec3 R)
  | vec4 (v : glm.vec4 R)
  | mat4 (v : glm.mat4 R)
deriving DecidableEq

/-- Modelled from the spec: the basic meshes of the class `ShapeMeshes` (ShapeMeshes.h is
not among the sources), one per `Load...Mesh` / `Draw...Mesh` method. -/
inductive Mesh where
  | Box
  | Plane
  | Cylinder
  | Cone
  | Prism
  | Pyramid4
  | Sphere
  | TaperedCylinder
  | Torus
deriving DecidableEq

/-- One call that reached OpenGL. `glGenTextures name` is `glGenTextures(1, &id)`
with `name` the texture name the driver stored in `id`; `glDeleteTextures name` is
`glDeleteTextures(1, &id)` for the texture `name`; `uniform name v` is a write of
`v` to the uniform `name` of the active shader program; `loadMesh m` and `drawMesh m` are
the calls `Load...Mesh()` and `Draw...Mesh()` of `ShapeMeshes` for the mesh `m` (the draw
uses the uniform and texture state current at that point). -/
inductive GLCall (R : Type) where
  | glGenTextures (name : Nat)
  | glDeleteTextures (name : Nat)
  | glBindTexture (target : GLenum) (texture : Nat)
  | glTexParameteri (target pname param : GLenum)
  | glTexImage2D (target : GLenum) (level : Int) (internalformat : GLenum)
      (width height border : Int) (format pixelType : GLenum) (pixels : List Nat)
  | glGenerateMipmap (target : GLenum)
  | glActiveTexture (unit : Nat)
  | uniform (name : String) (value : UniformValue R)
  | loadMesh (mesh : Mesh)
  | drawMesh (mesh : Mesh)
deriving DecidableEq

/-- Value of the uniform `name` after the calls of the log `gl` (oldest first): the
value of the latest write to `name`, `none` when it was never written. -/
def getUniform {R : Type} (gl : List (GLCall R)) (name : String) : Option (UniformValue R) :=
  gl.foldl
    (fun acc c =>
      match c with
      | GLCall.uniform n v => if n = name then some v else acc
      | _ => acc)
    none

/-- Texture-unit state of OpenGL: the active unit and, per unit, the texture name bound
to `GL_TEXTURE_2D` (0 for none). -/
structure TextureUnits where
  active : Nat
  bound : Nat → Nat

/-- Texture-unit state after the calls of the log `gl`, from the initial OpenGL state
(unit 0 active, nothing bound): `glActiveTexture(GL_TEXTURE0 + i)` selects unit `i`,
`glBindTexture(GL_TEXTURE_2D, t)` binds `t` on the active unit. -/
def textureUnits {R : Type} (gl : List (GLCall R)) : TextureUnits :=
  gl.foldl
    (fun u c =>
      match c with
      | GLCall.glActiveTexture i => { u with active := i }
      | GLCall.glBindTexture GLenum.GL_TEXTURE_2D t =>
        { u with bound := fun j => if j = u.active then t else u.bound j }
      | _ => u)
    ⟨0, fun _ => 0⟩

/-- Texture names that are allocated after the calls of the log `gl`: those generated
by `glGenTextures` and not released by a later `glDeleteTextures`. -/
def allocatedTextures {R : Type} (gl : List (GLCall R)) : List Nat :=
  gl.foldl
    (fun acc c =>
      match c with
      | GLCall.glGenTextures n => acc ++ [n]
      | GLCall.glDeleteTextures n => acc.filter (fun m => m ≠ n)
      | _ => acc)
    []

/-- What the environment answers: `stbi_load flip filename` is the decoder result
(`none` for a null pointer) under the flip setting `flip`; `glGenTextures gl` is the
texture name the driver hands out after the calls `gl`. -/
structure Externals (R : Type) where
  stbi_load : Bool → String → Option Image
  glGenTextures : List (GLCall R) → Nat

/-- Conversion of a `GLuint` (32 bits, unsigned) to `int` (32 bits, two's complement). -/
def GLuint.toInt (n : Nat) : Int :=
  if n % 2 ^ 32 < 2 ^ 31 then ((n % 2 ^ 32 : Nat) : Int) else ((n % 2 ^ 32 : Nat) : Int) - 2 ^ 32

/-- Modelled from the spec: the class `ShaderManager` (ShaderManager.h is not among the
sources): a handle on the active shader program that accepts named-uniform writes. -/
structure ShaderManager where
  m_programID : Nat
deriving DecidableEq

namespace ShaderManager

variable {R : Type}

/-- Modelled from the spec: `ShaderManager::setMat4Value`, a 4x4 matrix uniform write. -/
def setMat4Value (_sm : ShaderManager) (gl : List (GLCall R)) (name : String)
    (value : glm.mat4 R) : List (GLCall R) :=
  gl ++ [GLCall.uniform name (UniformValue.mat4 value)]

/-- Modelled from the spec: `ShaderManager::setIntValue`, an integer uniform write. -/
def setIntValue (_sm : ShaderManager) (gl : List (GLCall R)) (name : String)
    (value : Int) : List (GLCall R) :=
  gl ++ [GLCall.uniform name (UniformValue.int value)]

/-- Modelled from the spec: `ShaderManager::setBoolValue`, a boolean flag uniform write. -/
def setBoolValue (_sm : ShaderManager) (gl : List (GLCall R)) (name : String)
    (value : Bool) : List (GLCall R) :=
  gl ++ [GLCall.uniform name (UniformValue.bool value)]

/-- Modelled from the spec: `ShaderManager::setSampler2DValue`, the integer sampler index. -/
def setSampler2DValue (_sm : ShaderManager) (gl : List (GLCall R)) (name : String)
    (value : Int) : List (GLCall R) :=
  gl ++ [GLCall.uniform name (UniformValue.sampler2D value)]

/-- Modelled from the spec: `ShaderManager::setFloatValue`, a scalar uniform write. -/
def setFloatValue (_sm : ShaderManager) (gl : List (GLCall R)) (name : String)
    (value : R) : List (GLCall R) :=
  gl ++ [GLCall.uniform name (UniformValue.float value)]

/-- Modelled from the spec: `ShaderManager::setVec2Value`, a 2-component uniform write. -/
def setVec2Value (_sm : ShaderManager) (gl : List (GLCall R)) (name : String)
    (value : glm.vec2 R) : List (GLCall R) :=
  gl ++ [GLCall.uniform name (UniformValue.vec2 value)]

/-- Modelled from the spec: `ShaderManager::setVec3Value`, a 3-component uniform write. -/
def setVec3Value (_sm : ShaderManager) (gl : List (GLCall R)) (name : String)
    (value : glm.vec3 R) : List (GLCall R) :=
  gl ++ [GLCall.uniform name (UniformValue.vec3 value)]

/-- Modelled from the spec: `ShaderManager::setVec4Value`, a 4-component uniform write. -/
def setVec4Value (_sm : ShaderManager) (gl : List (GLCall R)) (name : String)
    (value : glm.vec4 R) : List (GLCall R) :=
  gl ++ [GLCall.uniform name (UniformValue.vec4 value)]

end ShaderManager

/-! ## SceneManager: data model -/

/-- Modelled from the spec: the struct `TEXTURE_INFO` of SceneManager.h (not among the
sources): a tag and the GPU texture name (`GLuint`) registered under it. -/
structure TEXTURE_INFO where
  tag : String
  ID : Nat
deriving DecidableEq

/-- Modelled from the spec: the struct `OBJECT_MATERIAL` of SceneManager.h (not among the
sources), with the fields the source file reads and writes. -/
structure OBJECT_MATERIAL (R : Type) where
  diffuseColor : glm.vec3 R
  specularColor : glm.vec3 R
  shininess : R
  tag : String
deriving DecidableEq

/-- Modelled from the spec: number of cells of the array `m_textureIDs` declared in
SceneManager.h (not among the sources); "at most 16 live entries", "There are up to 16
slots". -/
def textureSlots : Nat := 16

/-- State of a `SceneManager` together with the log `gl` of the calls that reached
OpenGL so far (oldest first).  `m_pShaderManager = none` is the null pointer.  The array
`m_textureIDs` is a map from index to cell; the declared array has `textureSlots` cells
and an index at or above that addresses the memory behind it. -/
structure SceneManager (R : Type) where
  m_pShaderManager : Option ShaderManager
  m_loadedTextures : Nat
  m_textureIDs : Nat → TEXTURE_INFO
  m_objectMaterials : List (OBJECT_MATERIAL R)
  gl : List (GLCall R)

namespace SceneManager

variable {R : Type}

/-- The global `g_ModelName`. -/
def g_ModelName : String := "model"
/-- The global `g_ColorValueName`. -/
def g_ColorValueName : String := "objectColor"
/-- The global `g_TextureValueName`. -/
def g_TextureValueName : String := "objectTexture"
/-- The global `g_UseTextureName`. -/
def g_UseTextureName : String := "bUseTexture"
/-- The global `g_UseLightingName`. -/
def g_UseLightingName : String := "bUseLighting"

/-- The assignments `m_textureIDs[i].ID = id; m_textureIDs[i].tag = tag`. -/
def setTextureEntry (a : Nat → TEXTURE_INFO) (i : Nat) (e : TEXTURE_INFO) : Nat → TEXTURE_INFO :=
  fun j => if j = i then e else a j

/-- `SceneManager::CreateGLTexture` (lines 60-124): returns the `bool` result and the
state after the call. -/
def CreateGLTexture (ext : Externals R) (s : SceneManager R) (filename : String)
    (tag : String) : Bool × SceneManager R :=
  match ext.stbi_load true filename with
  | some image =>
    let textureID : Nat := ext.glGenTextures s.gl
    let gl1 : List (GLCall R) := s.gl ++
      [GLCall.glGenTextures textureID,
       GLCall.glBindTexture GLenum.GL_TEXTURE_2D textureID,
       GLCall.glTexParameteri GLenum.GL_TEXTURE_2D GLenum.GL_TEXTURE_WRAP_S GLenum.GL_REPEAT,
       GLCall.glTexParameteri GLenum.GL_TEXTURE_2D GLenum.GL_TEXTURE_WRAP_T GLenum.GL_REPEAT,
       GLCall.glTexParameteri GLenum.GL_TEXTURE_2D GLenum.GL_TEXTURE_MIN_FILTER GLenum.GL_LINEAR,
       GLCall.glTexParameteri GLenum.GL_TEXTURE_2D GLenum.GL_TEXTURE_MAG_FILTER GLenum.GL_LINEAR]
    let register (gl2 : List (GLCall R)) : Bool × SceneManager R :=
      (true,
        { s with
          gl := gl2 ++ [GLCall.glGenerateMipmap GLenum.GL_TEXTURE_2D,
                        GLCall.glBindTexture GLenum.GL_TEXTURE_2D 0]
          m_textureIDs := setTextureEntry s.m_textureIDs s.m_loadedTextures ⟨tag, textureID⟩
          m_loadedTextures := s.m_loadedTextures + 1 })
    if image.colorChannels = 3 then
      register (gl1 ++ [GLCall.glTexImage2D GLenum.GL_TEXTURE_2D 0 GLenum.GL_RGB8
        image.width image.height 0 GLenum.GL_RGB GLenum.GL_UNSIGNED_BYTE image.pixels])
    else if image.colorChannels = 4 then
      register (gl1 ++ [GLCall.glTexImage2D GLenum.GL_TEXTURE_2D 0 GLenum.GL_RGBA8
        image.width image.height 0 GLenum.GL_RGBA GLenum.GL_UNSIGNED_BYTE image.pixels])
    else
      (false, { s with gl := gl1 })
  | none => (false, s)

/-- The `while` loop of `FindTextureID`, run for at most `fuel` tests of its condition,
from the loop variables `index`, `textureID`, `bFound`. -/
def FindTextureID.loop (s : SceneManager R) (tag : String) : Nat → Nat → Int → Bool → Int
  | 0, _, textureID, _ => textureID
  | fuel + 1, index, textureID, bFound =>
    if index < s.m_loadedTextures ∧ bFound = false then
      if (s.m_textureIDs index).tag = tag then
        FindTextureID.loop s tag fuel index (GLuint.toInt (s.m_textureIDs index).ID) true
      else
        FindTextureID.loop s tag fuel (index + 1) textureID bFound
    else textureID

/-- `SceneManager::FindTextureID` (lines 162-180). -/
def FindTextureID (s : SceneManager R) (tag : String) : Int :=
  FindTextureID.loop s tag (s.m_loadedTextures + 1) 0 (-1) false

/-- The `while` loop of `FindTextureSlot`, run for at most `fuel` tests of its condition,
from the loop variables `index`, `textureSlot`, `bFound`. -/
def FindTextureSlot.loop (s : SceneManager R) (tag : String) : Nat → Nat → Int → Bool → Int
  | 0, _, textureSlot, _ => textureSlot
  | fuel + 1, index, textureSlot, bFound =>
    if index < s.m_loadedTextures ∧ bFound = false then
      if (s.m_textureIDs index).tag = tag then
        FindTextureSlot.loop s tag fuel index (index : Int) true
      else
        FindTextureSlot.loop s tag fuel (index + 1) textureSlot bFound
    else textureSlot

/-- `SceneManager::FindTextureSlot` (lines 188-206). -/
def FindTextureSlot (s : SceneManager R) (tag : String) : Int :=
  FindTextureSlot.loop s tag (s.m_loadedTextures + 1) 0 (-1) false

/-- The `while` loop of `FindMaterial`, run for at most `fuel` tests of its condition,
from the loop variables `index`, `bFound` and the current content of the reference
parameter `material`; returns the final `bFound` and `material`. -/
def FindMaterial.loop (s : SceneManager R) (tag : String) :
    Nat → Nat → Bool → OBJECT_MATERIAL R → Bool × OBJECT_MATERIAL R
  | 0, _, bFound, material => (bFound, material)
  | fuel + 1, index, bFound, material =>
    if h : index < s.m_objectMaterials.length ∧ bFound = false then
      let m := s.m_objectMaterials.get ⟨index, h.1⟩
      if m.tag = tag then
        FindMaterial.loop s tag fuel index true
          { material with
            diffuseColor := m.diffuseColor
            specularColor := m.specularColor
            shininess := m.shininess }
      else
        FindMaterial.loop s tag fuel (index + 1) bFound material
    else (bFound, material)

/-- `SceneManager::FindMaterial` (lines 214-239): the `bool` result and the content of
the reference parameter `material` after the call. -/
def FindMaterial (s : SceneManager R) (tag : String) (material : OBJECT_MATERIAL R) :
    Bool × OBJECT_MATERIAL R :=
  if s.m_objectMaterials.length = 0 then
    (false, material)
  else
    let r := FindMaterial.loop s tag (s.m_objectMaterials.length + 1) 0 false material
    (true, r.2)

/-- The `while` loop of `FindTextureID` on the object: as `FindTextureID.loop`, with the
state of the object handed from each test of the condition to the next and returned at
the end.  The statements of the body assign the locals `textureID`, `bFound`, `index`. -/
def FindTextureID.callLoop (tag : String) :
    Nat → SceneManager R → Nat → Int → Bool → Int × SceneManager R
  | 0, s, _, textureID, _ => (textureID, s)
  | fuel + 1, s, index, textureID, bFound =>
    if index < s.m_loadedTextures ∧ bFound = false then
      if (s.m_textureIDs index).tag = tag then
        FindTextureID.callLoop tag fuel s index (GLuint.toInt (s.m_textureIDs index).ID) true
      else
        FindTextureID.callLoop tag fuel s (index + 1) textureID bFound
    else (textureID, s)

/-- The call `FindTextureID(tag)` on the object in state `s` (lines 162-180): the value
returned and the state of the object after the call. -/
def FindTextureID.call (s : SceneManager R) (tag : String) : Int × SceneManager R :=
  FindTextureID.callLoop tag (s.m_loadedTextures + 1) s 0 (-1) false

/-- The `while` loop of `FindTextureSlot` on the object: as `FindTextureSlot.loop`, with
the state of the object handed from each test of the condition to the next and returned at
the end.  The statements of the body assign the locals `textureSlot`, `bFound`, `index`. -/
def FindTextureSlot.callLoop (tag : String) :
    Nat → SceneManager R → Nat → Int → Bool → Int × SceneManager R
  | 0, s, _, textureSlot, _ => (textureSlot, s)
  | fuel + 1, s, index, textureSlot, bFound =>
    if index < s.m_loadedTextures ∧ bFound = false then
      if (s.m_textureIDs index).tag = tag then
        FindTextureSlot.callLoop tag fuel s index (index : Int) true
      else
        FindTextureSlot.callLoop tag fuel s (index + 1) textureSlot bFound
    else (textureSlot, s)

/-- The call `FindTextureSlot(tag)` on the object in state `s` (lines 188-206): the value
returned and the state of the object after the call. -/
def FindTextureSlot.call (s : SceneManager R) (tag : String) : Int × SceneManager R :=
  FindTextureSlot.callLoop tag (s.m_loadedTextures + 1) s 0 (-1) false

/-- The `while` loop of `FindMaterial` on the object: as `FindMaterial.loop`, with the
state of the object handed from each test of the condition to the next and returned at
the end.  The statements of the body assign the locals `bFound`, `index` and the fields of
the reference parameter `material`. -/
def FindMaterial.callLoop (tag : String) :
    Nat → SceneManager R → Nat → Bool → OBJECT_MATERIAL R →
      (Bool × OBJECT_MATERIAL R) × SceneManager R
  | 0, s, _, bFound, material => ((bFound, material), s)
  | fuel + 1, s, index, bFound, material =>
    if h : index < s.m_objectMaterials.length ∧ bFound = false then
      let m := s.m_objectMaterials.get ⟨index, h.1⟩
      if m.tag = tag then
        FindMaterial.callLoop tag fuel s index true
          { material with
            diffuseColor := m.diffuseColor
            specularColor := m.specularColor
            shininess := m.shininess }
      else
        FindMaterial.callLoop tag fuel s (index + 1) bFound material
    else ((bFound, material), s)

/-- The call `FindMaterial(tag, material)` on the object in state `s` (lines 214-239):
the `bool` returned with the content of `material` after the call, and the state of the
object after the call. -/
def FindMaterial.call (s : SceneManager R) (tag : String) (material : OBJECT_MATERIAL R) :
    (Bool × OBJECT_MATERIAL R) × SceneManager R :=
  if s.m_objectMaterials.length = 0 then
    ((false, material), s)
  else
    let r := FindMaterial.callLoop tag (s.m_objectMaterials.length + 1) s 0 false material
    ((true, r.1.2), r.2)

/-- `SceneManager::SetTransformations` (lines 247-278). -/
def SetTransformations [Zero R] [One R] [Add R] [Sub R] [Mul R] [Div R] [Neg R]
    [OfScientific R] (L : glm.Libm R) (s : SceneManager R) (scaleXYZ : glm.vec3 R)
    (XrotationDegrees YrotationDegrees ZrotationDegrees : R)
    (positionXYZ : glm.vec3 R) (offset : glm.vec3 R) : SceneManager R :=
  let scale := glm.scale scaleXYZ
  let rotationX := glm.rotate L (glm.radians XrotationDegrees) ⟨1, 0, 0⟩
  let rotationY := glm.rotate L (glm.radians YrotationDegrees) ⟨0, 1, 0⟩
  let rotationZ := glm.rotate L (glm.radians ZrotationDegrees) ⟨0, 0, 1⟩
  let translation := glm.translate (positionXYZ.add offset)
  let modelView := (((translation.mul rotationZ).mul rotationY).mul rotationX).mul scale
  match s.m_pShaderManager with
  | some sm => { s with gl := sm.setMat4Value s.gl g_ModelName modelView }
  | none => s

/-- `SceneManager::SetShaderColor` (lines 286-305). -/
def SetShaderColor (s : SceneManager R) (redColorValue greenColorValue blueColorValue
    alphaValue : R) : SceneManager R :=
  let currentColor : glm.vec4 R := ⟨redColorValue, greenColorValue, blueColorValue, alphaValue⟩
  match s.m_pShaderManager with
  | some sm =>
    let gl1 := sm.setIntValue s.gl g_UseTextureName 0
    { s with gl := sm.setVec4Value gl1 g_ColorValueName currentColor }
  | none => s

/-- `SceneManager::SetShaderTexture` (lines 313-324). -/
def SetShaderTexture (s : SceneManager R) (textureTag : String) : SceneManager R :=
  match s.m_pShaderManager with
  | some sm =>
    let gl1 := sm.setIntValue s.gl g_UseTextureName 1
    let textureID : Int := FindTextureSlot s textureTag
    { s with gl := sm.setSampler2DValue gl1 g_TextureValueName textureID }
  | none => s

/-- `SceneManager::SetTextureUVScale` (lines 332-338). -/
def SetTextureUVScale (s : SceneManager R) (u v : R) : SceneManager R :=
  match s.m_pShaderManager with
  | some sm => { s with gl := sm.setVec2Value s.gl "UVscale" ⟨u, v⟩ }
  | none => s

/-- `SceneManager::SetShaderMaterial` (lines 346-362).  `uninit` is the content of the
local `OBJECT_MATERIAL material` at its declaration (it has no initialiser).  The result
is `none` when the call dereferences a null `m_pShaderManager`. -/
def SetShaderMaterial (s : SceneManager R) (uninit : OBJECT_MATERIAL R)
    (materialTag : String) : Option (SceneManager R) :=
  if s.m_objectMaterials.length > 0 then
    let r := FindMaterial s materialTag uninit
    let bReturn := r.1
    let material := r.2
    if bReturn = true then
      match s.m_pShaderManager with
      | some sm =>
        let gl1 := sm.setVec3Value s.gl "material.diffuseColor" material.diffuseColor
        let gl2 := sm.setVec3Value gl1 "material.specularColor" material.specularColor
        some { s with gl := sm.setFloatValue gl2 "material.shininess" material.shininess }
      | none => none
    else some s
  else some s

/-- The `for` loop of `BindGLTextures`, run for at most `fuel` tests of its condition,
from the loop variable `i` and the log `gl`. -/
def BindGLTextures.loop (s : SceneManager R) : Nat → Nat → List (GLCall R) → List (GLCall R)
  | 0, _, gl => gl
  | fuel + 1, i, gl =>
    if i < s.m_loadedTextures then
      BindGLTextures.loop s fuel (i + 1)
        (gl ++ [GLCall.glActiveTexture i,
                GLCall.glBindTexture GLenum.GL_TEXTURE_2D (s.m_textureIDs i).ID])
    else gl

/-- `SceneManager::BindGLTextures` (lines 132-140). -/
def BindGLTextures (s : SceneManager R) : SceneManager R :=
  { s with gl := BindGLTextures.loop s (s.m_loadedTextures + 1) 0 s.gl }

/-- `SceneManager::LoadSceneTextures` (lines 378-406); the results `bReturn` of the four
loads are not read. -/
def LoadSceneTextures (ext : Externals R) (s : SceneManager R) : SceneManager R :=
  let s1 := (CreateGLTexture ext s "textures/Grass.jpg" "Grass").2
  let s2 := (CreateGLTexture ext s1 "textures/Brick.jpg" "Brick").2
  let s3 := (CreateGLTexture ext s2 "textures/Roof.jpg" "Roof").2
  let s4 := (CreateGLTexture ext s3 "textures/Wood.jpg" "Wood").2
  BindGLTextures s4

/-- `SceneManager::DefineObjectMaterials` (lines 408-466). -/
def DefineObjectMaterials [Zero R] [One R] [Add R] [Sub R] [Mul R] [Div R] [Neg R]
    [OfScientific R] (s : SceneManager R) : SceneManager R :=
  let metal : OBJECT_MATERIAL R := ⟨⟨0.4, 0.4, 0.4⟩, ⟨0.5, 0.5, 0.5⟩, 52.0, "metal"⟩
  let mats := s.m_objectMaterials ++ [metal]
  let wood : OBJECT_MATERIAL R := ⟨⟨0.78, 0.49, 0.2⟩, ⟨0.96, 0.72, 0.49⟩, 4.0, "wood"⟩
  let mats := mats ++ [wood]
  let glass : OBJECT_MATERIAL R := ⟨⟨0.2, 0.2, 0.2⟩, ⟨1.0, 1.0, 1.0⟩, 0.25, "glass"⟩
  let mats := mats ++ [glass]
  let stone : OBJECT_MATERIAL R := ⟨⟨0.7, 0.7, 0.7⟩, ⟨0.75, 0.75, 0.75⟩, 2.0, "stone"⟩
  let mats := mats ++ [stone]
  let roof : OBJECT_MATERIAL R := ⟨⟨0.7, 0.35, 0.0⟩, ⟨0.9, 0.53, 0.17⟩, 30.0, "roof"⟩
  let mats := mats ++ [roof]
  let cement : OBJECT_MATERIAL R := ⟨⟨0.6, 0.6, 0.6⟩, ⟨0.75, 0.75, 0.75⟩, 1.0, "cement"⟩
  let mats := mats ++ [cement]
  let grass : OBJECT_MATERIAL R := ⟨⟨0.7, 0.8, 0.2⟩, ⟨0.88, 1.0, 0.24⟩, 5.0, "grass"⟩
  let mats := mats ++ [grass]
  { s with m_objectMaterials := mats }

/-- `SceneManager::SetupSceneLights` (lines 476-518).  The method uses
`m_pShaderManager` without a null test: the result is `none` when it is null. -/
def SetupSceneLights [Zero R] [One R] [Add R] [Sub R] [Mul R] [Div R] [Neg R]
    [OfScientific R] (s : SceneManager R) : Option (SceneManager R) :=
  match s.m_pShaderManager with
  | none => none
  | some sm =>
    let gl := sm.setBoolValue s.gl g_UseLightingName true
    let gl := sm.setVec3Value gl "directionalLight.direction" ⟨20.0, -1.0, -15.0⟩
    let gl := sm.setVec3Value gl "directionalLight.ambient" ⟨0.2, 0.2, 0.2⟩
    let gl := sm.setVec3Value gl "directionalLight.diffuse" ⟨0.8, 0.8, 0.9⟩
    let gl := sm.setVec3Value gl "directionalLight.specular" ⟨0.1, 0.1, 0.1⟩
    let gl := sm.setBoolValue gl "directionalLight.bActive" true
    let gl := sm.setVec3Value gl "pointLights[0].position" ⟨12.0, 1.0, -4.0⟩
    let gl := sm.setVec3Value gl "pointLights[0].ambient" ⟨0.05, 0.05, 0.05⟩
    let gl := sm.setVec3Value gl "pointLights[0].diffuse" ⟨0.33, 0.14, 0.02⟩
    let gl := sm.setVec3Value gl "pointLights[0].specular" ⟨0.1, 0.1, 0.1⟩
    let gl := sm.setBoolValue gl "pointLights[0].bActive" true
    let gl := sm.setVec3Value gl "pointLights[1].position" ⟨11.0, 1.0, -8.0⟩
    let gl := sm.setVec3Value gl "pointLights[1].ambient" ⟨0.05, 0.05, 0.05⟩
    let gl := sm.setVec3Value gl "pointLights[1].diffuse" ⟨0.33, 0.14, 0.02⟩
    let gl := sm.setVec3Value gl "pointLights[1].specular" ⟨0.1, 0.1, 0.1⟩
    let gl := sm.setBoolValue gl "pointLights[1].bActive" true
    let gl := sm.setVec3Value gl "pointLights[2].position" ⟨-4.0, 1.0, -10.0⟩
    let gl := sm.setVec3Value gl "pointLights[2].ambient" ⟨0.05, 0.05, 0.05⟩
    let gl := sm.setVec3Value gl "pointLights[2].diffuse" ⟨0.33, 0.14, 0.02⟩
    let gl := sm.setVec3Value gl "pointLights[2].specular" ⟨0.1, 0.1, 0.1⟩
    let gl := sm.setBoolValue gl "pointLights[2].bActive" true
    let gl := sm.setVec3Value gl "pointLights[3].position" ⟨8.5, 1.0, -10.0⟩
    let gl := sm.setVec3Value gl "pointLights[3].ambient" ⟨0.05, 0.05, 0.05⟩
    let gl := sm.setVec3Value gl "pointLights[3].diffuse" ⟨0.33, 0.14, 0.02⟩
    let gl := sm.setVec3Value gl "pointLights[3].specular" ⟨0.1, 0.1, 0.1⟩
    let gl := sm.setBoolValue gl "pointLights[3].bActive" true
    some { s with gl := gl }

/-- Modelled from the spec: the methods `Load...Mesh()` of `ShapeMeshes` that
`PrepareScene` calls on `m_basicMeshes`, in the order of lines 542-550. -/
def loadBasicMeshes (gl : List (GLCall R)) : List (GLCall R) :=
  gl ++ [GLCall.loadMesh Mesh.Box, GLCall.loadMesh Mesh.Plane, GLCall.loadMesh Mesh.Cylinder,
         GLCall.loadMesh Mesh.Cone, GLCall.loadMesh Mesh.Prism, GLCall.loadMesh Mesh.Pyramid4,
         GLCall.loadMesh Mesh.Sphere, GLCall.loadMesh Mesh.TaperedCylinder,
         GLCall.loadMesh Mesh.Torus]

/-- `SceneManager::PrepareScene` (lines 527-551); `none` when `SetupSceneLights`
dereferences a null `m_pShaderManager`. -/
def PrepareScene [Zero R] [One R] [Add R] [Sub R] [Mul R] [Div R] [Neg R]
    [OfScientific R] (ext : Externals R) (s : SceneManager R) :
    Option (SceneManager R) :=
  let s1 := LoadSceneTextures ext s
  let s2 := DefineObjectMaterials s1
  match SetupSceneLights s2 with
  | none => none
  | some s3 => some { s3 with gl := loadBasicMeshes s3.gl }

/-- Modelled from the spec: the default argument of the parameter `offset` of
`SetTransformations`, declared in SceneManager.h (not among the sources): a zero offset,
so that a call without offset translates by the position alone. -/
def defaultOffset [Zero R] [One R] [Add R] [Sub R] [Mul R] [Div R] [Neg R]
    [OfScientific R] : glm.vec3 R := ⟨0, 0, 0⟩

/-- The `for` loop of `DestroyGLTextures`, run for at most `fuel` tests of its condition,
from the loop variable `i`, the log `gl` and the texture cells `ids`. -/
def DestroyGLTextures.loop (ext : Externals R) (s : SceneManager R) :
    Nat → Nat → List (GLCall R) → (Nat → TEXTURE_INFO) →
      List (GLCall R) × (Nat → TEXTURE_INFO)
  | 0, _, gl, ids => (gl, ids)
  | fuel + 1, i, gl, ids =>
    if i < s.m_loadedTextures then
      let name := ext.glGenTextures gl
      DestroyGLTextures.loop ext s fuel (i + 1) (gl ++ [GLCall.glGenTextures name])
        (fun j => if j = i then { ids j with ID := name } else ids j)
    else (gl, ids)

/-- `SceneManager::DestroyGLTextures` (lines 148-154): each iteration is
`glGenTextures(1, &m_textureIDs[i].ID)`. -/
def DestroyGLTextures (ext : Externals R) (s : SceneManager R) : SceneManager R :=
  let r := DestroyGLTextures.loop ext s (s.m_loadedTextures + 1) 0 s.gl s.m_textureIDs
  { s with gl := r.1, m_textureIDs := r.2 }

/-- Modelled from the spec: `ShapeMeshes::DrawBoxMesh` called on `m_basicMeshes`, the
"draw primitive" capability for the box. -/
def DrawBoxMesh (s : SceneManager R) : SceneManager R :=
  { s with gl := s.gl ++ [GLCall.drawMesh Mesh.Box] }

/-- Modelled from the spec: `ShapeMeshes::DrawPlaneMesh` called on `m_basicMeshes`. -/
def DrawPlaneMesh (s : SceneManager R) : SceneManager R :=
  { s with gl := s.gl ++ [GLCall.drawMesh Mesh.Plane] }

/-- Modelled from the spec: `ShapeMeshes::DrawCylinderMesh` called on `m_basicMeshes`. -/
def DrawCylinderMesh (s : SceneManager R) : SceneManager R :=
  { s with gl := s.gl ++ [GLCall.drawMesh Mesh.Cylinder] }

/-- Modelled from the spec: `ShapeMeshes::DrawConeMesh` called on `m_basicMeshes`. -/
def DrawConeMesh (s : SceneManager R) : SceneManager R :=
  { s with gl := s.gl ++ [GLCall.drawMesh Mesh.Cone] }

/-- Modelled from the spec: `ShapeMeshes::DrawPrismMesh` called on `m_basicMeshes`. -/
def DrawPrismMesh (s : SceneManager R) : SceneManager R :=
  { s with gl := s.gl ++ [GLCall.drawMesh Mesh.Prism] }

/-- One statement of a render routine: a call of a `SceneManager` method, or of a draw
method of `m_basicMeshes`, with its arguments (`SetTransformations` is called without
its last argument `offset`). -/
inductive Call (R : Type) where
  | SetTransformations (scaleXYZ : glm.vec3 R)
      (XrotationDegrees YrotationDegrees ZrotationDegrees : R) (positionXYZ : glm.vec3 R)
  | SetShaderColor (redColorValue greenColorValue blueColorValue alphaValue : R)
  | SetShaderTexture (textureTag : String)
  | SetTextureUVScale (u v : R)
  | SetShaderMaterial (materialTag : String)
  | DrawBoxMesh
  | DrawPlaneMesh
  | DrawCylinderMesh
  | DrawConeMesh
  | DrawPrismMesh

/-- Execution of one statement of a render routine; `none` when it dereferences a null
pointer.  `uninit` is what the uninitialised local of `SetShaderMaterial` holds. -/
def exec [Zero R] [One R] [Add R] [Sub R] [Mul R] [Div R] [Neg R]
    [OfScientific R] (L : glm.Libm R) (uninit : OBJECT_MATERIAL R) (c : Call R)
    (s : SceneManager R) : Option (SceneManager R) :=
  match c with
  | Call.SetTransformations scaleXYZ rx ry rz positionXYZ =>
    some (SetTransformations L s scaleXYZ rx ry rz positionXYZ defaultOffset)
  | Call.SetShaderColor r g b a => some (SetShaderColor s r g b a)
  | Call.SetShaderTexture textureTag => some (SetShaderTexture s textureTag)
  | Call.SetTextureUVScale u v => some (SetTextureUVScale s u v)
  | Call.SetShaderMaterial materialTag => SetShaderMaterial s uninit materialTag
  | Call.DrawBoxMesh => some (DrawBoxMesh s)
  | Call.DrawPlaneMesh => some (DrawPlaneMesh s)
  | Call.DrawCylinderMesh => some (DrawCylinderMesh s)
  | Call.DrawConeMesh => some (DrawConeMesh s)
  | Call.DrawPrismMesh => some (DrawPrismMesh s)

/-- Execution of a sequence of statements, one after the other. -/
def run [Zero R] [One R] [Add R] [Sub R] [Mul R] [Div R] [Neg R]
    [OfScientific R] (L : glm.Libm R) (uninit : OBJECT_MATERIAL R) :
    List (Call R) → SceneManager R → Option (SceneManager R)
  | [], s => some s
  | c :: cs, s =>
    match exec L uninit c s with
    | some s1 => run L uninit cs s1
    | none => none

/-- The statements of `SceneManager::RenderGround` (lines 591-631) that call a method,
in program order, with the values the locals `scaleXYZ`, `XrotationDegrees`,
`YrotationDegrees`, `ZrotationDegrees` and `positionXYZ` hold at each call. -/
def RenderGround.calls [Zero R] [One R] [Add R] [Sub R] [Mul R] [Div R] [Neg R]
    [OfScientific R] (Xrotation : R) : List (Call R) :=
  [Call.SetTransformations ⟨50.0, 1.0, 30.0⟩ Xrotation 0.0 0.0 ⟨0.0, 0.0, 0.0⟩,
   Call.SetShaderTexture "Grass",
   Call.SetTextureUVScale 16.0 16.0,
   Call.SetShaderMaterial "grass",
   Call.DrawPlaneMesh]

/-- `SceneManager::RenderGround` (lines 591-631). -/
def RenderGround [Zero R] [One R] [Add R] [Sub R] [Mul R] [Div R] [Neg R]
    [OfScientific R] (L : glm.Libm R) (uninit : OBJECT_MATERIAL R) (s : SceneManager R)
    (Xrotation : R) :
    Option (SceneManager R) :=
  run L uninit (RenderGround.calls Xrotation) s

/-- The statements of `SceneManager::RenderHouse` (lines 640-813) that call a method,
in program order, with the values the locals `scaleXYZ`, `XrotationDegrees`,
`YrotationDegrees`, `ZrotationDegrees` and `positionXYZ` hold at each call. -/
def RenderHouse.calls [Zero R] [One R] [Add R] [Sub R] [Mul R] [Div R] [Neg R]
    [OfScientific R] (Xrot Yrot Zrot Xpos Ypos Zpos : R) : List (Call R) :=
  [Call.SetTransformations ⟨1.0, 1.0, 2.0⟩ (0.0 + Xrot) (90.0 + Yrot) (0.0 + Zrot) ⟨0.0 + Xpos, 0.5 + Ypos, 0.0 + Zpos⟩,
   Call.SetShaderColor 0.91 0.85 0.71 1.0,
   Call.SetShaderTexture "Brick",
   Call.SetTextureUVScale 4.0 4.0,
   Call.SetShaderMaterial "stone",
   Call.DrawBoxMesh,
   Call.SetTransformations ⟨1.0, 2.05, 1.0⟩ (-90.0 + Xrot) (90.0 + Yrot) (0.0 + Zrot) ⟨0.0 + Xpos, 1.5 + Ypos, 0.0 + Zpos⟩,
   Call.SetShaderTexture "Roof",
   Call.SetTextureUVScale 1.25 2.25,
   Call.SetShaderMaterial "roof",
   Call.DrawPrismMesh,
   Call.SetTransformations ⟨0.25, 0.50, 0.25⟩ (0.0 + Xrot) (0.0 + Yrot) (0.0 + Zrot) ⟨0.0 + Xpos, 0.25 + Ypos, 0.39 + Zpos⟩,
   Call.SetShaderTexture "Wood",
   Call.SetTextureUVScale 1.5 2.0,
   Call.SetShaderMaterial "wood",
   Call.DrawBoxMesh,
   Call.SetTransformations ⟨0.375, 0.375, 0.25⟩ (0.0 + Xrot) (0.0 + Yrot) (0.0 + Zrot) ⟨-0.5 + Xpos, 0.625 + Ypos, 0.39 + Zpos⟩,
   Call.SetShaderColor 0.41 0.83 0.85 1.0,
   Call.SetShaderMaterial "glass",
   Call.DrawBoxMesh,
   Call.DrawBoxMesh,
   Call.SetTransformations ⟨0.375, 0.375, 0.25⟩ (0.0 + Xrot) (0.0 + Yrot) (0.0 + Zrot) ⟨0.5 + Xpos, 0.625 + Ypos, 0.39 + Zpos⟩,
   Call.SetShaderColor 0.41 0.83 0.85 1.0,
   Call.SetShaderMaterial "glass",
   Call.DrawBoxMesh]

/-- `SceneManager::RenderHouse` (lines 640-813). -/
def RenderHouse [Zero R] [One R] [Add R] [Sub R] [Mul R] [Div R] [Neg R]
    [OfScientific R] (L : glm.Libm R) (uninit : OBJECT_MATERIAL R) (s : SceneManager R)
    (Xrot Yrot Zrot Xpos Ypos Zpos : R) :
    Option (SceneManager R) :=
  run L uninit (RenderHouse.calls Xrot Yrot Zrot Xpos Ypos Zpos) s

/-- The statements of `SceneManager::RenderHouse2` (lines 822-995) that call a method,
in program order, with the values the locals `scaleXYZ`, `XrotationDegrees`,
`YrotationDegrees`, `ZrotationDegrees` and `positionXYZ` hold at each call. -/
def RenderHouse2.calls [Zero R] [One R] [Add R] [Sub R] [Mul R] [Div R] [Neg R]
    [OfScientific R] (Xrot Yrot Zrot Xpos Ypos Zpos : R) : List (Call R) :=
  [Call.SetTransformations ⟨1.0, 1.0, 2.0⟩ (0.0 + Xrot) (0.0 + Yrot) (0.0 + Zrot) ⟨0.0 + Xpos, 0.5 + Ypos, 0.0 + Zpos⟩,
   Call.SetShaderColor 0.91 0.85 0.71 1.0,
   Call.SetShaderTexture "Brick",
   Call.SetTextureUVScale 4.0 4.0,
   Call.SetShaderMaterial "stone",
   Call.DrawBoxMesh,
   Call.SetTransformations ⟨1.0, 2.05, 1.0⟩ (-90.0 + Xrot) (0.0 + Yrot) (0.0 + Zrot) ⟨0.0 + Xpos, 1.5 + Ypos, 0.0 + Zpos⟩,
   Call.SetShaderTexture "Roof",
   Call.SetTextureUVScale 1.25 2.25,
   Call.SetShaderMaterial "roof",
   Call.DrawPrismMesh,
   Call.SetTransformations ⟨0.25, 0.50, 0.25⟩ (0.0 + Xrot) (90.0 + Yrot) (0.0 + Zrot) ⟨-0.39 + Xpos, 0.25 + Ypos, 0.0 + Zpos⟩,
   Call.SetShaderTexture "Wood",
   Call.SetTextureUVScale 1.5 2.0,
   Call.SetShaderMaterial "wood",
   Call.DrawBoxMesh,
   Call.SetTransformations ⟨0.375, 0.375, 0.25⟩ (0.0 + Xrot) (90.0 + Yrot) (0.0 + Zrot) ⟨-0.39 + Xpos, 0.625 + Ypos, 0.5 + Zpos⟩,
   Call.SetShaderColor 0.41 0.83 0.85 1.0,
   Call.SetShaderMaterial "glass",
   Call.DrawBoxMesh,
   Call.DrawBoxMesh,
   Call.SetTransformations ⟨0.375, 0.375, 0.25⟩ (0.0 + Xrot) (90.0 + Yrot) (0.0 + Zrot) ⟨-0.39 + Xpos, 0.625 + Ypos, -0.5 + Zpos⟩,
   Call.SetShaderColor 0.41 0.83 0.85 1.0,
   Call.SetShaderMaterial "glass",
   Call.DrawBoxMesh]

/-- `SceneManager::RenderHouse2` (lines 822-995). -/
def RenderHouse2 [Zero R] [One R] [Add R] [Sub R] [Mul R] [Div R] [Neg R]
    [OfScientific R] (L : glm.Libm R) (uninit : OBJECT_MATERIAL R) (s : SceneManager R)
    (Xrot Yrot Zrot Xpos Ypos Zpos : R) :
    Option (SceneManager R) :=
  run L uninit (RenderHouse2.calls Xrot Yrot Zrot Xpos Ypos Zpos) s

/-- The statements of `SceneManager::RenderHouse3` (lines 1005-1178) that call a method,
in program order, with the values the locals `scaleXYZ`, `XrotationDegrees`,
`YrotationDegrees`, `ZrotationDegrees` and `positionXYZ` hold at each call. -/
def RenderHouse3.calls [Zero R] [One R] [Add R] [Sub R] [Mul R] [Div R] [Neg R]
    [OfScientific R] (Xrot Yrot Zrot Xpos Ypos Zpos : R) : List (Call R) :=
  [Call.SetTransformations ⟨1.0, 1.0, 2.0⟩ (0.0 + Xrot) (0.0 + Yrot) (0.0 + Zrot) ⟨0.0 + Xpos, 0.5 + Ypos, 0.0 + Zpos⟩,
   Call.SetShaderColor 0.91 0.85 0.71 1.0,
   Call.SetShaderTexture "Brick",
   Call.SetTextureUVScale 4.0 4.0,
   Call.SetShaderMaterial "stone",
   Call.DrawBoxMesh,
   Call.SetTransformations ⟨1.0, 2.05, 1.0⟩ (-90.0 + Xrot) (0.0 + Yrot) (0.0 + Zrot) ⟨0.0 + Xpos, 1.5 + Ypos, 0.0 + Zpos⟩,
   Call.SetShaderTexture "Roof",
   Call.SetTextureUVScale 1.25 2.25,
   Call.SetShaderMaterial "roof",
   Call.DrawPrismMesh,
   Call.SetTransformations ⟨0.25, 0.50, 0.25⟩ (0.0 + Xrot) (90.0 + Yrot) (0.0 + Zrot) ⟨0.39 + Xpos, 0.25 + Ypos, 0.0 + Zpos⟩,
   Call.SetShaderTexture "Wood",
   Call.SetTextureUVScale 1.5 2.0,
   Call.SetShaderMaterial "wood",
   Call.DrawBoxMesh,
   Call.SetTransformations ⟨0.375, 0.375, 0.25⟩ (0.0 + Xrot) (90.0 + Yrot) (0.0 + Zrot) ⟨0.39 + Xpos, 0.625 + Ypos, -0.5 + Zpos⟩,
   Call.SetShaderColor 0.41 0.83 0.85 1.0,
   Call.SetShaderMaterial "glass",
   Call.DrawBoxMesh,
   Call.DrawBoxMesh,
   Call.SetTransformations ⟨0.375, 0.375, 0.25⟩ (0.0 + Xrot) (90.0 + Yrot) (0.0 + Zrot) ⟨0.39 + Xpos, 0.625 + Ypos, 0.5 + Zpos⟩,
   Call.SetShaderColor 0.41 0.83 0.85 1.0,
   Call.SetShaderMaterial "glass",
   Call.DrawBoxMesh]

/-- `SceneManager::RenderHouse3` (lines 1005-1178). -/
def RenderHouse3 [Zero R] [One R] [Add R] [Sub R] [Mul R] [Div R] [Neg R]
    [OfScientific R] (L : glm.Libm R) (uninit : OBJECT_MATERIAL R) (s : SceneManager R)
    (Xrot Yrot Zrot Xpos Ypos Zpos : R) :
    Option (SceneManager R) :=
  run L uninit (RenderHouse3.calls Xrot Yrot Zrot Xpos Ypos Zpos) s

/-- The statements of `SceneManager::RenderWindmill` (lines 1187-1385) that call a method,
in program order, with the values the locals `scaleXYZ`, `XrotationDegrees`,
`YrotationDegrees`, `ZrotationDegrees` and `positionXYZ` hold at each call. -/
def RenderWindmill.calls [Zero R] [One R] [Add R] [Sub R] [Mul R] [Div R] [Neg R]
    [OfScientific R] : List (Call R) :=
  [Call.SetTransformations ⟨1.0, 4.0, 1.0⟩ 0.0 0.0 0.0 ⟨12.0, 0.0, -4.0⟩,
   Call.SetShaderColor 0.91 0.85 0.71 1.0,
   Call.SetShaderTexture "Brick",
   Call.SetTextureUVScale 4.0 4.0,
   Call.SetShaderMaterial "stone",
   Call.DrawCylinderMesh,
   Call.SetTransformations ⟨1.0, 2.0, 1.0⟩ 0.0 0.0 0.0 ⟨12.0, 4.0, -4.0⟩,
   Call.SetShaderTexture "Roof",
   Call.SetTextureUVScale 2.0 2.0,
   Call.SetShaderMaterial "roof",
   Call.DrawConeMesh,
   Call.SetTransformations ⟨0.10, 1.0, 0.10⟩ 45.0 0.0 90.0 ⟨11.35, 3.0, -3.35⟩,
   Call.SetShaderTexture "Wood",
   Call.SetTextureUVScale 1.5 2.0,
   Call.SetShaderMaterial "wood",
   Call.DrawCylinderMesh,
   Call.SetTransformations ⟨0.25, 0.50, 0.25⟩ 0.0 45.0 0.0 ⟨11.38, 0.25, -3.38⟩,
   Call.SetTransformations ⟨0.05, 3.0, 0.35⟩ 45.0 45.0 0.0 ⟨10.75, 3.0, -2.75⟩,
   Call.SetShaderTexture "Wood",
   Call.SetTextureUVScale 3.0 6.0,
   Call.SetShaderMaterial "wood",
   Call.DrawBoxMesh,
   Call.SetTransformations ⟨0.05, 3.0, 0.35⟩ (-45.0) 45.0 0.0 ⟨10.75, 3.0, -2.75⟩,
   Call.SetShaderTexture "Wood",
   Call.SetTextureUVScale 3.0 6.0,
   Call.SetShaderMaterial "wood",
   Call.DrawBoxMesh]

/-- `SceneManager::RenderWindmill` (lines 1187-1385). -/
def RenderWindmill [Zero R] [One R] [Add R] [Sub R] [Mul R] [Div R] [Neg R]
    [OfScientific R] (L : glm.Libm R) (uninit : OBJECT_MATERIAL R) (s : SceneManager R) :
    Option (SceneManager R) :=
  run L uninit (RenderWindmill.calls) s

/-- The statements of `SceneManager::RenderWall` (lines 1392-1580) that call a method,
in program order, with the values the locals `scaleXYZ`, `XrotationDegrees`,
`YrotationDegrees`, `ZrotationDegrees` and `positionXYZ` hold at each call. -/
def RenderWall.calls [Zero R] [One R] [Add R] [Sub R] [Mul R] [Div R] [Neg R]
    [OfScientific R] : List (Call R) :=
  [Call.SetTransformations ⟨100.0, 20.0, 5.0⟩ 0.0 0.0 0.0 ⟨0.0, 10.0, -28.0⟩,
   Call.SetShaderColor 0.6 0.6 0.6 1.0,
   Call.SetShaderMaterial "cement",
   Call.DrawBoxMesh,
   Call.SetTransformations ⟨5.0, 22.0, 10.0⟩ 0.0 0.0 0.0 ⟨0.0, 10.0, -28.0⟩,
   Call.SetShaderColor 0.6 0.6 0.6 1.0,
   Call.SetShaderMaterial "cement",
   Call.DrawBoxMesh,
   Call.SetTransformations ⟨5.0, 22.0, 10.0⟩ 0.0 0.0 0.0 ⟨25.0, 10.0, -28.0⟩,
   Call.SetShaderColor 0.6 0.6 0.6 1.0,
   Call.SetShaderMaterial "cement",
   Call.DrawBoxMesh,
   Call.SetTransformations ⟨5.0, 22.0, 10.0⟩ 0.0 0.0 0.0 ⟨50.0, 10.0, -28.0⟩,
   Call.SetShaderColor 0.6 0.6 0.6 1.0,
   Call.SetShaderMaterial "cement",
   Call.DrawBoxMesh,
   Call.SetTransformations ⟨5.0, 22.0, 10.0⟩ 0.0 0.0 0.0 ⟨-25.0, 10.0, -28.0⟩,
   Call.SetShaderColor 0.6 0.6 0.6 1.0,
   Call.SetShaderMaterial "cement",
   Call.DrawBoxMesh,
   Call.SetTransformations ⟨5.0, 22.0, 10.0⟩ 0.0 0.0 0.0 ⟨-50.0, 10.0, -28.0⟩,
   Call.SetShaderColor 0.6 0.6 0.6 1.0,
   Call.SetShaderMaterial "cement",
   Call.DrawBoxMesh]

/-- `SceneManager::RenderWall` (lines 1392-1580). -/
def RenderWall [Zero R] [One R] [Add R] [Sub R] [Mul R] [Div R] [Neg R]
    [OfScientific R] (L : glm.Libm R) (uninit : OBJECT_MATERIAL R) (s : SceneManager R) :
    Option (SceneManager R) :=
  run L uninit (RenderWall.calls) s

/-- `SceneManager::RenderScene` (lines 559-584). -/
def RenderScene [Zero R] [One R] [Add R] [Sub R] [Mul R] [Div R] [Neg R]
    [OfScientific R] (L : glm.Libm R) (uninit : OBJECT_MATERIAL R) (s : SceneManager R) :
    Option (SceneManager R) :=
  match RenderGround L uninit s 0.0 with
  | none => none
  | some s =>
  match RenderHouse L uninit s 0.0 0.0 0.0 (-6.6) 0.0 (-7.2) with
  | none => none
  | some s =>
  match RenderHouse L uninit s 0.0 0.0 0.0 (-4.4) 0.0 (-7.2) with
  | none => none
  | some s =>
  match RenderHouse L uninit s 0.0 0.0 0.0 (-2.2) 0.0 (-7.2) with
  | none => none
  | some s =>
  match RenderHouse L uninit s 0.0 0.0 0.0 0.0 0.0 (-7.2) with
  | none => none
  | some s =>
  match RenderHouse L uninit s 0.0 0.0 0.0 2.2 0.0 (-7.2) with
  | none => none
  | some s =>
  match RenderHouse L uninit s 0.0 0.0 0.0 4.4 0.0 (-7.2) with
  | none => none
  | some s =>
  match RenderHouse L uninit s 0.0 0.0 0.0 6.6 0.0 (-7.2) with
  | none => none
  | some s =>
  match RenderHouse L uninit s 0.0 0.0 0.0 (-6.6) 0.0 (-3.1) with
  | none => none
  | some s =>
  match RenderHouse L uninit s 0.0 0.0 0.0 (-4.4) 0.0 (-3.1) with
  | none => none
  | some s =>
  match RenderHouse L uninit s 0.0 0.0 0.0 (-2.2) 0.0 (-3.1) with
  | none => none
  | some s =>
  match RenderHouse L uninit s 0.0 0.0 0.0 0.0 0.0 (-3.1) with
  | none => none
  | some s =>
  match RenderHouse L uninit s 0.0 0.0 0.0 2.2 0.0 (-3.1) with
  | none => none
  | some s =>
  match RenderHouse L uninit s 0.0 0.0 0.0 4.4 0.0 (-3.1) with
  | none => none
  | some s =>
  match RenderHouse L uninit s 0.0 0.0 0.0 6.6 0.0 (-3.1) with
  | none => none
  | some s =>
  match RenderHouse2 L uninit s 0.0 0.0 0.0 9.0 0.0 (-2.8) with
  | none => none
  | some s =>
  match RenderHouse2 L uninit s 0.0 0.0 0.0 9.0 0.0 (-5.0) with
  | none => none
  | some s =>
  match RenderHouse2 L uninit s 0.0 0.0 0.0 9.0 0.0 (-7.2) with
  | none => none
  | some s =>
  match RenderHouse3 L uninit s 0.0 0.0 0.0 (-9.0) 0.0 (-2.8) with
  | none => none
  | some s =>
  match RenderHouse3 L uninit s 0.0 0.0 0.0 (-9.0) 0.0 (-5.0) with
  | none => none
  | some s =>
  match RenderHouse3 L uninit s 0.0 0.0 0.0 (-9.0) 0.0 (-7.2) with
  | none => none
  | some s =>
  match RenderWall L uninit s with
  | none => none
  | some s =>
  RenderWindmill L uninit s

end SceneManager

/-! ## Specification-side descriptions of call sequences -/

namespace Spec

variable {R : Type}

/-- The calls that bind the handle of entry `i` to texture unit `i`, for `i` from `0`
up to `n - 1` in this order. -/
def bindCalls (ids : Nat → TEXTURE_INFO) : Nat → List (GLCall R)
  | 0 => []
  | n + 1 => bindCalls ids n ++
      [GLCall.glActiveTexture n, GLCall.glBindTexture GLenum.GL_TEXTURE_2D (ids n).ID]

/-- The calls of a texture load: generate, bind, parameters, upload, mipmaps. -/
def isTextureLoadCall : GLCall R → Bool
  | GLCall.glGenTextures _ => true
  | GLCall.glBindTexture _ _ => true
  | GLCall.glTexParameteri _ _ _ => true
  | GLCall.glTexImage2D _ _ _ _ _ _ _ _ _ => true
  | GLCall.glGenerateMipmap _ => true
  | _ => false

/-- The content of the reference parameter `material` after the diffuse colour, specular
colour and shininess of the material `m` were copied into it. -/
def copyMaterial (m material : OBJECT_MATERIAL R) : OBJECT_MATERIAL R :=
  { material with
    diffuseColor := m.diffuseColor
    specularColor := m.specularColor
    shininess := m.shininess }

/-- The light configuration of the scene as a sequence of uniform writes: the global
lighting flag, the directional light, and the point lights 0 to 3, each with its
direction or position, ambient, diffuse and specular colours and its enabled flag. -/
def sceneLightWrites [Field R] : List (GLCall R) :=
  [GLCall.uniform "bUseLighting" (UniformValue.bool true),
   GLCall.uniform "directionalLight.direction" (UniformValue.vec3 ⟨20.0, -1.0, -15.0⟩),
   GLCall.uniform "directionalLight.ambient" (UniformValue.vec3 ⟨0.2, 0.2, 0.2⟩),
   GLCall.uniform "directionalLight.diffuse" (UniformValue.vec3 ⟨0.8, 0.8, 0.9⟩),
   GLCall.uniform "directionalLight.specular" (UniformValue.vec3 ⟨0.1, 0.1, 0.1⟩),
   GLCall.uniform "directionalLight.bActive" (UniformValue.bool true),
   GLCall.uniform "pointLights[0].position" (UniformValue.vec3 ⟨12.0, 1.0, -4.0⟩),
   GLCall.uniform "pointLights[0].ambient" (UniformValue.vec3 ⟨0.05, 0.05, 0.05⟩),
   GLCall.uniform "pointLights[0].diffuse" (UniformValue.vec3 ⟨0.33, 0.14, 0.02⟩),
   GLCall.uniform "pointLights[0].specular" (UniformValue.vec3 ⟨0.1, 0.1, 0.1⟩),
   GLCall.uniform "pointLights[0].bActive" (UniformValue.bool true),
   GLCall.uniform "pointLights[1].position" (UniformValue.vec3 ⟨11.0, 1.0, -8.0⟩),
   GLCall.uniform "pointLights[1].ambient" (UniformValue.vec3 ⟨0.05, 0.05, 0.05⟩),
   GLCall.uniform "pointLights[1].diffuse" (UniformValue.vec3 ⟨0.33, 0.14, 0.02⟩),
   GLCall.uniform "pointLights[1].specular" (UniformValue.vec3 ⟨0.1, 0.1, 0.1⟩),
   GLCall.uniform "pointLights[1].bActive" (UniformValue.bool true),
   GLCall.uniform "pointLights[2].position" (UniformValue.vec3 ⟨-4.0, 1.0, -10.0⟩),
   GLCall.uniform "pointLights[2].ambient" (UniformValue.vec3 ⟨0.05, 0.05, 0.05⟩),
   GLCall.uniform "pointLights[2].diffuse" (UniformValue.vec3 ⟨0.33, 0.14, 0.02⟩),
   GLCall.uniform "pointLights[2].specular" (UniformValue.vec3 ⟨0.1, 0.1, 0.1⟩),
   GLCall.uniform "pointLights[2].bActive" (UniformValue.bool true),
   GLCall.uniform "pointLights[3].position" (UniformValue.vec3 ⟨8.5, 1.0, -10.0⟩),
   GLCall.uniform "pointLights[3].ambient" (UniformValue.vec3 ⟨0.05, 0.05, 0.05⟩),
   GLCall.uniform "pointLights[3].diffuse" (UniformValue.vec3 ⟨0.33, 0.14, 0.02⟩),
   GLCall.uniform "pointLights[3].specular" (UniformValue.vec3 ⟨0.1, 0.1, 0.1⟩),
   GLCall.uniform "pointLights[3].bActive" (UniformValue.bool true)]

/-- The mesh loads of the scene preparation, in order. -/
def meshLoads : List (GLCall R) :=
  [GLCall.loadMesh Mesh.Box, GLCall.loadMesh Mesh.Plane, GLCall.loadMesh Mesh.Cylinder,
   GLCall.loadMesh Mesh.Cone, GLCall.loadMesh Mesh.Prism, GLCall.loadMesh Mesh.Pyramid4,
   GLCall.loadMesh Mesh.Sphere, GLCall.loadMesh Mesh.TaperedCylinder,
   GLCall.loadMesh Mesh.Torus]

/-- Tags of the registered texture entries, in slot order. -/
def registeredTags (s : SceneManager R) : List String :=
  (List.range s.m_loadedTextures).map fun i => (s.m_textureIDs i).tag

/-- Whether the image file decodes to an image with 3 or 4 channels. -/
def decodes (ext : Externals R) (filename : String) : Bool :=
  match ext.stbi_load true filename with
  | some image => decide (image.colorChannels = 3 ∨ image.colorChannels = 4)
  | none => false

/-- The tags of the scene textures whose load succeeds, in load order. -/
def loadedSceneTags (ext : Externals R) : List String :=
  (if decodes ext "textures/Grass.jpg" then ["Grass"] else []) ++
  (if decodes ext "textures/Brick.jpg" then ["Brick"] else []) ++
  (if decodes ext "textures/Roof.jpg" then ["Roof"] else []) ++
  (if decodes ext "textures/Wood.jpg" then ["Wood"] else [])

/-- The model matrix of a transform request: `Translate(position + offset) * RotateZ *
RotateY * RotateX * Scale`, the angles given in degrees. -/
def modelMatrix [Field R] (L : glm.Libm R) (scaleXYZ : glm.vec3 R) (rx ry rz : R)
    (positionXYZ offset : glm.vec3 R) : Matrix (Fin 4) (Fin 4) R :=
  Translate (positionXYZ.add offset) * RotateZ L (glm.radians rz) *
    RotateY L (glm.radians ry) * RotateX L (glm.radians rx) * Scale scaleXYZ

/-- What one statement of a render routine sends to OpenGL in the state `s`, under a
non-null shader manager. -/
def callLog [Field R] (L : glm.Libm R) (uninit : OBJECT_MATERIAL R) (s : SceneManager R) :
    SceneManager.Call R → List (GLCall R)
  | SceneManager.Call.SetTransformations scaleXYZ rx ry rz positionXYZ =>
    [GLCall.uniform "model" (UniformValue.mat4 (glm.mat4.ofMatrix
      (modelMatrix L scaleXYZ rx ry rz positionXYZ SceneManager.defaultOffset)))]
  | SceneManager.Call.SetShaderColor r g b a =>
    [GLCall.uniform "bUseTexture" (UniformValue.int 0),
     GLCall.uniform "objectColor" (UniformValue.vec4 ⟨r, g, b, a⟩)]
  | SceneManager.Call.SetShaderTexture textureTag =>
    [GLCall.uniform "bUseTexture" (UniformValue.int 1),
     GLCall.uniform "objectTexture"
       (UniformValue.sampler2D (SceneManager.FindTextureSlot s textureTag))]
  | SceneManager.Call.SetTextureUVScale u v =>
    [GLCall.uniform "UVscale" (UniformValue.vec2 ⟨u, v⟩)]
  | SceneManager.Call.SetShaderMaterial materialTag =>
    if s.m_objectMaterials.length = 0 then []
    else
      [GLCall.uniform "material.diffuseColor" (UniformValue.vec3
         (SceneManager.FindMaterial s materialTag uninit).2.diffuseColor),
       GLCall.uniform "material.specularColor" (UniformValue.vec3
         (SceneManager.FindMaterial s materialTag uninit).2.specularColor),
       GLCall.uniform "material.shininess" (UniformValue.float
         (SceneManager.FindMaterial s materialTag uninit).2.shininess)]
  | SceneManager.Call.DrawBoxMesh => [GLCall.drawMesh Mesh.Box]
  | SceneManager.Call.DrawPlaneMesh => [GLCall.drawMesh Mesh.Plane]
  | SceneManager.Call.DrawCylinderMesh => [GLCall.drawMesh Mesh.Cylinder]
  | SceneManager.Call.DrawConeMesh => [GLCall.drawMesh Mesh.Cone]
  | SceneManager.Call.DrawPrismMesh => [GLCall.drawMesh Mesh.Prism]

/-- What a sequence of statements sends to OpenGL, statement after statement. -/
def sceneLog [Field R] (L : glm.Libm R) (uninit : OBJECT_MATERIAL R) (s : SceneManager R) :
    List (SceneManager.Call R) → List (GLCall R)
  | [] => []
  | c :: cs => callLog L uninit s c ++ sceneLog L uninit s cs

/-- The tags passed to `SetShaderTexture` by the statements of a sequence, in order. -/
def textureTags : List (SceneManager.Call R) → List String
  | [] => []
  | SceneManager.Call.SetShaderTexture textureTag :: cs => textureTag :: textureTags cs
  | _ :: cs => textureTags cs

/-- The tags passed to `SetShaderMaterial` by the statements of a sequence, in order. -/
def materialTags : List (SceneManager.Call R) → List String
  | [] => []
  | SceneManager.Call.SetShaderMaterial materialTag :: cs => materialTag :: materialTags cs
  | _ :: cs => materialTags cs

/-- For each mesh draw of a log, in order: the number of writes to the uniform `model`
since the previous draw (since the start, counted from `k`, for the first draw). -/
def uploadsPerDraw.go : Nat → List (GLCall R) → List Nat
  | _, [] => []
  | k, c :: cs =>
    match c with
    | GLCall.drawMesh _ => k :: uploadsPerDraw.go 0 cs
    | GLCall.uniform n _ =>
      if n = "model" then uploadsPerDraw.go (k + 1) cs else uploadsPerDraw.go k cs
    | _ => uploadsPerDraw.go k cs

/-- For each mesh draw of a log, in order: the number of uploads of the model matrix
between the previous draw (the start of the log for the first draw) and this one. -/
def uploadsPerDraw (gl : List (GLCall R)) : List Nat :=
  uploadsPerDraw.go 0 gl

/-- For each draw statement of a sequence, in order: the number of `SetTransformations`
statements since the previous draw statement (since the start, counted from `k`, for the
first one). -/
def transformsPerDraw.go : Nat → List (SceneManager.Call R) → List Nat
  | _, [] => []
  | k, c :: cs =>
    match c with
    | SceneManager.Call.SetTransformations _ _ _ _ _ => transformsPerDraw.go (k + 1) cs
    | SceneManager.Call.DrawBoxMesh => k :: transformsPerDraw.go 0 cs
    | SceneManager.Call.DrawPlaneMesh => k :: transformsPerDraw.go 0 cs
    | SceneManager.Call.DrawCylinderMesh => k :: transformsPerDraw.go 0 cs
    | SceneManager.Call.DrawConeMesh => k :: transformsPerDraw.go 0 cs
    | SceneManager.Call.DrawPrismMesh => k :: transformsPerDraw.go 0 cs
    | _ => transformsPerDraw.go k cs

/-- The values written to the sampler uniform `objectTexture` by the calls of a log, in
order. -/
def samplerWrites : List (GLCall R) → List Int
  | [] => []
  | c :: cs =>
    match c with
    | GLCall.uniform n (UniformValue.sampler2D v) =>
      if n = "objectTexture" then v :: samplerWrites cs else samplerWrites cs
    | _ => samplerWrites cs

/-- The statements of `RenderScene`: those of the routines it calls, in call order. -/
def sceneCalls [Field R] : List (SceneManager.Call R) :=
  SceneManager.RenderGround.calls 0.0 ++
  SceneManager.RenderHouse.calls 0.0 0.0 0.0 (-6.6) 0.0 (-7.2) ++
  SceneManager.RenderHouse.calls 0.0 0.0 0.0 (-4.4) 0.0 (-7.2) ++
  SceneManager.RenderHouse.calls 0.0 0.0 0.0 (-2.2) 0.0 (-7.2) ++
  SceneManager.RenderHouse.calls 0.0 0.0 0.0 0.0 0.0 (-7.2) ++
  SceneManager.RenderHouse.calls 0.0 0.0 0.0 2.2 0.0 (-7.2) ++
  SceneManager.RenderHouse.calls 0.0 0.0 0.0 4.4 0.0 (-7.2) ++
  SceneManager.RenderHouse.calls 0.0 0.0 0.0 6.6 0.0 (-7.2) ++
  SceneManager.RenderHouse.calls 0.0 0.0 0.0 (-6.6) 0.0 (-3.1) ++
  SceneManager.RenderHouse.calls 0.0 0.0 0.0 (-4.4) 0.0 (-3.1) ++
  SceneManager.RenderHouse.calls 0.0 0.0 0.0 (-2.2) 0.0 (-3.1) ++
  SceneManager.RenderHouse.calls 0.0 0.0 0.0 0.0 0.0 (-3.1) ++
  SceneManager.RenderHouse.calls 0.0 0.0 0.0 2.2 0.0 (-3.1) ++
  SceneManager.RenderHouse.calls 0.0 0.0 0.0 4.4 0.0 (-3.1) ++
  SceneManager.RenderHouse.calls 0.0 0.0 0.0 6.6 0.0 (-3.1) ++
  SceneManager.RenderHouse2.calls 0.0 0.0 0.0 9.0 0.0 (-2.8) ++
  SceneManager.RenderHouse2.calls 0.0 0.0 0.0 9.0 0.0 (-5.0) ++
  SceneManager.RenderHouse2.calls 0.0 0.0 0.0 9.0 0.0 (-7.2) ++
  SceneManager.RenderHouse3.calls 0.0 0.0 0.0 (-9.0) 0.0 (-2.8) ++
  SceneManager.RenderHouse3.calls 0.0 0.0 0.0 (-9.0) 0.0 (-5.0) ++
  SceneManager.RenderHouse3.calls 0.0 0.0 0.0 (-9.0) 0.0 (-7.2) ++
  SceneManager.RenderWall.calls ++
  SceneManager.RenderWindmill.calls

/-- The uniform writes. -/
def isUniformWrite : GLCall R → Bool
  | GLCall.uniform _ _ => true
  | _ => false

/-- The mesh loads. -/
def isMeshLoad : GLCall R → Bool
  | GLCall.loadMesh _ => true
  | _ => false

end Spec

/-! ## Concrete inputs used to exercise the definitions -/

namespace Example

/-- A computable math library on the rationals: low-order rational approximations of
`cos`, `sin` and `sqrt` (around `0`, `0` and `1`). -/
def libm : glm.Libm ℚ where
  cos := fun x => 1 - x ^ 2 / 2
  sin := fun x => x
  sqrt := fun x => (1 + x) / 2

/-- A decoded 2x2 image with 3 channels. -/
def imageRGB : Image := ⟨2, 2, 3, [255, 0, 0, 0, 255, 0, 0, 0, 255, 9, 9, 9]⟩

/-- A decoded 1x1 image with 4 channels. -/
def imageRGBA : Image := ⟨1, 1, 4, [1, 2, 3, 255]⟩

/-- A decoded 2x1 image with 1 channel. -/
def imageGray : Image := ⟨2, 1, 1, [7, 8]⟩

/-- An environment: the four scene textures decode with 3 channels, one file with 4 and
one with 1 channel, every other file fails to decode; the driver numbers the texture names
it hands out 1, 2, 3, ... -/
def ext : Externals ℚ where
  stbi_load := fun _ filename =>
    if filename = "textures/Grass.jpg" then some imageRGB
    else if filename = "textures/Brick.jpg" then some imageRGB
    else if filename = "textures/Roof.jpg" then some imageRGB
    else if filename = "textures/Wood.jpg" then some imageRGB
    else if filename = "textures/Alpha.png" then some imageRGBA
    else if filename = "textures/Gray.png" then some imageGray
    else none
  glGenTextures := fun gl =>
    (gl.filter fun c => match c with
      | GLCall.glGenTextures _ => true
      | _ => false).length + 1

/-- A scene manager with a shader manager, no texture and no material. -/
def scene0 : SceneManager ℚ where
  m_pShaderManager := some ⟨1⟩
  m_loadedTextures := 0
  m_textureIDs := fun _ => ⟨"", 0⟩
  m_objectMaterials := []
  gl := []

/-- The material `metal` of `DefineObjectMaterials`. -/
def metal : OBJECT_MATERIAL ℚ := ⟨⟨2 / 5, 2 / 5, 2 / 5⟩, ⟨1 / 2, 1 / 2, 1 / 2⟩, 52, "metal"⟩

/-- Scene with the textures "Grass" (name 1) and "Brick" (name 2) registered, the
material `metal` defined, and the material uniforms last written with `metal`. -/
def scene2 : SceneManager ℚ where
  m_pShaderManager := some ⟨1⟩
  m_loadedTextures := 2
  m_textureIDs := fun i => if i = 0 then ⟨"Grass", 1⟩ else if i = 1 then ⟨"Brick", 2⟩ else ⟨"", 0⟩
  m_objectMaterials := [metal]
  gl := [GLCall.glGenTextures 1, GLCall.glGenTextures 2,
         GLCall.uniform "material.diffuseColor" (UniformValue.vec3 metal.diffuseColor),
         GLCall.uniform "material.specularColor" (UniformValue.vec3 metal.specularColor),
         GLCall.uniform "material.shininess" (UniformValue.float metal.shininess)]

/-- The scene `scene2` with a null shader manager. -/
def sceneNull : SceneManager ℚ := { scene2 with m_pShaderManager := none }

/-- A second material registered under the tag "metal", with other values. -/
def metalLate : OBJECT_MATERIAL ℚ := ⟨⟨1, 0, 0⟩, ⟨0, 1, 0⟩, 3, "metal"⟩

/-- The scene `scene2` with the material list `[wood-like, metal, metalLate]`: two
materials share the tag "metal". -/
def sceneDup : SceneManager ℚ :=
  { scene2 with
    m_objectMaterials := [⟨⟨39 / 50, 49 / 100, 1 / 5⟩, ⟨24 / 25, 18 / 25, 49 / 100⟩, 4, "wood"⟩,
                          metal, metalLate] }

/-- An environment in which two of the four scene textures fail to load: the file of
"Brick" is missing and the file of "Wood" decodes with a single channel. -/
def extMissing : Externals ℚ where
  stbi_load := fun _ filename =>
    if filename = "textures/Grass.jpg" then some imageRGB
    else if filename = "textures/Roof.jpg" then some imageRGBA
    else if filename = "textures/Wood.jpg" then some imageGray
    else none
  glGenTextures := fun gl =>
    (gl.filter fun c => match c with
      | GLCall.glGenTextures _ => true
      | _ => false).length + 1

/-- The material "stone" of the end-to-end scenario, with diffuse colour (0.4, 0.4, 0.4). -/
def stone : OBJECT_MATERIAL ℚ := ⟨⟨2 / 5, 2 / 5, 2 / 5⟩, ⟨1 / 2, 1 / 2, 1 / 2⟩, 2, "stone"⟩

/-- The empty scene `scene0` with a null shader manager. -/
def scene0Null : SceneManager ℚ := { scene0 with m_pShaderManager := none }

/-- Content of an uninitialised local `OBJECT_MATERIAL`. -/
def garbage : OBJECT_MATERIAL ℚ := ⟨⟨9, 9, 9⟩, ⟨8, 8, 8⟩, 7, ""⟩

/-- Scene whose 16 texture cells are all in use, with 16 distinct tags
("t", "tt", "ttt", ...) and the texture names 1..16 the driver generated for them. -/
def sceneFull : SceneManager ℚ where
  m_pShaderManager := some ⟨1⟩
  m_loadedTextures := 16
  m_textureIDs := fun i => ⟨String.mk (List.replicate (i + 1) 't'), i + 1⟩
  m_objectMaterials := []
  gl := (List.range 16).map fun i => GLCall.glGenTextures (i + 1)

end Example

/-! # Theorems -/

namespace glm

variable {R : Type} [Field R]

theorem mat4.mul_ofMatrix (A B : Matrix (Fin 4) (Fin 4) R) :
    (mat4.ofMatrix A).mul (mat4.ofMatrix B) = mat4.ofMatrix (A * B) := by
  simp only [mat4.ofMatrix, mat4.mul, vec4.add, vec4.mulScalar, Matrix.mul_apply,
    Fin.sum_univ_four]

theorem ofMatrix_Translate (t : vec3 R) :
    mat4.ofMatrix (Spec.Translate t) =
      ⟨⟨1, 0, 0, 0⟩, ⟨0, 1, 0, 0⟩, ⟨0, 0, 1, 0⟩, ⟨t.x, t.y, t.z, 1⟩⟩ := rfl

theorem ofMatrix_Scale (s : vec3 R) :
    mat4.ofMatrix (Spec.Scale s) =
      ⟨⟨s.x, 0, 0, 0⟩, ⟨0, s.y, 0, 0⟩, ⟨0, 0, s.z, 0⟩, ⟨0, 0, 0, 1⟩⟩ := rfl

theorem ofMatrix_RotateX (L : Libm R) (a : R) :
    mat4.ofMatrix (Spec.RotateX L a) =
      ⟨⟨1, 0, 0, 0⟩, ⟨0, L.cos a, L.sin a, 0⟩, ⟨0, -L.sin a, L.cos a, 0⟩, ⟨0, 0, 0, 1⟩⟩ := rfl

theorem ofMatrix_RotateY (L : Libm R) (a : R) :
    mat4.ofMatrix (Spec.RotateY L a) =
      ⟨⟨L.cos a, 0, -L.sin a, 0⟩, ⟨0, 1, 0, 0⟩, ⟨L.sin a, 0, L.cos a, 0⟩, ⟨0, 0, 0, 1⟩⟩ := rfl

theorem ofMatrix_RotateZ (L : Libm R) (a : R) :
    mat4.ofMatrix (Spec.RotateZ L a) =
      ⟨⟨L.cos a, L.sin a, 0, 0⟩, ⟨-L.sin a, L.cos a, 0, 0⟩, ⟨0, 0, 1, 0⟩, ⟨0, 0, 0, 1⟩⟩ := rfl

/-- `glm::translate` builds the textbook translation matrix. -/
theorem translate_eq (t : vec3 R) : translate t = mat4.ofMatrix (Spec.Translate t) := by
  rw [ofMatrix_Translate]
  simp [translate, mat4.one, vec4.add, vec4.mulScalar]

/-- `glm::scale` builds the textbook scaling matrix. -/
theorem scale_eq (s : vec3 R) : scale s = mat4.ofMatrix (Spec.Scale s) := by
  rw [ofMatrix_Scale]
  simp [scale, mat4.one, vec4.mulScalar]

theorem normalize_X (L : Libm R) (h : L.sqrt 1 = 1) :
    normalize L (⟨1, 0, 0⟩ : vec3 R) = ⟨1, 0, 0⟩ := by
  simp [normalize, inversesqrt, dot, vec3.mulScalar, h]

theorem normalize_Y (L : Libm R) (h : L.sqrt 1 = 1) :
    normalize L (⟨0, 1, 0⟩ : vec3 R) = ⟨0, 1, 0⟩ := by
  simp [normalize, inversesqrt, dot, vec3.mulScalar, h]

theorem normalize_Z (L : Libm R) (h : L.sqrt 1 = 1) :
    normalize L (⟨0, 0, 1⟩ : vec3 R) = ⟨0, 0, 1⟩ := by
  simp [normalize, inversesqrt, dot, vec3.mulScalar, h]

/-- `glm::rotate` about the unit X axis builds the textbook rotation matrix. -/
theorem rotate_X_eq (L : Libm R) (h : L.sqrt 1 = 1) (a : R) :
    rotate L a ⟨1, 0, 0⟩ = mat4.ofMatrix (Spec.RotateX L a) := by
  rw [ofMatrix_RotateX]
  simp [rotate, normalize_X L h, mat4.one, vec4.add, vec4.mulScalar, vec3.scalarMul]

/-- `glm::rotate` about the unit Y axis builds the textbook rotation matrix. -/
theorem rotate_Y_eq (L : Libm R) (h : L.sqrt 1 = 1) (a : R) :
    rotate L a ⟨0, 1, 0⟩ = mat4.ofMatrix (Spec.RotateY L a) := by
  rw [ofMatrix_RotateY]
  simp [rotate, normalize_Y L h, mat4.one, vec4.add, vec4.mulScalar, vec3.scalarMul]

/-- `glm::rotate` about the unit Z axis builds the textbook rotation matrix. -/
theorem rotate_Z_eq (L : Libm R) (h : L.sqrt 1 = 1) (a : R) :
    rotate L a ⟨0, 0, 1⟩ = mat4.ofMatrix (Spec.RotateZ L a) := by
  rw [ofMatrix_RotateZ]
  simp [rotate, normalize_Z L h, mat4.one, vec4.add, vec4.mulScalar, vec3.scalarMul]

end glm

/-- A uniform write at the end of the log decides the value of that uniform and leaves
the others as they were. -/
theorem getUniform_append_uniform {R : Type} (gl : List (GLCall R)) (n : String)
    (v : UniformValue R) (name : String) :
    getUniform (gl ++ [GLCall.uniform n v]) name =
      if n = name then some v else getUniform gl name := by
  simp [getUniform, List.foldl_append]

namespace SceneManager

variable {R : Type}

end SceneManager

/-- A handle below `2 ^ 31` is returned unchanged by the conversion to `int`. -/
theorem GLuint.toInt_of_lt (n : Nat) (h : n < 2 ^ 31) : GLuint.toInt n = (n : Int) := by
  have h1 : n % 2 ^ 32 = n := Nat.mod_eq_of_lt (by omega)
  unfold GLuint.toInt
  rw [h1, if_pos h]

namespace SceneManager

variable {R : Type}

/-- Once `bFound` is set the loop of `FindTextureSlot` stops with the slot it holds. -/
theorem FindTextureSlot_loop_found (s : SceneManager R) (tag : String) (fuel index : Nat)
    (textureSlot : Int) : FindTextureSlot.loop s tag fuel index textureSlot true = textureSlot := by
  cases fuel <;> simp [FindTextureSlot.loop]

/-- Once `bFound` is set the loop of `FindTextureID` stops with the ID it holds. -/
theorem FindTextureID_loop_found (s : SceneManager R) (tag : String) (fuel index : Nat)
    (textureID : Int) : FindTextureID.loop s tag fuel index textureID true = textureID := by
  cases fuel <;> simp [FindTextureID.loop]

/-- The scan of `FindTextureSlot` from `index`, when no cell below `index` matches and the
fuel covers the cells that remain: it ends on the first matching cell, or with the slot it
started from when there is none. -/
theorem FindTextureSlot_loop_spec (s : SceneManager R) (tag : String) (textureSlot : Int) :
    ∀ fuel index : Nat, s.m_loadedTextures - index < fuel →
      (∀ j, j < index → (s.m_textureIDs j).tag ≠ tag) →
      (∃ i, i < s.m_loadedTextures ∧ (s.m_textureIDs i).tag = tag ∧
          (∀ j, j < i → (s.m_textureIDs j).tag ≠ tag) ∧
          FindTextureSlot.loop s tag fuel index textureSlot false = (i : Int)) ∨
        ((∀ i, i < s.m_loadedTextures → (s.m_textureIDs i).tag ≠ tag) ∧
          FindTextureSlot.loop s tag fuel index textureSlot false = textureSlot) := by
  intro fuel
  induction fuel with
  | zero => intro index h; omega
  | succ fuel ih =>
    intro index hfuel hbelow
    by_cases hlt : index < s.m_loadedTextures
    · by_cases htag : (s.m_textureIDs index).tag = tag
      · left
        refine ⟨index, hlt, htag, hbelow, ?_⟩
        simp [FindTextureSlot.loop, hlt, htag, FindTextureSlot_loop_found]
      · have hstep : FindTextureSlot.loop s tag (fuel + 1) index textureSlot false =
            FindTextureSlot.loop s tag fuel (index + 1) textureSlot false := by
          simp [FindTextureSlot.loop, hlt, htag]
        rw [hstep]
        apply ih (index + 1) (by omega)
        intro j hj
        by_cases hji : j = index
        · subst hji; exact htag
        · exact hbelow j (by omega)
    · right
      refine ⟨fun i hi => hbelow i (by omega), ?_⟩
      simp [FindTextureSlot.loop, hlt]

/-- Fuel beyond the number of cells left to scan does not change the result of the loop
of `FindTextureSlot`: the loop always leaves through its condition. -/
theorem FindTextureSlot_loop_fuel (s : SceneManager R) (tag : String) :
    ∀ (fuel index : Nat) (textureSlot : Int) (bFound : Bool) (extra : Nat),
      s.m_loadedTextures - index < fuel →
      FindTextureSlot.loop s tag (fuel + extra) index textureSlot bFound =
        FindTextureSlot.loop s tag fuel index textureSlot bFound := by
  intro fuel
  induction fuel with
  | zero => intro index _ _ _ h; omega
  | succ fuel ih =>
    intro index textureSlot bFound extra hfuel
    cases bFound with
    | true => simp [FindTextureSlot_loop_found]
    | false =>
      have e : fuel + 1 + extra = (fuel + extra) + 1 := by omega
      rw [e]
      by_cases hlt : index < s.m_loadedTextures
      · by_cases htag : (s.m_textureIDs index).tag = tag
        · simp [FindTextureSlot.loop, hlt, htag, FindTextureSlot_loop_found]
        · simp only [FindTextureSlot.loop, hlt, htag, and_self, if_true, if_false]
          exact ih (index + 1) textureSlot false extra (by omega)
      · simp [FindTextureSlot.loop, hlt]

/-- The answer of `FindTextureSlot`: the first registered index carrying the tag, or `-1`
when no registered entry carries it. -/
theorem FindTextureSlot_scan (s : SceneManager R) (tag : String) :
    (∃ i, i < s.m_loadedTextures ∧ (s.m_textureIDs i).tag = tag ∧
        (∀ j, j < i → (s.m_textureIDs j).tag ≠ tag) ∧
        FindTextureSlot s tag = (i : Int)) ∨
      ((∀ i, i < s.m_loadedTextures → (s.m_textureIDs i).tag ≠ tag) ∧
        FindTextureSlot s tag = -1) := by
  unfold FindTextureSlot
  exact FindTextureSlot_loop_spec s tag (-1) (s.m_loadedTextures + 1) 0 (by omega)
    (fun j hj => absurd hj (Nat.not_lt_zero j))

/-- C2: `FindTextureSlot(tag)` returns the smallest index below the loaded-texture count
whose tag equals `tag`, and `-1` when no registered entry has that tag; it is a total
function, so it always returns. -/
theorem FindTextureSlot_spec (s : SceneManager R) (tag : String) :
    (∃ i, i < s.m_loadedTextures ∧ (s.m_textureIDs i).tag = tag ∧
        (∀ j, j < i → (s.m_textureIDs j).tag ≠ tag) ∧
        FindTextureSlot s tag = (i : Int)) ∨
      ((∀ i, i < s.m_loadedTextures → (s.m_textureIDs i).tag ≠ tag) ∧
        FindTextureSlot s tag = -1) := by
  unfold FindTextureSlot
  exact FindTextureSlot_loop_spec s tag (-1) (s.m_loadedTextures + 1) 0 (by omega)
    (fun j hj => absurd hj (Nat.not_lt_zero j))

/-- The two scans run in lockstep: from the same position and with nothing found yet, the
loop of `FindTextureID` ends with `-1` when the loop of `FindTextureSlot` does, and
otherwise with the ID of the cell whose index the loop of `FindTextureSlot` ends with. -/
theorem FindTextureID_loop_eq (s : SceneManager R) (tag : String) :
    ∀ fuel index : Nat,
      FindTextureID.loop s tag fuel index (-1) false =
        if FindTextureSlot.loop s tag fuel index (-1) false = -1 then -1
        else GLuint.toInt
          (s.m_textureIDs (FindTextureSlot.loop s tag fuel index (-1) false).toNat).ID := by
  intro fuel
  induction fuel with
  | zero => intro index; simp [FindTextureID.loop, FindTextureSlot.loop]
  | succ fuel ih =>
    intro index
    by_cases hlt : index < s.m_loadedTextures
    · by_cases htag : (s.m_textureIDs index).tag = tag
      · have hne : ¬ ((index : Int) = -1) := by omega
        simp [FindTextureID.loop, FindTextureSlot.loop, hlt, htag, FindTextureID_loop_found,
          FindTextureSlot_loop_found, hne]
      · simp only [FindTextureID.loop, FindTextureSlot.loop, hlt, htag, and_self, if_true,
          if_false]
        exact ih (index + 1)
    · simp [FindTextureID.loop, FindTextureSlot.loop, hlt]

end SceneManager

namespace SceneManager

variable {R : Type}

/-- The loop of `FindTextureSlot` reads only the texture count and the texture cells. -/
theorem FindTextureSlot_loop_congr (s t : SceneManager R) (tag : String)
    (hn : t.m_loadedTextures = s.m_loadedTextures) (hids : t.m_textureIDs = s.m_textureIDs) :
    ∀ (fuel index : Nat) (textureSlot : Int) (bFound : Bool),
      FindTextureSlot.loop t tag fuel index textureSlot bFound =
        FindTextureSlot.loop s tag fuel index textureSlot bFound := by
  intro fuel
  induction fuel with
  | zero => intro index textureSlot bFound; simp [FindTextureSlot.loop]
  | succ fuel ih =>
    intro index textureSlot bFound
    simp only [FindTextureSlot.loop, hn, hids, ih]

/-- The loop of `FindTextureID` reads only the texture count and the texture cells. -/
theorem FindTextureID_loop_congr (s t : SceneManager R) (tag : String)
    (hn : t.m_loadedTextures = s.m_loadedTextures) (hids : t.m_textureIDs = s.m_textureIDs) :
    ∀ (fuel index : Nat) (textureID : Int) (bFound : Bool),
      FindTextureID.loop t tag fuel index textureID bFound =
        FindTextureID.loop s tag fuel index textureID bFound := by
  intro fuel
  induction fuel with
  | zero => intro index textureID bFound; simp [FindTextureID.loop]
  | succ fuel ih =>
    intro index textureID bFound
    simp only [FindTextureID.loop, hn, hids, ih]

/-- `FindTextureSlot` gives the same answer on two states with the same registry. -/
theorem FindTextureSlot_congr (s t : SceneManager R) (tag : String)
    (hn : t.m_loadedTextures = s.m_loadedTextures) (hids : t.m_textureIDs = s.m_textureIDs) :
    FindTextureSlot t tag = FindTextureSlot s tag := by
  unfold FindTextureSlot
  rw [hn]
  exact FindTextureSlot_loop_congr s t tag hn hids _ _ _ _

/-- `FindTextureID` gives the same answer on two states with the same registry. -/
theorem FindTextureID_congr (s t : SceneManager R) (tag : String)
    (hn : t.m_loadedTextures = s.m_loadedTextures) (hids : t.m_textureIDs = s.m_textureIDs) :
    FindTextureID t tag = FindTextureID s tag := by
  unfold FindTextureID
  rw [hn]
  exact FindTextureID_loop_congr s t tag hn hids _ _ _ _

/-- `FindTextureSlot` answers `-1` only when no registered entry carries the tag. -/
theorem FindTextureSlot_eq_neg_one (s : SceneManager R) (tag : String)
    (h : FindTextureSlot s tag = -1) :
    ∀ i, i < s.m_loadedTextures → (s.m_textureIDs i).tag ≠ tag := by
  rcases FindTextureSlot_scan s tag with ⟨i, _, _, _, hi⟩ | ⟨hno, _⟩
  · rw [hi] at h; omega
  · exact hno

/-- The return value of `FindMaterial` does not depend on the tag: it is `false` on an
empty material list and `true` on every other list. -/
theorem FindMaterial_fst (s : SceneManager R) (tag : String) (material : OBJECT_MATERIAL R) :
    (FindMaterial s tag material).1 = decide (s.m_objectMaterials.length ≠ 0) := by
  unfold FindMaterial
  by_cases h : s.m_objectMaterials.length = 0 <;> simp [h]

/-- C4, the code at the failing input: on the one-material list `[metal]` no tag equals
"nope", the loop of `FindMaterial` ends with `bFound = false`, and yet `FindMaterial`
returns `true`, leaving the caller's `material` as it was. -/
theorem FindMaterial_unmatched_returns_true :
    (∀ m ∈ Example.scene2.m_objectMaterials, m.tag ≠ "nope") ∧
      (FindMaterial.loop Example.scene2 "nope" 2 0 false Example.garbage).1 = false ∧
      (FindMaterial Example.scene2 "nope" Example.garbage).1 = true ∧
      (FindMaterial Example.scene2 "nope" Example.garbage).2 = Example.garbage := by
  refine ⟨?_, ?_, ?_, ?_⟩
  · intro m hm
    simp [Example.scene2, Example.metal] at hm
    subst hm
    decide
  · simp [FindMaterial.loop, Example.scene2, Example.metal]
  · simp [FindMaterial, Example.scene2]
  · simp [FindMaterial, FindMaterial.loop, Example.scene2, Example.metal]

/-- C5, the code at the failing input: with the material list `[metal]` and the tag
"nope" (which matches no material), `SetShaderMaterial` appends three uniform writes
carrying the content of its uninitialised local, and `material.diffuseColor` changes
from `metal`'s (0.4, 0.4, 0.4) to that content. -/
theorem SetShaderMaterial_unmatched_overwrites :
    (∀ m ∈ Example.scene2.m_objectMaterials, m.tag ≠ "nope") ∧
      getUniform Example.scene2.gl "material.diffuseColor" =
        some (UniformValue.vec3 ⟨2 / 5, 2 / 5, 2 / 5⟩) ∧
      (SetShaderMaterial Example.scene2 Example.garbage "nope").map (fun s => s.gl) =
        some (Example.scene2.gl ++
          [GLCall.uniform "material.diffuseColor" (UniformValue.vec3 ⟨9, 9, 9⟩),
           GLCall.uniform "material.specularColor" (UniformValue.vec3 ⟨8, 8, 8⟩),
           GLCall.uniform "material.shininess" (UniformValue.float 7)]) ∧
      (SetShaderMaterial Example.scene2 Example.garbage "nope").map
          (fun s => getUniform s.gl "material.diffuseColor") =
        some (some (UniformValue.vec3 ⟨9, 9, 9⟩)) := by
  refine ⟨?_, ?_, ?_, ?_⟩
  · intro m hm
    simp [Example.scene2, Example.metal] at hm
    subst hm
    decide
  · simp [getUniform, Example.scene2, Example.metal]
  · simp [SetShaderMaterial, FindMaterial, FindMaterial.loop, Example.scene2, Example.metal,
      Example.garbage, ShaderManager.setVec3Value, ShaderManager.setFloatValue]
  · simp [SetShaderMaterial, FindMaterial, FindMaterial.loop, Example.scene2, Example.metal,
      Example.garbage, ShaderManager.setVec3Value, ShaderManager.setFloatValue, getUniform]

/-- C6, the code at the failing input: with all 16 cells in use, loading one more
decodable 3-channel image succeeds, stores the entry at index 16 (behind the 16 cells) and
raises the loaded-texture count to 17. -/
theorem CreateGLTexture_seventeenth :
    Example.sceneFull.m_loadedTextures = textureSlots ∧
      (Example.ext.stbi_load true "textures/Grass.jpg").map (fun i => i.colorChannels) = some 3 ∧
      (CreateGLTexture Example.ext Example.sceneFull "textures/Grass.jpg" "Grass").1 = true ∧
      (CreateGLTexture Example.ext Example.sceneFull "textures/Grass.jpg" "Grass").2.m_loadedTextures
        = 17 ∧
      (CreateGLTexture Example.ext Example.sceneFull "textures/Grass.jpg" "Grass").2.m_textureIDs 16
        = ⟨"Grass", 17⟩ := by
  refine ⟨rfl, ?_, ?_, ?_, ?_⟩
  · simp [Example.ext, Example.imageRGB]
  · simp [CreateGLTexture, Example.ext, Example.imageRGB]
  · simp [CreateGLTexture, Example.ext, Example.imageRGB, Example.sceneFull]
  · simp [CreateGLTexture, Example.ext, Example.imageRGB, Example.sceneFull, setTextureEntry]
    rfl

end SceneManager

namespace SceneManager

variable {R : Type}

/-- C7: for an image that decodes, `CreateGLTexture` returns `true` exactly when the
channel count is 3 or 4; with 3 channels the calls it adds upload the image to the newly
generated texture with internal format `GL_RGB8`, with 4 channels with `GL_RGBA8`; with any
other channel count it returns `false`. -/
theorem CreateGLTexture_format (ext : Externals R) (s : SceneManager R)
    (filename tag : String) (image : Image)
    (hload : ext.stbi_load true filename = some image) :
    ((CreateGLTexture ext s filename tag).1 = true ↔
        (image.colorChannels = 3 ∨ image.colorChannels = 4)) ∧
      (image.colorChannels = 3 →
        (CreateGLTexture ext s filename tag).1 = true ∧
        (CreateGLTexture ext s filename tag).2.gl = s.gl ++
          [GLCall.glGenTextures (ext.glGenTextures s.gl),
           GLCall.glBindTexture GLenum.GL_TEXTURE_2D (ext.glGenTextures s.gl),
           GLCall.glTexParameteri GLenum.GL_TEXTURE_2D GLenum.GL_TEXTURE_WRAP_S GLenum.GL_REPEAT,
           GLCall.glTexParameteri GLenum.GL_TEXTURE_2D GLenum.GL_TEXTURE_WRAP_T GLenum.GL_REPEAT,
           GLCall.glTexParameteri GLenum.GL_TEXTURE_2D GLenum.GL_TEXTURE_MIN_FILTER
             GLenum.GL_LINEAR,
           GLCall.glTexParameteri GLenum.GL_TEXTURE_2D GLenum.GL_TEXTURE_MAG_FILTER
             GLenum.GL_LINEAR,
           GLCall.glTexImage2D GLenum.GL_TEXTURE_2D 0 GLenum.GL_RGB8 image.width image.height 0
             GLenum.GL_RGB GLenum.GL_UNSIGNED_BYTE image.pixels,
           GLCall.glGenerateMipmap GLenum.GL_TEXTURE_2D,
           GLCall.glBindTexture GLenum.GL_TEXTURE_2D 0]) ∧
      (image.colorChannels = 4 →
        (CreateGLTexture ext s filename tag).1 = true ∧
        (CreateGLTexture ext s filename tag).2.gl = s.gl ++
          [GLCall.glGenTextures (ext.glGenTextures s.gl),
           GLCall.glBindTexture GLenum.GL_TEXTURE_2D (ext.glGenTextures s.gl),
           GLCall.glTexParameteri GLenum.GL_TEXTURE_2D GLenum.GL_TEXTURE_WRAP_S GLenum.GL_REPEAT,
           GLCall.glTexParameteri GLenum.GL_TEXTURE_2D GLenum.GL_TEXTURE_WRAP_T GLenum.GL_REPEAT,
           GLCall.glTexParameteri GLenum.GL_TEXTURE_2D GLenum.GL_TEXTURE_MIN_FILTER
             GLenum.GL_LINEAR,
           GLCall.glTexParameteri GLenum.GL_TEXTURE_2D GLenum.GL_TEXTURE_MAG_FILTER
             GLenum.GL_LINEAR,
           GLCall.glTexImage2D GLenum.GL_TEXTURE_2D 0 GLenum.GL_RGBA8 image.width image.height 0
             GLenum.GL_RGBA GLenum.GL_UNSIGNED_BYTE image.pixels,
           GLCall.glGenerateMipmap GLenum.GL_TEXTURE_2D,
           GLCall.glBindTexture GLenum.GL_TEXTURE_2D 0]) ∧
      ((image.colorChannels ≠ 3 ∧ image.colorChannels ≠ 4) →
        (CreateGLTexture ext s filename tag).1 = false) := by
  refine ⟨?_, ?_, ?_, ?_⟩
  · by_cases h3 : image.colorChannels = 3
    · simp [CreateGLTexture, hload, h3]
    · by_cases h4 : image.colorChannels = 4
      · simp [CreateGLTexture, hload, h4]
      · simp [CreateGLTexture, hload, h3, h4]
  · intro h3
    simp [CreateGLTexture, hload, h3]
  · intro h4
    simp [CreateGLTexture, hload, h4]
  · rintro ⟨h3, h4⟩
    simp [CreateGLTexture, hload, h3, h4]

/-- Witness for C7: the 3-channel file of the example environment. -/
theorem CreateGLTexture_format_witness :
    Example.ext.stbi_load true "textures/Grass.jpg" = some Example.imageRGB ∧
      (CreateGLTexture Example.ext Example.scene0 "textures/Grass.jpg" "Grass").1 = true ∧
      GLCall.glTexImage2D GLenum.GL_TEXTURE_2D 0 GLenum.GL_RGB8 2 2 0 GLenum.GL_RGB
          GLenum.GL_UNSIGNED_BYTE [255, 0, 0, 0, 255, 0, 0, 0, 255, 9, 9, 9] ∈
        (CreateGLTexture Example.ext Example.scene0 "textures/Grass.jpg" "Grass").2.gl := by
  have hload : Example.ext.stbi_load true "textures/Grass.jpg" = some Example.imageRGB := by
    simp [Example.ext]
  have h := (CreateGLTexture_format Example.ext Example.scene0 "textures/Grass.jpg" "Grass"
    Example.imageRGB hload).2.1 rfl
  refine ⟨hload, h.1, ?_⟩
  rw [h.2]
  simp [Example.imageRGB]

/-- A successful `CreateGLTexture` generated a texture name, stored `{tag, name}` in the
cell at the old count and incremented the count; nothing else of the registry changed. -/
theorem CreateGLTexture_success (ext : Externals R) (s : SceneManager R)
    (filename tag : String) (hok : (CreateGLTexture ext s filename tag).1 = true) :
    ∃ rest, (CreateGLTexture ext s filename tag).2 =
      { s with
        gl := s.gl ++ GLCall.glGenTextures (ext.glGenTextures s.gl) :: rest
        m_textureIDs :=
          setTextureEntry s.m_textureIDs s.m_loadedTextures ⟨tag, ext.glGenTextures s.gl⟩
        m_loadedTextures := s.m_loadedTextures + 1 } := by
  cases hload : ext.stbi_load true filename with
  | none => simp [CreateGLTexture, hload] at hok
  | some image =>
    by_cases h3 : image.colorChannels = 3
    · refine ⟨[GLCall.glBindTexture GLenum.GL_TEXTURE_2D (ext.glGenTextures s.gl),
               GLCall.glTexParameteri GLenum.GL_TEXTURE_2D GLenum.GL_TEXTURE_WRAP_S GLenum.GL_REPEAT,
               GLCall.glTexParameteri GLenum.GL_TEXTURE_2D GLenum.GL_TEXTURE_WRAP_T GLenum.GL_REPEAT,
               GLCall.glTexParameteri GLenum.GL_TEXTURE_2D GLenum.GL_TEXTURE_MIN_FILTER GLenum.GL_LINEAR,
               GLCall.glTexParameteri GLenum.GL_TEXTURE_2D GLenum.GL_TEXTURE_MAG_FILTER GLenum.GL_LINEAR,
               GLCall.glTexImage2D GLenum.GL_TEXTURE_2D 0 GLenum.GL_RGB8 image.width image.height 0
                 GLenum.GL_RGB GLenum.GL_UNSIGNED_BYTE image.pixels,
               GLCall.glGenerateMipmap GLenum.GL_TEXTURE_2D,
               GLCall.glBindTexture GLenum.GL_TEXTURE_2D 0], ?_⟩
      simp [CreateGLTexture, hload, h3]
    · by_cases h4 : image.colorChannels = 4
      · refine ⟨[GLCall.glBindTexture GLenum.GL_TEXTURE_2D (ext.glGenTextures s.gl),
                 GLCall.glTexParameteri GLenum.GL_TEXTURE_2D GLenum.GL_TEXTURE_WRAP_S GLenum.GL_REPEAT,
                 GLCall.glTexParameteri GLenum.GL_TEXTURE_2D GLenum.GL_TEXTURE_WRAP_T GLenum.GL_REPEAT,
                 GLCall.glTexParameteri GLenum.GL_TEXTURE_2D GLenum.GL_TEXTURE_MIN_FILTER GLenum.GL_LINEAR,
                 GLCall.glTexParameteri GLenum.GL_TEXTURE_2D GLenum.GL_TEXTURE_MAG_FILTER GLenum.GL_LINEAR,
                 GLCall.glTexImage2D GLenum.GL_TEXTURE_2D 0 GLenum.GL_RGBA8 image.width image.height 0
                   GLenum.GL_RGBA GLenum.GL_UNSIGNED_BYTE image.pixels,
                 GLCall.glGenerateMipmap GLenum.GL_TEXTURE_2D,
                 GLCall.glBindTexture GLenum.GL_TEXTURE_2D 0], ?_⟩
        simp [CreateGLTexture, hload, h4]
      · simp [CreateGLTexture, hload, h3, h4] at hok

/-- C8: on a registry holding `n < 16` textures, a successful `CreateGLTexture(file, tag)`
stores `{tag, the name glGenTextures generated in this call}` at index `n`, makes the
loaded-texture count `n + 1` and leaves the entries `0..n-1` unchanged; if the tag was
not registered before, `FindTextureSlot(tag)` is `n` afterwards. -/
theorem CreateGLTexture_registers (ext : Externals R) (s : SceneManager R)
    (filename tag : String) (_hn : s.m_loadedTextures < textureSlots)
    (hok : (CreateGLTexture ext s filename tag).1 = true) :
    (∃ rest, (CreateGLTexture ext s filename tag).2.gl =
        s.gl ++ GLCall.glGenTextures (ext.glGenTextures s.gl) :: rest) ∧
      (CreateGLTexture ext s filename tag).2.m_textureIDs s.m_loadedTextures =
        ⟨tag, ext.glGenTextures s.gl⟩ ∧
      (CreateGLTexture ext s filename tag).2.m_loadedTextures = s.m_loadedTextures + 1 ∧
      (∀ i, i < s.m_loadedTextures →
        (CreateGLTexture ext s filename tag).2.m_textureIDs i = s.m_textureIDs i) ∧
      (FindTextureSlot s tag = -1 →
        FindTextureSlot (CreateGLTexture ext s filename tag).2 tag = (s.m_loadedTextures : Int)) := by
  obtain ⟨rest, hs⟩ := CreateGLTexture_success ext s filename tag hok
  have hcell : (CreateGLTexture ext s filename tag).2.m_textureIDs s.m_loadedTextures =
      ⟨tag, ext.glGenTextures s.gl⟩ := by
    rw [hs]; simp [setTextureEntry]
  have hcount : (CreateGLTexture ext s filename tag).2.m_loadedTextures =
      s.m_loadedTextures + 1 := by
    rw [hs]
  have hold : ∀ i, i < s.m_loadedTextures →
      (CreateGLTexture ext s filename tag).2.m_textureIDs i = s.m_textureIDs i := by
    intro i hi
    rw [hs]
    have hne : i ≠ s.m_loadedTextures := by omega
    simp [setTextureEntry, hne]
  refine ⟨⟨rest, by rw [hs]⟩, hcell, hcount, hold, ?_⟩
  intro hnot
  have hno := FindTextureSlot_eq_neg_one s tag hnot
  rcases FindTextureSlot_scan (CreateGLTexture ext s filename tag).2 tag with
    ⟨i, hi, htag, _, hres⟩ | ⟨hnone, _⟩
  · rw [hcount] at hi
    by_cases hlt : i < s.m_loadedTextures
    · rw [hold i hlt] at htag
      exact absurd htag (hno i hlt)
    · have hi2 : i = s.m_loadedTextures := by omega
      rw [hres, hi2]
  · have hlast := hnone s.m_loadedTextures (by rw [hcount]; omega)
    rw [hcell] at hlast
    exact absurd rfl hlast

/-- Witness for C8: loading "Roof" into the registry that holds "Grass" and "Brick". -/
theorem CreateGLTexture_registers_witness :
    Example.scene2.m_loadedTextures < textureSlots ∧
      (CreateGLTexture Example.ext Example.scene2 "textures/Roof.jpg" "Roof").1 = true ∧
      (CreateGLTexture Example.ext Example.scene2 "textures/Roof.jpg" "Roof").2.m_textureIDs 2 =
        ⟨"Roof", 3⟩ ∧
      (CreateGLTexture Example.ext Example.scene2 "textures/Roof.jpg" "Roof").2.m_loadedTextures
        = 3 ∧
      FindTextureSlot Example.scene2 "Roof" = -1 ∧
      FindTextureSlot (CreateGLTexture Example.ext Example.scene2 "textures/Roof.jpg" "Roof").2
        "Roof" = 2 := by
  have hn : Example.scene2.m_loadedTextures < textureSlots := by decide
  have hok : (CreateGLTexture Example.ext Example.scene2 "textures/Roof.jpg" "Roof").1 = true := by
    simp [CreateGLTexture, Example.ext, Example.imageRGB]
  have hnot : FindTextureSlot Example.scene2 "Roof" = -1 := by
    simp [FindTextureSlot, FindTextureSlot.loop, Example.scene2]
  have h := CreateGLTexture_registers Example.ext Example.scene2 "textures/Roof.jpg" "Roof" hn hok
  refine ⟨hn, hok, ?_, h.2.2.1, hnot, h.2.2.2.2 hnot⟩
  rw [show (2 : Nat) = Example.scene2.m_loadedTextures from rfl, h.2.1]
  simp [Example.ext, Example.scene2]

end SceneManager

namespace SceneManager

variable {R : Type}

/-- C9: when the file does not decode, or decodes with a channel count other than 3 or
4, `CreateGLTexture` returns `false` and the registry is unchanged: same loaded-texture
count, same cells, hence the same answer of `FindTextureSlot` and `FindTextureID` for
every tag (a tag that was unregistered stays unregistered). -/
theorem CreateGLTexture_failure (ext : Externals R) (s : SceneManager R)
    (filename tag : String)
    (h : ext.stbi_load true filename = none ∨
      ∃ image, ext.stbi_load true filename = some image ∧
        image.colorChannels ≠ 3 ∧ image.colorChannels ≠ 4) :
    (CreateGLTexture ext s filename tag).1 = false ∧
      (CreateGLTexture ext s filename tag).2.m_loadedTextures = s.m_loadedTextures ∧
      (CreateGLTexture ext s filename tag).2.m_textureIDs = s.m_textureIDs ∧
      (∀ t, FindTextureSlot (CreateGLTexture ext s filename tag).2 t = FindTextureSlot s t) ∧
      (∀ t, FindTextureID (CreateGLTexture ext s filename tag).2 t = FindTextureID s t) := by
  have key : (CreateGLTexture ext s filename tag).1 = false ∧
      (CreateGLTexture ext s filename tag).2.m_loadedTextures = s.m_loadedTextures ∧
      (CreateGLTexture ext s filename tag).2.m_textureIDs = s.m_textureIDs := by
    rcases h with hnone | ⟨image, hload, h3, h4⟩
    · simp [CreateGLTexture, hnone]
    · simp [CreateGLTexture, hload, h3, h4]
  exact ⟨key.1, key.2.1, key.2.2,
    fun t => FindTextureSlot_congr s _ t key.2.1 key.2.2,
    fun t => FindTextureID_congr s _ t key.2.1 key.2.2⟩

/-- Witness for C9: a 1-channel file requested under the tag "Gray". -/
theorem CreateGLTexture_failure_witness :
    (∃ image, Example.ext.stbi_load true "textures/Gray.png" = some image ∧
        image.colorChannels ≠ 3 ∧ image.colorChannels ≠ 4) ∧
      (CreateGLTexture Example.ext Example.scene2 "textures/Gray.png" "Gray").1 = false ∧
      (CreateGLTexture Example.ext Example.scene2 "textures/Gray.png" "Gray").2.m_loadedTextures
        = 2 ∧
      FindTextureSlot (CreateGLTexture Example.ext Example.scene2 "textures/Gray.png" "Gray").2
        "Gray" = -1 := by
  have hx : ∃ image, Example.ext.stbi_load true "textures/Gray.png" = some image ∧
      image.colorChannels ≠ 3 ∧ image.colorChannels ≠ 4 :=
    ⟨Example.imageGray, by simp [Example.ext], by decide, by decide⟩
  have h := CreateGLTexture_failure Example.ext Example.scene2 "textures/Gray.png" "Gray"
    (Or.inr hx)
  refine ⟨hx, h.1, h.2.1, ?_⟩
  rw [h.2.2.2.1 "Gray"]
  simp [FindTextureSlot, FindTextureSlot.loop, Example.scene2]

/-- C10: with a non-null shader manager, after `SetShaderTexture(tag)` followed by
`SetShaderColor(r,g,b,a)` the uniform `bUseTexture` is false (the integer 0) and
`objectColor` is `(r,g,b,a)`; after `SetShaderColor(r,g,b,a)` followed by
`SetShaderTexture(tag)` the uniform `bUseTexture` is true (the integer 1). -/
theorem SetShaderColor_SetShaderTexture_exclusive (s : SceneManager R) (sm : ShaderManager)
    (hsm : s.m_pShaderManager = some sm) (tag : String) (r g b a : R) :
    getUniform (SetShaderColor (SetShaderTexture s tag) r g b a).gl "bUseTexture" =
        some (UniformValue.int 0) ∧
      getUniform (SetShaderColor (SetShaderTexture s tag) r g b a).gl "objectColor" =
        some (UniformValue.vec4 ⟨r, g, b, a⟩) ∧
      getUniform (SetShaderTexture (SetShaderColor s r g b a) tag).gl "bUseTexture" =
        some (UniformValue.int 1) := by
  refine ⟨?_, ?_, ?_⟩ <;>
    simp [SetShaderColor, SetShaderTexture, hsm, ShaderManager.setIntValue,
      ShaderManager.setVec4Value, ShaderManager.setSampler2DValue, g_UseTextureName,
      g_ColorValueName, g_TextureValueName, getUniform, List.foldl_append]

/-- Witness for C10: texture "Brick" and the wall colour of `RenderHouse`. -/
theorem SetShaderColor_SetShaderTexture_exclusive_witness :
    Example.scene2.m_pShaderManager = some ⟨1⟩ ∧
      getUniform (SetShaderColor (SetShaderTexture Example.scene2 "Brick")
          (91 / 100) (85 / 100) (71 / 100) 1).gl "bUseTexture" = some (UniformValue.int 0) ∧
      getUniform (SetShaderColor (SetShaderTexture Example.scene2 "Brick")
          (91 / 100) (85 / 100) (71 / 100) 1).gl "objectColor" =
        some (UniformValue.vec4 ⟨91 / 100, 85 / 100, 71 / 100, 1⟩) ∧
      getUniform (SetShaderTexture (SetShaderColor Example.scene2
          (91 / 100) (85 / 100) (71 / 100) 1) "Brick").gl "bUseTexture" =
        some (UniformValue.int 1) :=
  ⟨rfl, SetShaderColor_SetShaderTexture_exclusive Example.scene2 ⟨1⟩ rfl "Brick"
    (91 / 100) (85 / 100) (71 / 100) 1⟩

end SceneManager

namespace SceneManager

variable {R : Type}

/-- The writes of `SetShaderTexture` under a non-null shader manager: the flag
`bUseTexture` set to 1, then the sampler `objectTexture` set to the slot found. -/
theorem SetShaderTexture_gl (s : SceneManager R) (sm : ShaderManager)
    (hsm : s.m_pShaderManager = some sm) (tag : String) :
    (SetShaderTexture s tag).gl = s.gl ++
      [GLCall.uniform "bUseTexture" (UniformValue.int 1),
       GLCall.uniform "objectTexture" (UniformValue.sampler2D (FindTextureSlot s tag))] := by
  simp [SetShaderTexture, hsm, ShaderManager.setIntValue, ShaderManager.setSampler2DValue,
    g_UseTextureName, g_TextureValueName]

/-- C11: with a non-null shader manager, `SetShaderTexture(tag)` sets `bUseTexture` to
true (the integer 1) and the sampler `objectTexture` to `FindTextureSlot(tag)`: the first
registered index carrying the tag when there is one, and `-1` when there is none. -/
theorem SetShaderTexture_sampler (s : SceneManager R) (sm : ShaderManager)
    (hsm : s.m_pShaderManager = some sm) (tag : String) :
    getUniform (SetShaderTexture s tag).gl "bUseTexture" = some (UniformValue.int 1) ∧
      getUniform (SetShaderTexture s tag).gl "objectTexture" =
        some (UniformValue.sampler2D (FindTextureSlot s tag)) ∧
      ((∃ i, i < s.m_loadedTextures ∧ (s.m_textureIDs i).tag = tag ∧
          (∀ j, j < i → (s.m_textureIDs j).tag ≠ tag) ∧
          getUniform (SetShaderTexture s tag).gl "objectTexture" =
            some (UniformValue.sampler2D (i : Int))) ∨
        ((∀ i, i < s.m_loadedTextures → (s.m_textureIDs i).tag ≠ tag) ∧
          getUniform (SetShaderTexture s tag).gl "objectTexture" =
            some (UniformValue.sampler2D (-1)))) := by
  have hflag : getUniform (SetShaderTexture s tag).gl "bUseTexture" =
      some (UniformValue.int 1) := by
    rw [SetShaderTexture_gl s sm hsm]
    simp [getUniform, List.foldl_append]
  have hsampler : getUniform (SetShaderTexture s tag).gl "objectTexture" =
      some (UniformValue.sampler2D (FindTextureSlot s tag)) := by
    rw [SetShaderTexture_gl s sm hsm]
    simp [getUniform, List.foldl_append]
  refine ⟨hflag, hsampler, ?_⟩
  rcases FindTextureSlot_scan s tag with ⟨i, hi, htag, hleast, hres⟩ | ⟨hnone, hres⟩
  · exact Or.inl ⟨i, hi, htag, hleast, by rw [hsampler, hres]⟩
  · exact Or.inr ⟨hnone, by rw [hsampler, hres]⟩

/-- Witness for C11: "Brick" is registered at slot 1, "Roof" is not registered. -/
theorem SetShaderTexture_sampler_witness :
    Example.scene2.m_pShaderManager = some ⟨1⟩ ∧
      getUniform (SetShaderTexture Example.scene2 "Brick").gl "bUseTexture" =
        some (UniformValue.int 1) ∧
      getUniform (SetShaderTexture Example.scene2 "Brick").gl "objectTexture" =
        some (UniformValue.sampler2D 1) ∧
      getUniform (SetShaderTexture Example.scene2 "Roof").gl "objectTexture" =
        some (UniformValue.sampler2D (-1)) := by
  have hb := SetShaderTexture_sampler Example.scene2 ⟨1⟩ rfl "Brick"
  have hr := SetShaderTexture_sampler Example.scene2 ⟨1⟩ rfl "Roof"
  have e1 : FindTextureSlot Example.scene2 "Brick" = 1 := by
    simp [FindTextureSlot, FindTextureSlot.loop, Example.scene2]
  have e2 : FindTextureSlot Example.scene2 "Roof" = -1 := by
    simp [FindTextureSlot, FindTextureSlot.loop, Example.scene2]
  refine ⟨rfl, hb.1, ?_, ?_⟩
  · rw [hb.2.1, e1]
  · rw [hr.2.1, e2]

/-- C12: `SetShaderTexture(tag)` changes only the uniforms `bUseTexture` and
`objectTexture`: every other uniform (`objectColor`, `model`, `UVscale`, the material
uniforms, ...) has the value it had before, the calls it adds are writes to these two
uniforms only, and the registry, the material list and the shader manager are unchanged. -/
theorem SetShaderTexture_frame (s : SceneManager R) (tag : String) (name : String)
    (h1 : name ≠ "bUseTexture") (h2 : name ≠ "objectTexture") :
    getUniform (SetShaderTexture s tag).gl name = getUniform s.gl name ∧
      (∃ writes, (SetShaderTexture s tag).gl = s.gl ++ writes ∧
        ∀ c ∈ writes, ∃ v, c = GLCall.uniform "bUseTexture" v ∨
          c = GLCall.uniform "objectTexture" v) ∧
      (SetShaderTexture s tag).m_loadedTextures = s.m_loadedTextures ∧
      (SetShaderTexture s tag).m_textureIDs = s.m_textureIDs ∧
      (SetShaderTexture s tag).m_objectMaterials = s.m_objectMaterials ∧
      (SetShaderTexture s tag).m_pShaderManager = s.m_pShaderManager := by
  cases hsm : s.m_pShaderManager with
  | none =>
    have e : SetShaderTexture s tag = s := by simp [SetShaderTexture, hsm]
    rw [e]
    exact ⟨rfl, ⟨[], by simp, by simp⟩, rfl, rfl, rfl, hsm⟩
  | some sm =>
    have hgl := SetShaderTexture_gl s sm hsm tag
    refine ⟨?_, ⟨_, hgl, ?_⟩, ?_, ?_, ?_, ?_⟩
    · rw [hgl]
      simp [getUniform, List.foldl_append, Ne.symm h1, Ne.symm h2]
    · intro c hc
      simp at hc
      rcases hc with hc | hc
      · exact ⟨_, Or.inl hc⟩
      · exact ⟨_, Or.inr hc⟩
    all_goals simp [SetShaderTexture, hsm]

/-- Witness for C12: the colour set before the texture is still there after it. -/
theorem SetShaderTexture_frame_witness :
    ("objectColor" : String) ≠ "bUseTexture" ∧ ("objectColor" : String) ≠ "objectTexture" ∧
      getUniform (SetShaderTexture (SetShaderColor Example.scene2 (41 / 100) (83 / 100)
          (85 / 100) 1) "Brick").gl "objectColor" =
        some (UniformValue.vec4 ⟨41 / 100, 83 / 100, 85 / 100, 1⟩) := by
  have h1 : ("objectColor" : String) ≠ "bUseTexture" := by decide
  have h2 : ("objectColor" : String) ≠ "objectTexture" := by decide
  refine ⟨h1, h2, ?_⟩
  rw [(SetShaderTexture_frame (SetShaderColor Example.scene2 (41 / 100) (83 / 100)
    (85 / 100) 1) "Brick" "objectColor" h1 h2).1]
  simp [SetShaderColor, Example.scene2, ShaderManager.setIntValue, ShaderManager.setVec4Value,
    g_UseTextureName, g_ColorValueName, getUniform]

/-- C16: with a null shader manager, `SetTransformations`, `SetShaderColor`,
`SetShaderTexture` and `SetTextureUVScale` return with the state, and so the log of
uniform writes, exactly as it was, for every argument. -/
theorem null_shader_manager_noop [Field R] (L : glm.Libm R) (s : SceneManager R)
    (hnull : s.m_pShaderManager = none) (scaleXYZ : glm.vec3 R) (rx ry rz : R)
    (p o : glm.vec3 R) (r g b a : R) (tag : String) (u v : R) :
    SetTransformations L s scaleXYZ rx ry rz p o = s ∧
      SetShaderColor s r g b a = s ∧
      SetShaderTexture s tag = s ∧
      SetTextureUVScale s u v = s := by
  refine ⟨?_, ?_, ?_, ?_⟩
  · simp [SetTransformations, hnull]
  · simp [SetShaderColor, hnull]
  · simp [SetShaderTexture, hnull]
  · simp [SetTextureUVScale, hnull]

/-- Witness for C16: the example scene with a null shader manager. -/
theorem null_shader_manager_noop_witness :
    Example.sceneNull.m_pShaderManager = none ∧
      (SetTransformations Example.libm Example.sceneNull ⟨2, 1, 1⟩ 0 90 0 ⟨1, 0, 0⟩
        ⟨0, 0, 0⟩).gl = Example.sceneNull.gl ∧
      (SetShaderColor Example.sceneNull 1 0 0 1).gl = Example.sceneNull.gl ∧
      (SetShaderTexture Example.sceneNull "Brick").gl = Example.sceneNull.gl ∧
      (SetTextureUVScale Example.sceneNull 4 4).gl = Example.sceneNull.gl := by
  have h := null_shader_manager_noop Example.libm Example.sceneNull rfl ⟨2, 1, 1⟩ 0 90 0
    ⟨1, 0, 0⟩ ⟨0, 0, 0⟩ 1 0 0 1 "Brick" 4 4
  exact ⟨rfl, by rw [h.1], by rw [h.2.1], by rw [h.2.2.1], by rw [h.2.2.2]⟩

/-- C17, the code at the failing input: with a null shader manager and the material list
`[metal]`, `SetShaderMaterial("metal")` reaches the uniform writes and dereferences the
null pointer (result `none`); only on an empty material list does it return normally. -/
theorem SetShaderMaterial_null_dereference :
    Example.sceneNull.m_pShaderManager = none ∧
      Example.sceneNull.m_objectMaterials = [Example.metal] ∧
      (SetShaderMaterial Example.sceneNull Example.garbage "metal").isNone = true ∧
      (SetShaderMaterial { Example.sceneNull with m_objectMaterials := [] } Example.garbage
        "metal").isSome = true := by
  refine ⟨rfl, rfl, ?_, ?_⟩
  · simp [SetShaderMaterial, FindMaterial, Example.sceneNull, Example.scene2]
  · simp [SetShaderMaterial, Example.sceneNull]

end SceneManager

namespace SceneManager

variable {R : Type}

/-- Once `bFound` is set the loop of `FindMaterial` stops with the material it holds. -/
theorem FindMaterial_loop_found (s : SceneManager R) (tag : String) (fuel index : Nat)
    (material : OBJECT_MATERIAL R) :
    FindMaterial.loop s tag fuel index true material = (true, material) := by
  cases fuel <;> simp [FindMaterial.loop]

/-- The scan of `FindMaterial` from `index`, with fuel covering the materials that
remain: it ends on the first material from `index` on whose tag matches, with its three
values copied, or with `bFound = false` and `material` untouched when there is none. -/
theorem FindMaterial_loop_spec (s : SceneManager R) (tag : String) :
    ∀ (fuel index : Nat) (material : OBJECT_MATERIAL R),
      s.m_objectMaterials.length - index < fuel →
      FindMaterial.loop s tag fuel index false material =
        match (s.m_objectMaterials.drop index).find? (fun m => decide (m.tag = tag)) with
        | some m => (true, Spec.copyMaterial m material)
        | none => (false, material) := by
  intro fuel
  induction fuel with
  | zero => intro index material h; omega
  | succ fuel ih =>
    intro index material hfuel
    by_cases hlt : index < s.m_objectMaterials.length
    · have hdrop : s.m_objectMaterials.drop index =
          s.m_objectMaterials[index] :: s.m_objectMaterials.drop (index + 1) :=
        List.drop_eq_getElem_cons hlt
      by_cases htag : (s.m_objectMaterials[index]).tag = tag
      · have hfind : (s.m_objectMaterials.drop index).find? (fun m => decide (m.tag = tag)) =
            some s.m_objectMaterials[index] := by
          rw [hdrop, List.find?_cons_of_pos]
          simpa using htag
        rw [hfind]
        simp [FindMaterial.loop, hlt, htag, FindMaterial_loop_found, Spec.copyMaterial]
      · have hfind : (s.m_objectMaterials.drop index).find? (fun m => decide (m.tag = tag)) =
            (s.m_objectMaterials.drop (index + 1)).find? (fun m => decide (m.tag = tag)) := by
          rw [hdrop, List.find?_cons_of_neg]
          simpa using htag
        rw [hfind, ← ih (index + 1) material (by omega)]
        simp [FindMaterial.loop, hlt, htag]
    · have hnil : s.m_objectMaterials.drop index = [] :=
        List.drop_eq_nil_of_le (by omega)
      simp [FindMaterial.loop, hlt, hnil]

/-- What `FindMaterial` returns: `false` with `material` untouched on an empty list;
otherwise `true`, with the three values of the first material carrying the tag copied
into `material`, or `material` untouched when no material carries the tag. -/
theorem FindMaterial_eq (s : SceneManager R) (tag : String) (material : OBJECT_MATERIAL R) :
    FindMaterial s tag material =
      if s.m_objectMaterials.length = 0 then (false, material)
      else
        match s.m_objectMaterials.find? (fun m => decide (m.tag = tag)) with
        | some m => (true, Spec.copyMaterial m material)
        | none => (true, material) := by
  unfold FindMaterial
  by_cases h0 : s.m_objectMaterials.length = 0
  · simp [h0]
  · simp only [h0, if_false]
    rw [FindMaterial_loop_spec s tag _ 0 material (by omega)]
    simp only [List.drop_zero]
    cases s.m_objectMaterials.find? (fun m => decide (m.tag = tag)) <;> rfl

/-- The first material of `pre ++ m :: post` carrying the tag of `m` is `m` when no
material of `pre` carries it. -/
theorem find_first_material (pre post : List (OBJECT_MATERIAL R)) (m : OBJECT_MATERIAL R)
    (tag : String) (hm : m.tag = tag) (hpre : ∀ x ∈ pre, x.tag ≠ tag) :
    (pre ++ m :: post).find? (fun x => decide (x.tag = tag)) = some m := by
  induction pre with
  | nil => simp [hm]
  | cons x pre ih =>
    have hx : x.tag ≠ tag := hpre x (by simp)
    have hrest : ∀ y ∈ pre, y.tag ≠ tag := fun y hy => hpre y (by simp [hy])
    simp [List.find?_cons, hx, ih hrest]

/-- The writes of `SetShaderMaterial` when the first material carrying the tag is `m`. -/
theorem SetShaderMaterial_found (s : SceneManager R) (sm : ShaderManager)
    (hsm : s.m_pShaderManager = some sm) (tag : String) (uninit m : OBJECT_MATERIAL R)
    (hfind : s.m_objectMaterials.find? (fun x => decide (x.tag = tag)) = some m) :
    SetShaderMaterial s uninit tag =
      some { s with gl := s.gl ++
        [GLCall.uniform "material.diffuseColor" (UniformValue.vec3 m.diffuseColor),
         GLCall.uniform "material.specularColor" (UniformValue.vec3 m.specularColor),
         GLCall.uniform "material.shininess" (UniformValue.float m.shininess)] } := by
  have hne : s.m_objectMaterials.length ≠ 0 := by
    intro h0
    have hnil : s.m_objectMaterials = [] := List.length_eq_zero.mp h0
    rw [hnil] at hfind
    simp at hfind
  have hpos : s.m_objectMaterials.length > 0 := by omega
  have hF := FindMaterial_eq s tag uninit
  rw [if_neg hne, hfind] at hF
  simp [SetShaderMaterial, hpos, hF, hsm, Spec.copyMaterial, ShaderManager.setVec3Value,
    ShaderManager.setFloatValue]

/-- C13: with a non-null shader manager and a material list `pre ++ m :: post` in which
`m` is the first material carrying the tag `t` (no material of `pre` carries it, whatever
`post` holds), `SetShaderMaterial(t)` writes `material.diffuseColor`,
`material.specularColor` and `material.shininess` with the values of `m`, for every
content of its uninitialised local; a later material with the same tag is not used. -/
theorem SetShaderMaterial_first_match (s : SceneManager R) (sm : ShaderManager)
    (hsm : s.m_pShaderManager = some sm) (t : String) (uninit m : OBJECT_MATERIAL R)
    (pre post : List (OBJECT_MATERIAL R)) (hlist : s.m_objectMaterials = pre ++ m :: post)
    (hm : m.tag = t) (hpre : ∀ x ∈ pre, x.tag ≠ t) :
    ∃ s', SetShaderMaterial s uninit t = some s' ∧
      s'.gl = s.gl ++
        [GLCall.uniform "material.diffuseColor" (UniformValue.vec3 m.diffuseColor),
         GLCall.uniform "material.specularColor" (UniformValue.vec3 m.specularColor),
         GLCall.uniform "material.shininess" (UniformValue.float m.shininess)] ∧
      getUniform s'.gl "material.diffuseColor" = some (UniformValue.vec3 m.diffuseColor) ∧
      getUniform s'.gl "material.specularColor" = some (UniformValue.vec3 m.specularColor) ∧
      getUniform s'.gl "material.shininess" = some (UniformValue.float m.shininess) := by
  have hfind : s.m_objectMaterials.find? (fun x => decide (x.tag = t)) = some m := by
    rw [hlist]
    exact find_first_material pre post m t hm hpre
  refine ⟨_, SetShaderMaterial_found s sm hsm t uninit m hfind, rfl, ?_, ?_, ?_⟩ <;>
    simp [getUniform, List.foldl_append]

/-- Witness for C13: of the two materials tagged "metal" the first one is written. -/
theorem SetShaderMaterial_first_match_witness :
    Example.sceneDup.m_pShaderManager = some ⟨1⟩ ∧
      Example.sceneDup.m_objectMaterials =
        [⟨⟨39 / 50, 49 / 100, 1 / 5⟩, ⟨24 / 25, 18 / 25, 49 / 100⟩, 4, "wood"⟩] ++
          Example.metal :: [Example.metalLate] ∧
      Example.metalLate.tag = "metal" ∧
      ∃ s', SetShaderMaterial Example.sceneDup Example.garbage "metal" = some s' ∧
        getUniform s'.gl "material.diffuseColor" =
          some (UniformValue.vec3 Example.metal.diffuseColor) ∧
        getUniform s'.gl "material.shininess" = some (UniformValue.float 52) := by
  refine ⟨rfl, rfl, rfl, ?_⟩
  obtain ⟨s', h1, _, h3, _, h5⟩ := SetShaderMaterial_first_match Example.sceneDup ⟨1⟩ rfl
    "metal" Example.garbage Example.metal
    [⟨⟨39 / 50, 49 / 100, 1 / 5⟩, ⟨24 / 25, 18 / 25, 49 / 100⟩, 4, "wood"⟩]
    [Example.metalLate] rfl rfl (by intro x hx; simp at hx; subst hx; decide)
  exact ⟨s', h1, h3, h5⟩

/-- The loop of `FindMaterial` reads only the material list. -/
theorem FindMaterial_congr (s t : SceneManager R) (tag : String)
    (material : OBJECT_MATERIAL R) (hm : t.m_objectMaterials = s.m_objectMaterials) :
    FindMaterial t tag material = FindMaterial s tag material := by
  rw [FindMaterial_eq, FindMaterial_eq, hm]

/-- The loop of `FindTextureSlot` hands the object back as it received it. -/
theorem FindTextureSlot_callLoop_eq (tag : String) :
    ∀ (fuel : Nat) (s : SceneManager R) (index : Nat) (textureSlot : Int) (bFound : Bool),
      FindTextureSlot.callLoop tag fuel s index textureSlot bFound =
        (FindTextureSlot.loop s tag fuel index textureSlot bFound, s) := by
  intro fuel
  induction fuel with
  | zero => intro s index textureSlot bFound; rfl
  | succ fuel ih =>
    intro s index textureSlot bFound
    simp only [FindTextureSlot.callLoop, FindTextureSlot.loop, ih]
    split_ifs <;> rfl

/-- The loop of `FindTextureID` hands the object back as it received it. -/
theorem FindTextureID_callLoop_eq (tag : String) :
    ∀ (fuel : Nat) (s : SceneManager R) (index : Nat) (textureID : Int) (bFound : Bool),
      FindTextureID.callLoop tag fuel s index textureID bFound =
        (FindTextureID.loop s tag fuel index textureID bFound, s) := by
  intro fuel
  induction fuel with
  | zero => intro s index textureID bFound; rfl
  | succ fuel ih =>
    intro s index textureID bFound
    simp only [FindTextureID.callLoop, FindTextureID.loop, ih]
    split_ifs <;> rfl

/-- The loop of `FindMaterial` hands the object back as it received it. -/
theorem FindMaterial_callLoop_eq (tag : String) :
    ∀ (fuel : Nat) (s : SceneManager R) (index : Nat) (bFound : Bool)
      (material : OBJECT_MATERIAL R),
      FindMaterial.callLoop tag fuel s index bFound material =
        (FindMaterial.loop s tag fuel index bFound material, s) := by
  intro fuel
  induction fuel with
  | zero => intro s index bFound material; rfl
  | succ fuel ih =>
    intro s index bFound material
    simp only [FindMaterial.callLoop, FindMaterial.loop, ih]
    split_ifs <;> rfl

/-- The call `FindTextureSlot(tag)` returns what `FindTextureSlot` computes and leaves
the object as it was. -/
theorem FindTextureSlot_call_eq (s : SceneManager R) (tag : String) :
    FindTextureSlot.call s tag = (FindTextureSlot s tag, s) :=
  FindTextureSlot_callLoop_eq tag _ s 0 (-1) false

/-- The call `FindTextureID(tag)` returns what `FindTextureID` computes and leaves the
object as it was. -/
theorem FindTextureID_call_eq (s : SceneManager R) (tag : String) :
    FindTextureID.call s tag = (FindTextureID s tag, s) :=
  FindTextureID_callLoop_eq tag _ s 0 (-1) false

/-- The call `FindMaterial(tag, material)` returns what `FindMaterial` computes and
leaves the object as it was. -/
theorem FindMaterial_call_eq (s : SceneManager R) (tag : String)
    (material : OBJECT_MATERIAL R) :
    FindMaterial.call s tag material = (FindMaterial s tag material, s) := by
  unfold FindMaterial.call FindMaterial
  by_cases h0 : s.m_objectMaterials.length = 0
  · simp [h0]
  · simp [h0, FindMaterial_callLoop_eq]

/-- A second `FindMaterial` on the `material` the first one filled returns the same flag
and the same `material`. -/
theorem FindMaterial_refill (s : SceneManager R) (tag : String)
    (material : OBJECT_MATERIAL R) :
    FindMaterial s tag (FindMaterial s tag material).2 = FindMaterial s tag material := by
  rw [FindMaterial_eq s tag material, FindMaterial_eq]
  by_cases h0 : s.m_objectMaterials.length = 0
  · simp [h0]
  · simp only [h0, if_false]
    cases s.m_objectMaterials.find? (fun m => decide (m.tag = tag)) <;>
      simp [Spec.copyMaterial]

/-- C15: `FindTextureSlot`, `FindTextureID` and `FindMaterial` are idempotent.  A call of
any of the three leaves the object as it was: the registry, the material list, the shader
manager pointer and the log of OpenGL calls after the call are those before it.  Hence a
second call with the same tag, made on the object the first call left, returns what the
first returned; for `FindMaterial` this holds with `material` as it was before the first
call and with `material` as the first call filled it.  The values returned are those of
the functions `FindTextureSlot`, `FindTextureID` and `FindMaterial`. -/
theorem Find_idempotent (s : SceneManager R) (tag : String) (material : OBJECT_MATERIAL R) :
    (FindTextureSlot.call s tag).2 = s ∧ (FindTextureID.call s tag).2 = s ∧
      (FindMaterial.call s tag material).2 = s ∧
      (FindTextureSlot.call (FindTextureSlot.call s tag).2 tag).1 =
        (FindTextureSlot.call s tag).1 ∧
      (FindTextureID.call (FindTextureID.call s tag).2 tag).1 =
        (FindTextureID.call s tag).1 ∧
      (FindMaterial.call (FindMaterial.call s tag material).2 tag material).1 =
        (FindMaterial.call s tag material).1 ∧
      (FindMaterial.call (FindMaterial.call s tag material).2 tag
          (FindMaterial.call s tag material).1.2).1 =
        (FindMaterial.call s tag material).1 ∧
      (FindTextureSlot.call s tag).1 = FindTextureSlot s tag ∧
      (FindTextureID.call s tag).1 = FindTextureID s tag ∧
      (FindMaterial.call s tag material).1 = FindMaterial s tag material := by
  simp only [FindTextureSlot_call_eq, FindTextureID_call_eq, FindMaterial_call_eq,
    FindMaterial_refill, and_self]

end SceneManager

/-- Texture-unit state after one more `glActiveTexture(GL_TEXTURE0 + i)` and one more
`glBindTexture(GL_TEXTURE_2D, t)`: unit `i` is active and holds `t`, the other units are
as before. -/
theorem textureUnits_append_bind {R : Type} (gl : List (GLCall R)) (i t : Nat) :
    (textureUnits (gl ++ [GLCall.glActiveTexture i,
        GLCall.glBindTexture GLenum.GL_TEXTURE_2D t])).active = i ∧
      ∀ j, (textureUnits (gl ++ [GLCall.glActiveTexture i,
          GLCall.glBindTexture GLenum.GL_TEXTURE_2D t])).bound j =
        if j = i then t else (textureUnits gl).bound j := by
  simp [textureUnits, List.foldl_append]

/-- Texture-unit state after the calls `Spec.bindCalls ids n`: unit `i < n` holds the
handle of entry `i`, the units from `n` on are as before. -/
theorem textureUnits_bindCalls {R : Type} (gl : List (GLCall R)) (ids : Nat → TEXTURE_INFO) :
    ∀ n j, (textureUnits (gl ++ Spec.bindCalls ids n)).bound j =
      if j < n then (ids j).ID else (textureUnits gl).bound j := by
  intro n
  induction n with
  | zero => intro j; simp [Spec.bindCalls]
  | succ n ih =>
    intro j
    have happ : gl ++ Spec.bindCalls ids (n + 1) =
        (gl ++ Spec.bindCalls ids n) ++ [GLCall.glActiveTexture n,
          GLCall.glBindTexture GLenum.GL_TEXTURE_2D (ids n).ID] := by
      simp [Spec.bindCalls]
    rw [happ, (textureUnits_append_bind _ n (ids n).ID).2 j, ih j]
    by_cases hjn : j = n
    · subst hjn; simp
    · have h1 : (j < n + 1) = (j < n) := by
        apply propext; constructor <;> intro h <;> omega
      simp [hjn, h1]

namespace SceneManager

variable {R : Type}

/-- The `for` loop of `BindGLTextures` from `i`, with fuel covering the entries that
remain, completes the calls for the entries `0..i-1` to the calls for all entries. -/
theorem BindGLTextures_loop_spec (s : SceneManager R) (gl : List (GLCall R)) :
    ∀ fuel i : Nat, i ≤ s.m_loadedTextures → s.m_loadedTextures - i < fuel →
      BindGLTextures.loop s fuel i (gl ++ Spec.bindCalls s.m_textureIDs i) =
        gl ++ Spec.bindCalls s.m_textureIDs s.m_loadedTextures := by
  intro fuel
  induction fuel with
  | zero => intro i _ h; omega
  | succ fuel ih =>
    intro i hi hfuel
    by_cases hlt : i < s.m_loadedTextures
    · have hstep : gl ++ Spec.bindCalls s.m_textureIDs i ++
          [GLCall.glActiveTexture i,
            GLCall.glBindTexture GLenum.GL_TEXTURE_2D (s.m_textureIDs i).ID] =
          gl ++ Spec.bindCalls s.m_textureIDs (i + 1) := by
        simp [Spec.bindCalls]
      simp only [BindGLTextures.loop, hlt, if_true]
      rw [hstep]
      exact ih (i + 1) (by omega) (by omega)
    · have hin : i = s.m_loadedTextures := by omega
      simp only [BindGLTextures.loop, hlt, if_false]
      rw [hin]

/-- The calls of `BindGLTextures`: for each registered entry in turn, select its unit and
bind its handle. -/
theorem BindGLTextures_gl (s : SceneManager R) :
    (BindGLTextures s).gl = s.gl ++ Spec.bindCalls s.m_textureIDs s.m_loadedTextures := by
  have h := BindGLTextures_loop_spec s s.gl (s.m_loadedTextures + 1) 0 (by omega) (by omega)
  simpa [BindGLTextures, Spec.bindCalls] using h

/-- C14: on a registry with `n` loaded textures (`n` within the 16 cells),
`BindGLTextures` issues, for `i = 0 .. n-1` in turn, `glActiveTexture(GL_TEXTURE0 + i)` and
`glBindTexture(GL_TEXTURE_2D, handle of entry i)` and nothing else, so that afterwards unit
`i` holds the handle of entry `i` for every `i < n` and every unit at or above `n` holds
what it held before; the registry is unchanged. -/
theorem BindGLTextures_binds (s : SceneManager R)
    (_hn : s.m_loadedTextures ≤ textureSlots) :
    (BindGLTextures s).gl = s.gl ++ Spec.bindCalls s.m_textureIDs s.m_loadedTextures ∧
      (∀ i, i < s.m_loadedTextures →
        (textureUnits (BindGLTextures s).gl).bound i = (s.m_textureIDs i).ID) ∧
      (∀ i, s.m_loadedTextures ≤ i →
        (textureUnits (BindGLTextures s).gl).bound i = (textureUnits s.gl).bound i) ∧
      (BindGLTextures s).m_loadedTextures = s.m_loadedTextures ∧
      (BindGLTextures s).m_textureIDs = s.m_textureIDs := by
  refine ⟨BindGLTextures_gl s, ?_, ?_, rfl, rfl⟩
  · intro i hi
    rw [BindGLTextures_gl, textureUnits_bindCalls]
    simp [hi]
  · intro i hi
    rw [BindGLTextures_gl, textureUnits_bindCalls]
    have : ¬ i < s.m_loadedTextures := by omega
    simp [this]

/-- Witness for C14: the registry with "Grass" (handle 1) and "Brick" (handle 2). -/
theorem BindGLTextures_binds_witness :
    Example.scene2.m_loadedTextures ≤ textureSlots ∧
      (BindGLTextures Example.scene2).gl = Example.scene2.gl ++
        [GLCall.glActiveTexture 0, GLCall.glBindTexture GLenum.GL_TEXTURE_2D 1,
         GLCall.glActiveTexture 1, GLCall.glBindTexture GLenum.GL_TEXTURE_2D 2] ∧
      (textureUnits (BindGLTextures Example.scene2).gl).bound 0 = 1 ∧
      (textureUnits (BindGLTextures Example.scene2).gl).bound 1 = 2 ∧
      (textureUnits (BindGLTextures Example.scene2).gl).bound 2 = 0 := by
  have hn : Example.scene2.m_loadedTextures ≤ textureSlots := by decide
  have h := BindGLTextures_binds Example.scene2 hn
  refine ⟨hn, ?_, ?_, ?_, ?_⟩
  · rw [h.1]
    simp [Spec.bindCalls, Example.scene2]
  · rw [h.2.1 0 (by decide)]
    simp [Example.scene2]
  · rw [h.2.1 1 (by decide)]
    simp [Example.scene2]
  · rw [h.2.2.1 2 (by decide)]
    simp [textureUnits, Example.scene2]

end SceneManager

/-- The value of a uniform after the log `gl ++ ws` is the one the calls `ws` alone give
it when they write it, and the one it had after `gl` when they do not. -/
theorem getUniform_append {R : Type} (gl ws : List (GLCall R)) (name : String) :
    getUniform (gl ++ ws) name =
      match getUniform ws name with
      | some v => some v
      | none => getUniform gl name := by
  induction ws using List.reverseRecOn with
  | nil => simp [getUniform]
  | append_singleton ws c ih =>
    rw [← List.append_assoc]
    cases c
    case uniform n v =>
      rw [getUniform_append_uniform (gl ++ ws) n v name, getUniform_append_uniform ws n v name,
        ih]
      by_cases hn : n = name <;> simp [hn]
    all_goals
      simpa only [getUniform, List.foldl_append, List.foldl_cons, List.foldl_nil] using ih

/-- Issuing the same calls a second time leaves every uniform with the value it had after
the first time. -/
theorem getUniform_append_twice {R : Type} (gl ws : List (GLCall R)) (name : String) :
    getUniform (gl ++ ws ++ ws) name = getUniform (gl ++ ws) name := by
  rw [getUniform_append (gl ++ ws) ws, getUniform_append gl ws]
  cases getUniform ws name <;> rfl

namespace SceneManager

variable {R : Type}

/-- The writes of `SetupSceneLights` under a non-null shader manager. -/
theorem SetupSceneLights_gl [Field R] (s : SceneManager R) (sm : ShaderManager)
    (hsm : s.m_pShaderManager = some sm) :
    SetupSceneLights s = some { s with gl := s.gl ++ Spec.sceneLightWrites } := by
  simp [SetupSceneLights, hsm, ShaderManager.setBoolValue, ShaderManager.setVec3Value,
    Spec.sceneLightWrites, g_UseLightingName]

/-- C19: with a non-null shader manager and from every prior state, `SetupSceneLights`
returns, a second call right after it returns too, and after the second call every
uniform has the value it had after the first (the rest of the state is the same as
well): `bUseLighting` is true and the directional light and the point lights 0 to 3 are
active. -/
theorem SetupSceneLights_twice [Field R] (s : SceneManager R) (sm : ShaderManager)
    (hsm : s.m_pShaderManager = some sm) :
    ∃ s1 s2, SetupSceneLights s = some s1 ∧ SetupSceneLights s1 = some s2 ∧
      (∀ name, getUniform s2.gl name = getUniform s1.gl name) ∧
      s2.m_pShaderManager = s1.m_pShaderManager ∧
      s2.m_loadedTextures = s1.m_loadedTextures ∧
      s2.m_textureIDs = s1.m_textureIDs ∧
      s2.m_objectMaterials = s1.m_objectMaterials ∧
      getUniform s2.gl "bUseLighting" = some (UniformValue.bool true) ∧
      getUniform s2.gl "directionalLight.bActive" = some (UniformValue.bool true) ∧
      getUniform s2.gl "pointLights[0].bActive" = some (UniformValue.bool true) ∧
      getUniform s2.gl "pointLights[1].bActive" = some (UniformValue.bool true) ∧
      getUniform s2.gl "pointLights[2].bActive" = some (UniformValue.bool true) ∧
      getUniform s2.gl "pointLights[3].bActive" = some (UniformValue.bool true) := by
  have h1 := SetupSceneLights_gl s sm hsm
  have h2 := SetupSceneLights_gl { s with gl := s.gl ++ Spec.sceneLightWrites } sm hsm
  refine ⟨_, _, h1, h2, ?_, rfl, rfl, rfl, rfl, ?_, ?_, ?_, ?_, ?_, ?_⟩
  · intro name
    exact getUniform_append_twice s.gl Spec.sceneLightWrites name
  all_goals
    show getUniform (s.gl ++ Spec.sceneLightWrites ++ Spec.sceneLightWrites) _ = _
    rw [getUniform_append]
    simp [getUniform, Spec.sceneLightWrites]

/-- Witness for C19: the example scene without textures or materials. -/
theorem SetupSceneLights_twice_witness :
    Example.scene0.m_pShaderManager = some ⟨1⟩ ∧
      ∃ s1 s2, SetupSceneLights Example.scene0 = some s1 ∧ SetupSceneLights s1 = some s2 ∧
        (∀ name, getUniform s2.gl name = getUniform s1.gl name) ∧
        getUniform s2.gl "bUseLighting" = some (UniformValue.bool true) := by
  obtain ⟨s1, s2, h1, h2, h3, _, _, _, _, h4, _⟩ :=
    SetupSceneLights_twice Example.scene0 ⟨1⟩ rfl
  exact ⟨rfl, s1, s2, h1, h2, h3, h4⟩

end SceneManager

namespace SceneManager

variable {R : Type}

end SceneManager

namespace SceneManager

variable {R : Type}

/-- The effect of `CreateGLTexture` on the log and on the shader manager: it appends
calls of a texture load only (none when the file does not decode) and keeps the pointer. -/
theorem CreateGLTexture_calls (ext : Externals R) (s : SceneManager R)
    (filename tag : String) :
    (∃ calls, (CreateGLTexture ext s filename tag).2.gl = s.gl ++ calls ∧
        ∀ c ∈ calls, Spec.isTextureLoadCall c = true) ∧
      (CreateGLTexture ext s filename tag).2.m_pShaderManager = s.m_pShaderManager := by
  cases hload : ext.stbi_load true filename with
  | none =>
    refine ⟨⟨[], ?_, ?_⟩, ?_⟩ <;> simp [CreateGLTexture, hload]
  | some image =>
    by_cases h3 : image.colorChannels = 3
    · refine ⟨⟨[GLCall.glGenTextures (ext.glGenTextures s.gl),
         GLCall.glBindTexture GLenum.GL_TEXTURE_2D (ext.glGenTextures s.gl),
         GLCall.glTexParameteri GLenum.GL_TEXTURE_2D GLenum.GL_TEXTURE_WRAP_S GLenum.GL_REPEAT,
         GLCall.glTexParameteri GLenum.GL_TEXTURE_2D GLenum.GL_TEXTURE_WRAP_T GLenum.GL_REPEAT,
         GLCall.glTexParameteri GLenum.GL_TEXTURE_2D GLenum.GL_TEXTURE_MIN_FILTER
           GLenum.GL_LINEAR,
         GLCall.glTexParameteri GLenum.GL_TEXTURE_2D GLenum.GL_TEXTURE_MAG_FILTER
           GLenum.GL_LINEAR,
         GLCall.glTexImage2D GLenum.GL_TEXTURE_2D 0 GLenum.GL_RGB8 image.width image.height 0
           GLenum.GL_RGB GLenum.GL_UNSIGNED_BYTE image.pixels,
         GLCall.glGenerateMipmap GLenum.GL_TEXTURE_2D,
         GLCall.glBindTexture GLenum.GL_TEXTURE_2D 0], ?_, ?_⟩, ?_⟩ <;>
        simp [CreateGLTexture, hload, h3, Spec.isTextureLoadCall]
    · by_cases h4 : image.colorChannels = 4
      · refine ⟨⟨[GLCall.glGenTextures (ext.glGenTextures s.gl),
           GLCall.glBindTexture GLenum.GL_TEXTURE_2D (ext.glGenTextures s.gl),
           GLCall.glTexParameteri GLenum.GL_TEXTURE_2D GLenum.GL_TEXTURE_WRAP_S
             GLenum.GL_REPEAT,
           GLCall.glTexParameteri GLenum.GL_TEXTURE_2D GLenum.GL_TEXTURE_WRAP_T
             GLenum.GL_REPEAT,
           GLCall.glTexParameteri GLenum.GL_TEXTURE_2D GLenum.GL_TEXTURE_MIN_FILTER
             GLenum.GL_LINEAR,
           GLCall.glTexParameteri GLenum.GL_TEXTURE_2D GLenum.GL_TEXTURE_MAG_FILTER
             GLenum.GL_LINEAR,
           GLCall.glTexImage2D GLenum.GL_TEXTURE_2D 0 GLenum.GL_RGBA8 image.width
             image.height 0 GLenum.GL_RGBA GLenum.GL_UNSIGNED_BYTE image.pixels,
           GLCall.glGenerateMipmap GLenum.GL_TEXTURE_2D,
           GLCall.glBindTexture GLenum.GL_TEXTURE_2D 0], ?_, ?_⟩, ?_⟩ <;>
          simp [CreateGLTexture, hload, h4, Spec.isTextureLoadCall]
      · refine ⟨⟨[GLCall.glGenTextures (ext.glGenTextures s.gl),
           GLCall.glBindTexture GLenum.GL_TEXTURE_2D (ext.glGenTextures s.gl),
           GLCall.glTexParameteri GLenum.GL_TEXTURE_2D GLenum.GL_TEXTURE_WRAP_S
             GLenum.GL_REPEAT,
           GLCall.glTexParameteri GLenum.GL_TEXTURE_2D GLenum.GL_TEXTURE_WRAP_T
             GLenum.GL_REPEAT,
           GLCall.glTexParameteri GLenum.GL_TEXTURE_2D GLenum.GL_TEXTURE_MIN_FILTER
             GLenum.GL_LINEAR,
           GLCall.glTexParameteri GLenum.GL_TEXTURE_2D GLenum.GL_TEXTURE_MAG_FILTER
             GLenum.GL_LINEAR], ?_, ?_⟩, ?_⟩ <;>
          simp [CreateGLTexture, hload, h3, h4, Spec.isTextureLoadCall]

/-- The calls of `Spec.bindCalls` select a unit or bind a texture; none is a draw. -/
theorem bindCalls_not_draw (ids : Nat → TEXTURE_INFO) (m : Mesh) :
    ∀ n, (GLCall.drawMesh m : GLCall R) ∉ Spec.bindCalls ids n := by
  intro n
  induction n with
  | zero => simp [Spec.bindCalls]
  | succ n ih => simp [Spec.bindCalls, ih]

/-- The log of `PrepareScene` under a non-null shader manager: the texture-load calls,
then the unit bindings of `BindGLTextures` once (for the registry as the loads left it),
then the light uniforms, then the mesh loads; no draw call is among them. -/
theorem PrepareScene_gl [Field R] (ext : Externals R) (s : SceneManager R)
    (sm : ShaderManager) (hsm : s.m_pShaderManager = some sm) :
    ∃ s' loads, PrepareScene ext s = some s' ∧
        (∀ c ∈ loads, Spec.isTextureLoadCall c = true) ∧
        s'.gl = s.gl ++ loads ++ Spec.bindCalls s'.m_textureIDs s'.m_loadedTextures ++
          Spec.sceneLightWrites ++ Spec.meshLoads ∧
        (∀ m, GLCall.drawMesh m ∉ loads ++ Spec.bindCalls s'.m_textureIDs s'.m_loadedTextures ++
          Spec.sceneLightWrites ++ Spec.meshLoads) := by
  have hcomp : PrepareScene ext s =
        (SetupSceneLights (DefineObjectMaterials (BindGLTextures
          (CreateGLTexture ext
            (CreateGLTexture ext
              (CreateGLTexture ext
                (CreateGLTexture ext s "textures/Grass.jpg" "Grass").2
                "textures/Brick.jpg" "Brick").2
              "textures/Roof.jpg" "Roof").2
            "textures/Wood.jpg" "Wood").2))).map
          (fun s3 => { s3 with gl := loadBasicMeshes s3.gl }) := by
    simp only [PrepareScene, LoadSceneTextures]
    cases SetupSceneLights (DefineObjectMaterials (BindGLTextures
          (CreateGLTexture ext
            (CreateGLTexture ext
              (CreateGLTexture ext
                (CreateGLTexture ext s "textures/Grass.jpg" "Grass").2
                "textures/Brick.jpg" "Brick").2
              "textures/Roof.jpg" "Roof").2
            "textures/Wood.jpg" "Wood").2)) <;> rfl
  obtain ⟨⟨c1, hg1, hk1⟩, hp1⟩ := CreateGLTexture_calls ext s "textures/Grass.jpg" "Grass"
  obtain ⟨⟨c2, hg2, hk2⟩, hp2⟩ := CreateGLTexture_calls ext
    (CreateGLTexture ext s "textures/Grass.jpg" "Grass").2 "textures/Brick.jpg" "Brick"
  obtain ⟨⟨c3, hg3, hk3⟩, hp3⟩ := CreateGLTexture_calls ext
    (CreateGLTexture ext (CreateGLTexture ext s "textures/Grass.jpg" "Grass").2
      "textures/Brick.jpg" "Brick").2 "textures/Roof.jpg" "Roof"
  obtain ⟨⟨c4, hg4, hk4⟩, hp4⟩ := CreateGLTexture_calls ext
    (CreateGLTexture ext (CreateGLTexture ext
      (CreateGLTexture ext s "textures/Grass.jpg" "Grass").2
      "textures/Brick.jpg" "Brick").2 "textures/Roof.jpg" "Roof").2 "textures/Wood.jpg" "Wood"
  generalize hs4 : (CreateGLTexture ext (CreateGLTexture ext (CreateGLTexture ext
      (CreateGLTexture ext s "textures/Grass.jpg" "Grass").2
      "textures/Brick.jpg" "Brick").2 "textures/Roof.jpg" "Roof").2
      "textures/Wood.jpg" "Wood").2 = s4 at hcomp hg4 hp4
  have hgl4 : s4.gl = s.gl ++ (c1 ++ c2 ++ c3 ++ c4) := by
    rw [hg4, hg3, hg2, hg1]; simp [List.append_assoc]
  have hsm4 : s4.m_pShaderManager = some sm := by rw [hp4, hp3, hp2, hp1, hsm]
  have hkinds : ∀ c ∈ c1 ++ c2 ++ c3 ++ c4, Spec.isTextureLoadCall c = true := by
    intro c hc
    simp only [List.mem_append] at hc
    rcases hc with ((hc | hc) | hc) | hc
    · exact hk1 c hc
    · exact hk2 c hc
    · exact hk3 c hc
    · exact hk4 c hc
  have hsmD : (DefineObjectMaterials (BindGLTextures s4)).m_pShaderManager = some sm := hsm4
  have hlights := SetupSceneLights_gl (DefineObjectMaterials (BindGLTextures s4)) sm hsmD
  rw [hlights] at hcomp
  refine ⟨_, c1 ++ c2 ++ c3 ++ c4, hcomp, hkinds, ?_, ?_⟩
  · show loadBasicMeshes ((BindGLTextures s4).gl ++ Spec.sceneLightWrites) = _
    rw [BindGLTextures_gl, hgl4]
    simp [loadBasicMeshes, Spec.meshLoads, DefineObjectMaterials, BindGLTextures,
      List.append_assoc]
  · intro m hmem
    simp only [List.mem_append] at hmem
    rcases hmem with ((hc | hc) | hc) | hc
    · have := hkinds (GLCall.drawMesh m) (by simp only [List.mem_append]; exact hc)
      simp [Spec.isTextureLoadCall] at this
    · exact bindCalls_not_draw _ m _ hc
    · simp [Spec.sceneLightWrites] at hc
    · simp [Spec.meshLoads] at hc

end SceneManager

namespace glm

variable {R : Type}

end glm

namespace glm

variable {R : Type} [Field R]

end glm

namespace SceneManager

variable {R : Type}

/-- What `FindTextureID` returns in terms of `FindTextureSlot`. -/
theorem FindTextureID_via_slot (s : SceneManager R) (tag : String) :
    FindTextureID s tag =
      if FindTextureSlot s tag = -1 then -1
      else GLuint.toInt (s.m_textureIDs (FindTextureSlot s tag).toNat).ID := by
  unfold FindTextureID FindTextureSlot
  exact FindTextureID_loop_eq s tag (s.m_loadedTextures + 1) 0

/-- `FindTextureSlot` returns `k` when `k` is the first registered index carrying the
tag. -/
theorem FindTextureSlot_eq_of_first (s : SceneManager R) (tag : String) (k : Nat)
    (hk : k < s.m_loadedTextures) (htag : (s.m_textureIDs k).tag = tag)
    (hleast : ∀ j, j < k → (s.m_textureIDs j).tag ≠ tag) :
    FindTextureSlot s tag = (k : Int) := by
  rcases FindTextureSlot_scan s tag with ⟨i, hi, hitag, hileast, hres⟩ | ⟨hnone, _⟩
  · have hik : i = k := by
      rcases Nat.lt_trichotomy i k with h | h | h
      · exact absurd hitag (hleast i h)
      · exact h
      · exact absurd htag (hileast k h)
    rw [hres, hik]
  · exact absurd htag (hnone k hk)

/-- When `FindTextureSlot` returns the index `k`, `k` is the first registered index
carrying the tag. -/
theorem FindTextureSlot_first_of_eq (s : SceneManager R) (tag : String) (k : Nat)
    (h : FindTextureSlot s tag = (k : Int)) :
    k < s.m_loadedTextures ∧ (s.m_textureIDs k).tag = tag ∧
      ∀ j, j < k → (s.m_textureIDs j).tag ≠ tag := by
  rcases FindTextureSlot_scan s tag with ⟨i, hi, hitag, hileast, hres⟩ | ⟨_, hres⟩
  · have hik : i = k := by rw [hres] at h; exact_mod_cast h
    subst hik
    exact ⟨hi, hitag, hileast⟩
  · rw [hres] at h; omega

/-- C27: duplicate tags are first-writer-wins.  When `CreateGLTexture` succeeds with a
tag that `FindTextureSlot` already resolves to slot `k`, the new entry is stored at the
old count and the count grows by one, but `FindTextureSlot(tag)` is still `k` and
`FindTextureID(tag)` is still the handle of entry `k`: the new texture cannot be reached
by its tag. -/
theorem CreateGLTexture_duplicate_tag (ext : Externals R) (s : SceneManager R)
    (filename tag : String) (k : Nat) (_hn : s.m_loadedTextures < textureSlots)
    (hok : (CreateGLTexture ext s filename tag).1 = true)
    (hk : FindTextureSlot s tag = (k : Int)) :
    (CreateGLTexture ext s filename tag).2.m_loadedTextures = s.m_loadedTextures + 1 ∧
      (CreateGLTexture ext s filename tag).2.m_textureIDs s.m_loadedTextures =
        ⟨tag, ext.glGenTextures s.gl⟩ ∧
      FindTextureSlot (CreateGLTexture ext s filename tag).2 tag = (k : Int) ∧
      FindTextureID (CreateGLTexture ext s filename tag).2 tag =
        GLuint.toInt (s.m_textureIDs k).ID ∧
      FindTextureID s tag = GLuint.toInt (s.m_textureIDs k).ID := by
  obtain ⟨hkn, hktag, hkleast⟩ := FindTextureSlot_first_of_eq s tag k hk
  obtain ⟨rest, hs⟩ := CreateGLTexture_success ext s filename tag hok
  have hcount : (CreateGLTexture ext s filename tag).2.m_loadedTextures =
      s.m_loadedTextures + 1 := by rw [hs]
  have hold : ∀ i, i < s.m_loadedTextures →
      (CreateGLTexture ext s filename tag).2.m_textureIDs i = s.m_textureIDs i := by
    intro i hi
    rw [hs]
    have hne : i ≠ s.m_loadedTextures := by omega
    simp [setTextureEntry, hne]
  have hcell : (CreateGLTexture ext s filename tag).2.m_textureIDs s.m_loadedTextures =
      ⟨tag, ext.glGenTextures s.gl⟩ := by
    rw [hs]; simp [setTextureEntry]
  have hslot : FindTextureSlot (CreateGLTexture ext s filename tag).2 tag = (k : Int) := by
    apply FindTextureSlot_eq_of_first
    · rw [hcount]; omega
    · rw [hold k hkn]; exact hktag
    · intro j hj
      rw [hold j (by omega)]
      exact hkleast j hj
  have hne : ¬ ((k : Int) = -1) := by omega
  refine ⟨hcount, hcell, hslot, ?_, ?_⟩
  · rw [FindTextureID_via_slot, hslot, if_neg hne, Int.toNat_ofNat, hold k hkn]
  · rw [FindTextureID_via_slot, hk, if_neg hne, Int.toNat_ofNat]

/-- Witness for C27: "Brick" (slot 1, handle 2) is loaded a second time. -/
theorem CreateGLTexture_duplicate_tag_witness :
    Example.scene2.m_loadedTextures < textureSlots ∧
      (CreateGLTexture Example.ext Example.scene2 "textures/Brick.jpg" "Brick").1 = true ∧
      FindTextureSlot Example.scene2 "Brick" = 1 ∧
      (CreateGLTexture Example.ext Example.scene2 "textures/Brick.jpg" "Brick").2.m_loadedTextures
        = 3 ∧
      (CreateGLTexture Example.ext Example.scene2 "textures/Brick.jpg" "Brick").2.m_textureIDs 2
        = ⟨"Brick", 3⟩ ∧
      FindTextureSlot (CreateGLTexture Example.ext Example.scene2 "textures/Brick.jpg"
        "Brick").2 "Brick" = 1 ∧
      FindTextureID (CreateGLTexture Example.ext Example.scene2 "textures/Brick.jpg"
        "Brick").2 "Brick" = 2 := by
  have hn : Example.scene2.m_loadedTextures < textureSlots := by decide
  have hok : (CreateGLTexture Example.ext Example.scene2 "textures/Brick.jpg" "Brick").1
      = true := by
    simp [CreateGLTexture, Example.ext, Example.imageRGB]
  have hk : FindTextureSlot Example.scene2 "Brick" = ((1 : Nat) : Int) := by
    simp [FindTextureSlot, FindTextureSlot.loop, Example.scene2]
  have h := CreateGLTexture_duplicate_tag Example.ext Example.scene2 "textures/Brick.jpg"
    "Brick" 1 hn hok hk
  refine ⟨hn, hok, hk, h.1, ?_, h.2.2.1, ?_⟩
  · rw [show (2 : Nat) = Example.scene2.m_loadedTextures from rfl, h.2.1]
    simp [Example.ext, Example.scene2]
  · rw [h.2.2.2.1]
    simp [Example.scene2, GLuint.toInt]

/-- C23, the code at the failing input: on the registry holding "Grass" (handle 1) and
"Brick" (handle 2), `DestroyGLTextures` issues two `glGenTextures` calls and no
`glDeleteTextures`: the handles 1 and 2 are still allocated afterwards, two more handles
(3 and 4) are allocated, and they overwrite the handles stored in the two entries. -/
theorem DestroyGLTextures_releases_nothing :
    allocatedTextures Example.scene2.gl = [1, 2] ∧
      (DestroyGLTextures Example.ext Example.scene2).gl =
        Example.scene2.gl ++ [GLCall.glGenTextures 3, GLCall.glGenTextures 4] ∧
      allocatedTextures (DestroyGLTextures Example.ext Example.scene2).gl = [1, 2, 3, 4] ∧
      (∀ n, GLCall.glDeleteTextures n ∉ (DestroyGLTextures Example.ext Example.scene2).gl) ∧
      (DestroyGLTextures Example.ext Example.scene2).m_loadedTextures = 2 ∧
      (DestroyGLTextures Example.ext Example.scene2).m_textureIDs 0 = ⟨"Grass", 3⟩ ∧
      (DestroyGLTextures Example.ext Example.scene2).m_textureIDs 1 = ⟨"Brick", 4⟩ := by
  have hgl : (DestroyGLTextures Example.ext Example.scene2).gl =
      Example.scene2.gl ++ [GLCall.glGenTextures 3, GLCall.glGenTextures 4] := by
    simp [DestroyGLTextures, DestroyGLTextures.loop, Example.ext, Example.scene2]
  refine ⟨?_, hgl, ?_, ?_, rfl, ?_, ?_⟩
  · simp [allocatedTextures, Example.scene2]
  · rw [hgl]
    simp [allocatedTextures, Example.scene2]
  · intro n
    rw [hgl]
    simp [Example.scene2]
  · simp [DestroyGLTextures, DestroyGLTextures.loop, Example.ext, Example.scene2]
  · simp [DestroyGLTextures, DestroyGLTextures.loop, Example.ext, Example.scene2]

end SceneManager

namespace SceneManager

variable {R : Type}

/-- What a statement sends depends on the state only through the registry and the
material list. -/
theorem callLog_congr [Field R] (L : glm.Libm R) (uninit : OBJECT_MATERIAL R)
    (s t : SceneManager R) (hn : t.m_loadedTextures = s.m_loadedTextures)
    (hids : t.m_textureIDs = s.m_textureIDs)
    (hm : t.m_objectMaterials = s.m_objectMaterials) (c : Call R) :
    Spec.callLog L uninit t c = Spec.callLog L uninit s c := by
  cases c <;>
    simp only [Spec.callLog, FindTextureSlot_congr s t _ hn hids,
      FindMaterial_congr s t _ _ hm, hm]

/-- What a sequence of statements sends depends on the state only through the registry
and the material list. -/
theorem sceneLog_congr [Field R] (L : glm.Libm R) (uninit : OBJECT_MATERIAL R)
    (s t : SceneManager R) (hn : t.m_loadedTextures = s.m_loadedTextures)
    (hids : t.m_textureIDs = s.m_textureIDs)
    (hm : t.m_objectMaterials = s.m_objectMaterials) (cs : List (Call R)) :
    Spec.sceneLog L uninit t cs = Spec.sceneLog L uninit s cs := by
  induction cs with
  | nil => rfl
  | cons c cs ih => simp only [Spec.sceneLog, callLog_congr L uninit s t hn hids hm, ih]

/-- The log of two sequences run one after the other. -/
theorem sceneLog_append [Field R] (L : glm.Libm R) (uninit : OBJECT_MATERIAL R)
    (s : SceneManager R) (a b : List (Call R)) :
    Spec.sceneLog L uninit s (a ++ b) =
      Spec.sceneLog L uninit s a ++ Spec.sceneLog L uninit s b := by
  induction a with
  | nil => rfl
  | cons c a ih =>
    show Spec.callLog L uninit s c ++ Spec.sceneLog L uninit s (a ++ b) =
      Spec.callLog L uninit s c ++ Spec.sceneLog L uninit s a ++ Spec.sceneLog L uninit s b
    rw [ih, List.append_assoc]

/-- Under a non-null shader manager a statement returns, and appends to the log what
`Spec.callLog` says; nothing else of the state changes. -/
theorem exec_eq [Field R] (L : glm.Libm R) (hsqrt : L.sqrt 1 = 1)
    (uninit : OBJECT_MATERIAL R) (s : SceneManager R) (sm : ShaderManager)
    (hsm : s.m_pShaderManager = some sm) (c : Call R) :
    exec L uninit c s = some { s with gl := s.gl ++ Spec.callLog L uninit s c } := by
  cases c with
  | SetTransformations scaleXYZ rx ry rz positionXYZ =>
    simp only [exec, SetTransformations, hsm, ShaderManager.setMat4Value, g_ModelName,
      glm.translate_eq, glm.rotate_X_eq L hsqrt, glm.rotate_Y_eq L hsqrt,
      glm.rotate_Z_eq L hsqrt, glm.scale_eq, glm.mat4.mul_ofMatrix, Spec.callLog,
      Spec.modelMatrix]
  | SetShaderColor r g b a =>
    simp [exec, SetShaderColor, hsm, ShaderManager.setIntValue, ShaderManager.setVec4Value,
      g_UseTextureName, g_ColorValueName, Spec.callLog]
  | SetShaderTexture textureTag =>
    simp [exec, SetShaderTexture, hsm, ShaderManager.setIntValue,
      ShaderManager.setSampler2DValue, g_UseTextureName, g_TextureValueName, Spec.callLog]
  | SetTextureUVScale u v =>
    simp [exec, SetTextureUVScale, hsm, ShaderManager.setVec2Value, Spec.callLog]
  | SetShaderMaterial materialTag =>
    by_cases h0 : s.m_objectMaterials.length = 0
    · simp [exec, SetShaderMaterial, h0, Spec.callLog]
    · have hpos : s.m_objectMaterials.length > 0 := by omega
      have hfst := FindMaterial_fst s materialTag uninit
      simp only [h0, ne_eq, not_false_eq_true, decide_True] at hfst
      simp [exec, SetShaderMaterial, hpos, hfst, hsm, h0, ShaderManager.setVec3Value,
        ShaderManager.setFloatValue, Spec.callLog]
  | DrawBoxMesh => simp [exec, SceneManager.DrawBoxMesh, Spec.callLog]
  | DrawPlaneMesh => simp [exec, SceneManager.DrawPlaneMesh, Spec.callLog]
  | DrawCylinderMesh => simp [exec, SceneManager.DrawCylinderMesh, Spec.callLog]
  | DrawConeMesh => simp [exec, SceneManager.DrawConeMesh, Spec.callLog]
  | DrawPrismMesh => simp [exec, SceneManager.DrawPrismMesh, Spec.callLog]

/-- Under a non-null shader manager a sequence of statements returns, and appends to the
log what `Spec.sceneLog` says; nothing else of the state changes. -/
theorem run_eq [Field R] (L : glm.Libm R) (hsqrt : L.sqrt 1 = 1)
    (uninit : OBJECT_MATERIAL R) (cs : List (Call R)) :
    ∀ (s : SceneManager R) (sm : ShaderManager), s.m_pShaderManager = some sm →
      run L uninit cs s = some { s with gl := s.gl ++ Spec.sceneLog L uninit s cs } := by
  induction cs with
  | nil =>
    intro s sm _
    simp [run, Spec.sceneLog]
  | cons c cs ih =>
    intro s sm hsm
    simp only [run, exec_eq L hsqrt uninit s sm hsm c]
    rw [ih { s with gl := s.gl ++ Spec.callLog L uninit s c } sm hsm,
      sceneLog_congr L uninit s { s with gl := s.gl ++ Spec.callLog L uninit s c } rfl rfl rfl]
    simp only [Spec.sceneLog, List.append_assoc]

/-- Running two sequences one after the other. -/
theorem run_append [Field R] (L : glm.Libm R) (uninit : OBJECT_MATERIAL R)
    (a b : List (Call R)) (s : SceneManager R) :
    run L uninit (a ++ b) s =
      match run L uninit a s with
      | none => none
      | some s1 => run L uninit b s1 := by
  induction a generalizing s with
  | nil => rfl
  | cons c a ih =>
    simp only [List.cons_append, run]
    cases exec L uninit c s with
    | none => rfl
    | some s1 => exact ih s1

/-- `RenderScene` runs the statements of the routines it calls, in call order. -/
theorem RenderScene_eq_run [Field R] (L : glm.Libm R) (uninit : OBJECT_MATERIAL R)
    (s : SceneManager R) :
    RenderScene L uninit s = run L uninit Spec.sceneCalls s := by
  simp only [Spec.sceneCalls, List.append_assoc, run_append]
  rfl

end SceneManager

namespace SceneManager

variable {R : Type}

/-- The uploads of the model matrix per draw in the log of a sequence of statements are
the `SetTransformations` statements per draw statement. -/
theorem uploadsPerDraw_sceneLog [Field R] (L : glm.Libm R) (uninit : OBJECT_MATERIAL R)
    (s : SceneManager R) (cs : List (Call R)) :
    ∀ k, Spec.uploadsPerDraw.go k (Spec.sceneLog L uninit s cs) =
      Spec.transformsPerDraw.go k cs := by
  induction cs with
  | nil => intro k; rfl
  | cons c cs ih =>
    intro k
    cases c with
    | SetShaderMaterial materialTag =>
      by_cases h0 : s.m_objectMaterials.length = 0
      · simp [Spec.sceneLog, Spec.callLog, Spec.uploadsPerDraw.go, Spec.transformsPerDraw.go,
          ih, h0]
      · simp [Spec.sceneLog, Spec.callLog, Spec.uploadsPerDraw.go, Spec.transformsPerDraw.go,
          ih, h0]
    | _ =>
      simp [Spec.sceneLog, Spec.callLog, Spec.uploadsPerDraw.go, Spec.transformsPerDraw.go, ih]

/-- The `SetTransformations` statements per draw statement of `RenderGround`, followed
by other statements. -/
theorem transformsPerDraw_RenderGround [Field R] (k : Nat) (Xrotation : R)
    (rest : List (Call R)) :
    Spec.transformsPerDraw.go k (RenderGround.calls Xrotation ++ rest) =
      (k + 1) :: Spec.transformsPerDraw.go 0 rest := rfl

/-- The `SetTransformations` statements per draw statement of `RenderHouse`, followed by
other statements: the fifth draw (the first window again) has none. -/
theorem transformsPerDraw_RenderHouse [Field R] (k : Nat) (Xrot Yrot Zrot Xpos Ypos Zpos : R)
    (rest : List (Call R)) :
    Spec.transformsPerDraw.go k (RenderHouse.calls Xrot Yrot Zrot Xpos Ypos Zpos ++ rest) =
      (k + 1) :: 1 :: 1 :: 1 :: 0 :: 1 :: Spec.transformsPerDraw.go 0 rest := rfl

/-- The `SetTransformations` statements per draw statement of `RenderHouse2`, followed by
other statements. -/
theorem transformsPerDraw_RenderHouse2 [Field R] (k : Nat)
    (Xrot Yrot Zrot Xpos Ypos Zpos : R) (rest : List (Call R)) :
    Spec.transformsPerDraw.go k (RenderHouse2.calls Xrot Yrot Zrot Xpos Ypos Zpos ++ rest) =
      (k + 1) :: 1 :: 1 :: 1 :: 0 :: 1 :: Spec.transformsPerDraw.go 0 rest := rfl

/-- The `SetTransformations` statements per draw statement of `RenderHouse3`, followed by
other statements. -/
theorem transformsPerDraw_RenderHouse3 [Field R] (k : Nat)
    (Xrot Yrot Zrot Xpos Ypos Zpos : R) (rest : List (Call R)) :
    Spec.transformsPerDraw.go k (RenderHouse3.calls Xrot Yrot Zrot Xpos Ypos Zpos ++ rest) =
      (k + 1) :: 1 :: 1 :: 1 :: 0 :: 1 :: Spec.transformsPerDraw.go 0 rest := rfl

/-- The `SetTransformations` statements per draw statement of `RenderWall`, followed by
other statements. -/
theorem transformsPerDraw_RenderWall [Field R] (k : Nat) (rest : List (Call R)) :
    Spec.transformsPerDraw.go k (RenderWall.calls ++ rest) =
      (k + 1) :: 1 :: 1 :: 1 :: 1 :: 1 :: Spec.transformsPerDraw.go 0 rest := rfl

/-- The `SetTransformations` statements per draw statement of `RenderWindmill`: the
fourth draw (the first blade) follows two of them, that of the door and its own. -/
theorem transformsPerDraw_RenderWindmill [Field R] (k : Nat) :
    Spec.transformsPerDraw.go k (RenderWindmill.calls : List (Call R)) =
      [k + 1, 1, 1, 2, 1] := rfl

/-- The `SetTransformations` statements per draw statement of `RenderScene`: one for the
ground; per house 1, 1, 1, 1, 0, 1 (the first window is drawn twice); one for each of
the six boxes of the wall; for the windmill 1, 1, 1, 2, 1 (the door sets a transform and
draws nothing). -/
theorem transformsPerDraw_sceneCalls [Field R] :
    Spec.transformsPerDraw.go 0 (Spec.sceneCalls : List (Call R)) =
      [1] ++ (List.replicate 20 [1, 1, 1, 1, 0, 1]).flatten ++ List.replicate 6 1 ++
        [1, 1, 1, 2, 1] := by
  simp only [Spec.sceneCalls, List.append_assoc, transformsPerDraw_RenderGround,
    transformsPerDraw_RenderHouse, transformsPerDraw_RenderHouse2,
    transformsPerDraw_RenderHouse3, transformsPerDraw_RenderWall,
    transformsPerDraw_RenderWindmill]
  rfl

end SceneManager

namespace SceneManager

variable {R : Type}

/-- `LoadSceneTextures` does not touch the shader manager or the material list. -/
theorem LoadSceneTextures_keeps (ext : Externals R) (s : SceneManager R) :
    (LoadSceneTextures ext s).m_pShaderManager = s.m_pShaderManager := by
  have h1 := (CreateGLTexture_calls ext s "textures/Grass.jpg" "Grass").2
  have h2 := (CreateGLTexture_calls ext
    (CreateGLTexture ext s "textures/Grass.jpg" "Grass").2 "textures/Brick.jpg" "Brick").2
  have h3 := (CreateGLTexture_calls ext
    (CreateGLTexture ext (CreateGLTexture ext s "textures/Grass.jpg" "Grass").2
      "textures/Brick.jpg" "Brick").2 "textures/Roof.jpg" "Roof").2
  have h4 := (CreateGLTexture_calls ext
    (CreateGLTexture ext (CreateGLTexture ext
      (CreateGLTexture ext s "textures/Grass.jpg" "Grass").2
      "textures/Brick.jpg" "Brick").2 "textures/Roof.jpg" "Roof").2
    "textures/Wood.jpg" "Wood").2
  show (BindGLTextures _).m_pShaderManager = _
  simp only [BindGLTextures]
  rw [h4, h3, h2, h1]

/-- With a non-null shader manager `PrepareScene` returns; the state it returns has the
shader manager of before, the registry `LoadSceneTextures` built and the material list
`DefineObjectMaterials` built. -/
theorem PrepareScene_fields [Field R] (ext : Externals R) (s : SceneManager R)
    (sm : ShaderManager) (hsm : s.m_pShaderManager = some sm) :
    ∃ p, PrepareScene ext s = some p ∧ p.m_pShaderManager = some sm ∧
      p.m_loadedTextures = (LoadSceneTextures ext s).m_loadedTextures ∧
      p.m_textureIDs = (LoadSceneTextures ext s).m_textureIDs ∧
      p.m_objectMaterials =
        (DefineObjectMaterials (LoadSceneTextures ext s)).m_objectMaterials := by
  have hsmD : (DefineObjectMaterials (LoadSceneTextures ext s)).m_pShaderManager = some sm := by
    show (LoadSceneTextures ext s).m_pShaderManager = some sm
    rw [LoadSceneTextures_keeps, hsm]
  have hlights := SetupSceneLights_gl (DefineObjectMaterials (LoadSceneTextures ext s)) sm hsmD
  refine ⟨{ DefineObjectMaterials (LoadSceneTextures ext s) with
      gl := loadBasicMeshes
        ((DefineObjectMaterials (LoadSceneTextures ext s)).gl ++ Spec.sceneLightWrites) },
    ?_, ?_, ?_, ?_, ?_⟩
  · simp only [PrepareScene, hlights]
  · exact hsmD
  · rfl
  · rfl
  · rfl

/-- C24, the code at the failing input: the scene prepared from the empty example scene
(the four textures decode) and then rendered.  `RenderScene` returns, and in the calls it
adds the number of model-matrix uploads before each mesh draw is not always one: in each
of the 20 houses the fifth draw follows the fourth with no upload in between (the first
window is drawn twice), and in the windmill the fourth draw is preceded by two uploads
(the transform of the door is uploaded and never drawn). -/
theorem RenderScene_uploads_per_draw :
    ∃ p log, PrepareScene Example.ext Example.scene0 = some p ∧
      RenderScene Example.libm Example.garbage p = some { p with gl := p.gl ++ log } ∧
      Spec.uploadsPerDraw log =
        [1] ++ (List.replicate 20 [1, 1, 1, 1, 0, 1]).flatten ++ List.replicate 6 1 ++
          [1, 1, 1, 2, 1] ∧
      ¬ ∀ n ∈ Spec.uploadsPerDraw log, n = 1 := by
  obtain ⟨p, hp, hsm, _, _, _⟩ := PrepareScene_fields Example.ext Example.scene0 ⟨1⟩ rfl
  have hsqrt : Example.libm.sqrt 1 = 1 := by norm_num [Example.libm]
  have hlog : Spec.uploadsPerDraw
      (Spec.sceneLog Example.libm Example.garbage p Spec.sceneCalls) =
      [1] ++ (List.replicate 20 [1, 1, 1, 1, 0, 1]).flatten ++ List.replicate 6 1 ++
        [1, 1, 1, 2, 1] := by
    unfold Spec.uploadsPerDraw
    rw [uploadsPerDraw_sceneLog, transformsPerDraw_sceneCalls]
  refine ⟨p, Spec.sceneLog Example.libm Example.garbage p Spec.sceneCalls, hp, ?_, hlog, ?_⟩
  · rw [RenderScene_eq_run]
    exact run_eq Example.libm hsqrt Example.garbage Spec.sceneCalls p ⟨1⟩ hsm
  · rw [hlog]
    intro h
    have h0 := h 0 (by decide)
    omega

end SceneManager

/-- The index of the first occurrence: `indexOf a l` is `i` when `l` holds `a` at `i` and
not before. -/
theorem List.indexOf_eq_of_first (l : List String) (a : String) :
    ∀ i, l[i]? = some a → (∀ j, j < i → l[j]? ≠ some a) → l.indexOf a = i := by
  induction l with
  | nil => intro i hi _; simp at hi
  | cons x l ih =>
    intro i hi hleast
    cases i with
    | zero =>
      have hx : x = a := by simpa using hi
      exact List.indexOf_cons_eq l hx
    | succ i =>
      have hx : x ≠ a := fun h => hleast 0 (Nat.succ_pos i) (by simp [h])
      rw [List.indexOf_cons_ne l hx]
      congr 1
      refine ih i (by simpa using hi) (fun j hj => ?_)
      have := hleast (j + 1) (by omega)
      simpa using this

namespace SceneManager

variable {R : Type}

/-- The tag list has one entry per registered texture. -/
theorem registeredTags_length (s : SceneManager R) :
    (Spec.registeredTags s).length = s.m_loadedTextures := by
  simp [Spec.registeredTags]

/-- Entry `i` of the tag list is the tag of cell `i`. -/
theorem registeredTags_getElem? (s : SceneManager R) (i : Nat) :
    (Spec.registeredTags s)[i]? =
      if i < s.m_loadedTextures then some (s.m_textureIDs i).tag else none := by
  by_cases hi : i < s.m_loadedTextures
  · simp [Spec.registeredTags, hi, List.getElem?_range]
  · simp [Spec.registeredTags, hi]
    omega

/-- A tag is in the tag list exactly when a registered cell carries it. -/
theorem mem_registeredTags (s : SceneManager R) (tag : String) :
    tag ∈ Spec.registeredTags s ↔ ∃ i, i < s.m_loadedTextures ∧ (s.m_textureIDs i).tag = tag := by
  simp [Spec.registeredTags]

/-- `FindTextureSlot` in terms of the tag list: the position of the first occurrence of
the tag, or `-1` when the tag is not in the list. -/
theorem FindTextureSlot_of_tags (s : SceneManager R) (tag : String) :
    FindTextureSlot s tag =
      if tag ∈ Spec.registeredTags s then (((Spec.registeredTags s).indexOf tag : Nat) : Int)
      else -1 := by
  rcases FindTextureSlot_scan s tag with ⟨i, hi, hitag, hleast, hres⟩ | ⟨hnone, hres⟩
  · have hmem : tag ∈ Spec.registeredTags s := (mem_registeredTags s tag).2 ⟨i, hi, hitag⟩
    have hidx : (Spec.registeredTags s).indexOf tag = i := by
      apply List.indexOf_eq_of_first
      · rw [registeredTags_getElem?, if_pos hi, hitag]
      · intro j hj
        rw [registeredTags_getElem?, if_pos (by omega)]
        intro h
        exact hleast j hj (Option.some.inj h)
    rw [if_pos hmem, hidx, hres]
  · have hmem : tag ∉ Spec.registeredTags s := by
      rw [mem_registeredTags]
      rintro ⟨i, hi, hitag⟩
      exact hnone i hi hitag
    rw [if_neg hmem, hres]

/-- `CreateGLTexture` returns true exactly when the file decodes with 3 or 4 channels. -/
theorem CreateGLTexture_fst (ext : Externals R) (s : SceneManager R)
    (filename tag : String) :
    (CreateGLTexture ext s filename tag).1 = Spec.decodes ext filename := by
  unfold CreateGLTexture Spec.decodes
  cases ext.stbi_load true filename with
  | none => rfl
  | some image =>
    by_cases h3 : image.colorChannels = 3
    · simp [h3]
    · by_cases h4 : image.colorChannels = 4
      · simp [h3, h4]
      · simp [h3, h4]

/-- The registry after `CreateGLTexture`: one more entry, `{tag, new name}` at the old
count, when the file decodes with 3 or 4 channels; unchanged otherwise. -/
theorem CreateGLTexture_registry (ext : Externals R) (s : SceneManager R)
    (filename tag : String) :
    (CreateGLTexture ext s filename tag).2.m_loadedTextures =
        (if Spec.decodes ext filename then s.m_loadedTextures + 1 else s.m_loadedTextures) ∧
      (CreateGLTexture ext s filename tag).2.m_textureIDs =
        (if Spec.decodes ext filename then
          setTextureEntry s.m_textureIDs s.m_loadedTextures ⟨tag, ext.glGenTextures s.gl⟩
        else s.m_textureIDs) := by
  unfold CreateGLTexture Spec.decodes
  cases ext.stbi_load true filename with
  | none => simp
  | some image =>
    by_cases h3 : image.colorChannels = 3
    · simp [h3]
    · by_cases h4 : image.colorChannels = 4
      · simp [h3, h4]
      · simp [h3, h4]

/-- The tag list after `CreateGLTexture`: the tag is appended when the load succeeds. -/
theorem registeredTags_CreateGLTexture (ext : Externals R) (s : SceneManager R)
    (filename tag : String) :
    Spec.registeredTags (CreateGLTexture ext s filename tag).2 =
      Spec.registeredTags s ++ (if Spec.decodes ext filename then [tag] else []) := by
  obtain ⟨hn, hids⟩ := CreateGLTexture_registry ext s filename tag
  unfold Spec.registeredTags
  rw [hn, hids]
  by_cases hd : Spec.decodes ext filename = true
  · simp only [hd, if_true, List.range_succ, List.map_append, List.map_cons, List.map_nil]
    congr 1
    · apply List.map_congr_left
      intro i hi
      have hlt : i < s.m_loadedTextures := List.mem_range.mp hi
      have hne : i ≠ s.m_loadedTextures := by omega
      simp [setTextureEntry, hne]
    · simp [setTextureEntry]
  · simp [hd]

/-- The tag list after `LoadSceneTextures` on an empty registry: the tags whose load
succeeded, in load order. -/
theorem registeredTags_LoadSceneTextures (ext : Externals R) (s : SceneManager R)
    (h0 : s.m_loadedTextures = 0) :
    Spec.registeredTags (LoadSceneTextures ext s) = Spec.loadedSceneTags ext := by
  have hs : Spec.registeredTags s = [] := by simp [Spec.registeredTags, h0]
  show Spec.registeredTags (BindGLTextures _) = _
  show Spec.registeredTags (CreateGLTexture ext (CreateGLTexture ext (CreateGLTexture ext
      (CreateGLTexture ext s "textures/Grass.jpg" "Grass").2
      "textures/Brick.jpg" "Brick").2 "textures/Roof.jpg" "Roof").2
      "textures/Wood.jpg" "Wood").2 = _
  rw [registeredTags_CreateGLTexture, registeredTags_CreateGLTexture,
    registeredTags_CreateGLTexture, registeredTags_CreateGLTexture, hs]
  simp [Spec.loadedSceneTags]

/-- The tags of the scene textures that load are pairwise distinct. -/
theorem loadedSceneTags_nodup (ext : Externals R) : (Spec.loadedSceneTags ext).Nodup := by
  unfold Spec.loadedSceneTags
  cases Spec.decodes ext "textures/Grass.jpg" <;> cases Spec.decodes ext "textures/Brick.jpg" <;>
    cases Spec.decodes ext "textures/Roof.jpg" <;> cases Spec.decodes ext "textures/Wood.jpg" <;>
    simp

/-- The calls of `LoadSceneTextures`: texture-load calls, then the unit bindings of
`BindGLTextures` for the registry the loads left. -/
theorem LoadSceneTextures_gl (ext : Externals R) (s : SceneManager R) :
    ∃ loads, (∀ c ∈ loads, Spec.isTextureLoadCall c = true) ∧
      (LoadSceneTextures ext s).gl = s.gl ++ loads ++
        Spec.bindCalls (LoadSceneTextures ext s).m_textureIDs
          (LoadSceneTextures ext s).m_loadedTextures := by
  obtain ⟨⟨c1, hg1, hk1⟩, _⟩ := CreateGLTexture_calls ext s "textures/Grass.jpg" "Grass"
  obtain ⟨⟨c2, hg2, hk2⟩, _⟩ := CreateGLTexture_calls ext
    (CreateGLTexture ext s "textures/Grass.jpg" "Grass").2 "textures/Brick.jpg" "Brick"
  obtain ⟨⟨c3, hg3, hk3⟩, _⟩ := CreateGLTexture_calls ext
    (CreateGLTexture ext (CreateGLTexture ext s "textures/Grass.jpg" "Grass").2
      "textures/Brick.jpg" "Brick").2 "textures/Roof.jpg" "Roof"
  obtain ⟨⟨c4, hg4, hk4⟩, _⟩ := CreateGLTexture_calls ext
    (CreateGLTexture ext (CreateGLTexture ext
      (CreateGLTexture ext s "textures/Grass.jpg" "Grass").2
      "textures/Brick.jpg" "Brick").2 "textures/Roof.jpg" "Roof").2 "textures/Wood.jpg" "Wood"
  refine ⟨c1 ++ c2 ++ c3 ++ c4, ?_, ?_⟩
  · intro c hc
    simp only [List.mem_append] at hc
    rcases hc with ((hc | hc) | hc) | hc
    · exact hk1 c hc
    · exact hk2 c hc
    · exact hk3 c hc
    · exact hk4 c hc
  · show (BindGLTextures _).gl = _
    rw [BindGLTextures_gl, hg4, hg3, hg2, hg1]
    simp only [List.append_assoc]
    rfl

end SceneManager

namespace SceneManager

variable {R : Type}

/-- C22: `LoadSceneTextures` does not read the results of its four loads.  Starting from
an empty registry, whichever of the four files decode, the registry afterwards holds
exactly the tags whose load succeeded, in load order, in the slots 0, 1, ... (the tag list
of the registry is `Spec.loadedSceneTags`, and each of these tags resolves to its
position); a tag whose load failed resolves to `-1`; and the unit bindings of
`BindGLTextures` are issued after the load calls, for the registry the loads left. -/
theorem LoadSceneTextures_unchecked (ext : Externals R) (s : SceneManager R)
    (h0 : s.m_loadedTextures = 0) :
    Spec.registeredTags (LoadSceneTextures ext s) = Spec.loadedSceneTags ext ∧
      (LoadSceneTextures ext s).m_loadedTextures = (Spec.loadedSceneTags ext).length ∧
      (∀ i (h : i < (Spec.loadedSceneTags ext).length),
        FindTextureSlot (LoadSceneTextures ext s) ((Spec.loadedSceneTags ext)[i]) =
          (i : Int)) ∧
      (Spec.decodes ext "textures/Grass.jpg" = false →
        FindTextureSlot (LoadSceneTextures ext s) "Grass" = -1) ∧
      (Spec.decodes ext "textures/Brick.jpg" = false →
        FindTextureSlot (LoadSceneTextures ext s) "Brick" = -1) ∧
      (Spec.decodes ext "textures/Roof.jpg" = false →
        FindTextureSlot (LoadSceneTextures ext s) "Roof" = -1) ∧
      (Spec.decodes ext "textures/Wood.jpg" = false →
        FindTextureSlot (LoadSceneTextures ext s) "Wood" = -1) ∧
      ∃ loads, (∀ c ∈ loads, Spec.isTextureLoadCall c = true) ∧
        (LoadSceneTextures ext s).gl = s.gl ++ loads ++
          Spec.bindCalls (LoadSceneTextures ext s).m_textureIDs
            (LoadSceneTextures ext s).m_loadedTextures := by
  have hreg := registeredTags_LoadSceneTextures ext s h0
  refine ⟨hreg, ?_, ?_, ?_, ?_, ?_, ?_, LoadSceneTextures_gl ext s⟩
  · rw [← registeredTags_length, hreg]
  · intro i h
    rw [FindTextureSlot_of_tags, hreg, if_pos (List.getElem_mem _),
      List.indexOf_getElem (loadedSceneTags_nodup ext) i h]
  · intro hd
    have hnot : "Grass" ∉ Spec.loadedSceneTags ext := by
      simp only [Spec.loadedSceneTags, hd]
      cases Spec.decodes ext "textures/Brick.jpg" <;>
        cases Spec.decodes ext "textures/Roof.jpg" <;>
        cases Spec.decodes ext "textures/Wood.jpg" <;> simp
    rw [FindTextureSlot_of_tags, hreg, if_neg hnot]
  · intro hd
    have hnot : "Brick" ∉ Spec.loadedSceneTags ext := by
      simp only [Spec.loadedSceneTags, hd]
      cases Spec.decodes ext "textures/Grass.jpg" <;>
        cases Spec.decodes ext "textures/Roof.jpg" <;>
        cases Spec.decodes ext "textures/Wood.jpg" <;> simp
    rw [FindTextureSlot_of_tags, hreg, if_neg hnot]
  · intro hd
    have hnot : "Roof" ∉ Spec.loadedSceneTags ext := by
      simp only [Spec.loadedSceneTags, hd]
      cases Spec.decodes ext "textures/Grass.jpg" <;>
        cases Spec.decodes ext "textures/Brick.jpg" <;>
        cases Spec.decodes ext "textures/Wood.jpg" <;> simp
    rw [FindTextureSlot_of_tags, hreg, if_neg hnot]
  · intro hd
    have hnot : "Wood" ∉ Spec.loadedSceneTags ext := by
      simp only [Spec.loadedSceneTags, hd]
      cases Spec.decodes ext "textures/Grass.jpg" <;>
        cases Spec.decodes ext "textures/Brick.jpg" <;>
        cases Spec.decodes ext "textures/Roof.jpg" <;> simp
    rw [FindTextureSlot_of_tags, hreg, if_neg hnot]

/-- Witness for C22: in the environment where the loads of "Brick" and "Wood" fail, the
registry built from the empty scene holds "Grass" in slot 0 and "Roof" in slot 1, and
"Brick" and "Wood" resolve to -1. -/
theorem LoadSceneTextures_unchecked_witness :
    Example.scene0.m_loadedTextures = 0 ∧
      Spec.registeredTags (LoadSceneTextures Example.extMissing Example.scene0) =
        ["Grass", "Roof"] ∧
      (LoadSceneTextures Example.extMissing Example.scene0).m_loadedTextures = 2 ∧
      FindTextureSlot (LoadSceneTextures Example.extMissing Example.scene0) "Brick" = -1 ∧
      FindTextureSlot (LoadSceneTextures Example.extMissing Example.scene0) "Wood" = -1 := by
  have h := LoadSceneTextures_unchecked Example.extMissing Example.scene0 rfl
  have hl : Spec.loadedSceneTags Example.extMissing = ["Grass", "Roof"] := by
    simp [Spec.loadedSceneTags, Spec.decodes, Example.extMissing, Example.imageRGB,
      Example.imageRGBA, Example.imageGray]
  refine ⟨rfl, h.1.trans hl, ?_, ?_, ?_⟩
  · rw [h.2.1, hl]; rfl
  · exact h.2.2.2.2.1 (by simp [Spec.decodes, Example.extMissing])
  · exact h.2.2.2.2.2.2.1 (by simp [Spec.decodes, Example.extMissing, Example.imageGray])

end SceneManager

namespace SceneManager

variable {R : Type}

/-- The texture tags of two sequences of statements one after the other. -/
theorem textureTags_append (a b : List (Call R)) :
    Spec.textureTags (a ++ b) = Spec.textureTags a ++ Spec.textureTags b := by
  induction a with
  | nil => rfl
  | cons c a ih => cases c <;> simp [Spec.textureTags, ih]

/-- The material tags of two sequences of statements one after the other. -/
theorem materialTags_append (a b : List (Call R)) :
    Spec.materialTags (a ++ b) = Spec.materialTags a ++ Spec.materialTags b := by
  induction a with
  | nil => rfl
  | cons c a ih => cases c <;> simp [Spec.materialTags, ih]

/-- The sampler values written by a sequence of statements are the slots found for the
tags of its `SetShaderTexture` statements. -/
theorem samplerWrites_sceneLog [Field R] (L : glm.Libm R) (uninit : OBJECT_MATERIAL R)
    (s : SceneManager R) (cs : List (Call R)) :
    Spec.samplerWrites (Spec.sceneLog L uninit s cs) =
      (Spec.textureTags cs).map (FindTextureSlot s) := by
  induction cs with
  | nil => rfl
  | cons c cs ih =>
    cases c with
    | SetShaderMaterial materialTag =>
      by_cases h0 : s.m_objectMaterials.length = 0
      · simp [Spec.sceneLog, Spec.callLog, Spec.samplerWrites, Spec.textureTags, ih, h0]
      · simp [Spec.sceneLog, Spec.callLog, Spec.samplerWrites, Spec.textureTags, ih, h0]
    | _ => simp [Spec.sceneLog, Spec.callLog, Spec.samplerWrites, Spec.textureTags, ih]

/-- Every texture tag passed to `SetShaderTexture` in `RenderScene` is one of "Grass",
"Brick", "Roof", "Wood". -/
theorem textureTags_sceneCalls [Field R] :
    ∀ tag ∈ Spec.textureTags (Spec.sceneCalls : List (Call R)),
      tag ∈ ["Grass", "Brick", "Roof", "Wood"] := by
  have hG : ∀ x : R, Spec.textureTags (RenderGround.calls x) = ["Grass"] := fun _ => rfl
  have h1 : ∀ a b c d e f : R, Spec.textureTags (RenderHouse.calls a b c d e f) =
      ["Brick", "Roof", "Wood"] := fun _ _ _ _ _ _ => rfl
  have h2 : ∀ a b c d e f : R, Spec.textureTags (RenderHouse2.calls a b c d e f) =
      ["Brick", "Roof", "Wood"] := fun _ _ _ _ _ _ => rfl
  have h3 : ∀ a b c d e f : R, Spec.textureTags (RenderHouse3.calls a b c d e f) =
      ["Brick", "Roof", "Wood"] := fun _ _ _ _ _ _ => rfl
  have hW : Spec.textureTags (RenderWall.calls : List (Call R)) = [] := rfl
  have hM : Spec.textureTags (RenderWindmill.calls : List (Call R)) =
      ["Brick", "Roof", "Wood", "Wood", "Wood"] := rfl
  intro tag htag
  simp only [Spec.sceneCalls, textureTags_append, hG, h1, h2, h3, hW, hM] at htag
  simp only [List.mem_append, List.mem_cons, List.mem_singleton, List.not_mem_nil,
    or_false] at htag
  simp only [List.mem_cons, List.mem_singleton, List.not_mem_nil, or_false]
  tauto

/-- Every material tag passed to `SetShaderMaterial` in `RenderScene` is one of "grass",
"stone", "roof", "wood", "glass", "cement". -/
theorem materialTags_sceneCalls [Field R] :
    ∀ tag ∈ Spec.materialTags (Spec.sceneCalls : List (Call R)),
      tag ∈ ["grass", "stone", "roof", "wood", "glass", "cement"] := by
  have hG : ∀ x : R, Spec.materialTags (RenderGround.calls x) = ["grass"] := fun _ => rfl
  have h1 : ∀ a b c d e f : R, Spec.materialTags (RenderHouse.calls a b c d e f) =
      ["stone", "roof", "wood", "glass", "glass"] := fun _ _ _ _ _ _ => rfl
  have h2 : ∀ a b c d e f : R, Spec.materialTags (RenderHouse2.calls a b c d e f) =
      ["stone", "roof", "wood", "glass", "glass"] := fun _ _ _ _ _ _ => rfl
  have h3 : ∀ a b c d e f : R, Spec.materialTags (RenderHouse3.calls a b c d e f) =
      ["stone", "roof", "wood", "glass", "glass"] := fun _ _ _ _ _ _ => rfl
  have hW : Spec.materialTags (RenderWall.calls : List (Call R)) =
      ["cement", "cement", "cement", "cement", "cement", "cement"] := rfl
  have hM : Spec.materialTags (RenderWindmill.calls : List (Call R)) =
      ["stone", "roof", "wood", "wood", "wood"] := rfl
  intro tag htag
  simp only [Spec.sceneCalls, materialTags_append, hG, h1, h2, h3, hW, hM] at htag
  simp only [List.mem_append, List.mem_cons, List.mem_singleton, List.not_mem_nil,
    or_false] at htag
  simp only [List.mem_cons, List.mem_singleton, List.not_mem_nil, or_false]
  tauto

/-- `CreateGLTexture` does not touch the material list. -/
theorem CreateGLTexture_materials (ext : Externals R) (s : SceneManager R)
    (filename tag : String) :
    (CreateGLTexture ext s filename tag).2.m_objectMaterials = s.m_objectMaterials := by
  unfold CreateGLTexture
  cases ext.stbi_load true filename with
  | none => rfl
  | some image =>
    by_cases h3 : image.colorChannels = 3
    · simp [h3]
    · by_cases h4 : image.colorChannels = 4
      · simp [h3, h4]
      · simp [h3, h4]

/-- `LoadSceneTextures` does not touch the material list. -/
theorem LoadSceneTextures_materials (ext : Externals R) (s : SceneManager R) :
    (LoadSceneTextures ext s).m_objectMaterials = s.m_objectMaterials := by
  show (BindGLTextures _).m_objectMaterials = _
  simp only [BindGLTextures, CreateGLTexture_materials]

/-- A list that holds a material with the tag has a first such material, and
`List.find?` returns it. -/
theorem exists_find_material (l : List (OBJECT_MATERIAL R)) (tag : String)
    (h : ∃ x ∈ l, x.tag = tag) :
    ∃ m, l.find? (fun x => decide (x.tag = tag)) = some m ∧ m ∈ l ∧ m.tag = tag := by
  cases hf : l.find? (fun x => decide (x.tag = tag)) with
  | none =>
    obtain ⟨x, hx, hxt⟩ := h
    have := List.find?_eq_none.mp hf x hx
    simp [hxt] at this
  | some m =>
    refine ⟨m, rfl, List.mem_of_find?_eq_some hf, ?_⟩
    have := List.find?_some hf
    simpa using this

end SceneManager

namespace SceneManager

variable {R : Type}

/-- C26: no lookup misses in the authored scene.  Starting from an empty registry and an
empty material list, with a non-null shader manager, when the four texture files decode
with 3 or 4 channels (the four loads succeed), `PrepareScene` returns a state in which
`FindTextureSlot` answers 0, 1, 2, 3 for "Grass", "Brick", "Roof", "Wood"; `RenderScene`
returns on it, running the statements `Spec.sceneCalls`; every tag passed to
`SetShaderTexture` is registered and no sampler write is `-1` (each is 0, 1, 2 or 3); and
for every tag passed to `SetShaderMaterial`, `FindMaterial` copies a material with that
tag that `DefineObjectMaterials` defined. -/
theorem RenderScene_lookups_match [Field R] (L : glm.Libm R) (hsqrt : L.sqrt 1 = 1)
    (ext : Externals R) (uninit : OBJECT_MATERIAL R) (s : SceneManager R)
    (sm : ShaderManager) (hsm : s.m_pShaderManager = some sm)
    (h0 : s.m_loadedTextures = 0) (hmats : s.m_objectMaterials = [])
    (hG : Spec.decodes ext "textures/Grass.jpg" = true)
    (hB : Spec.decodes ext "textures/Brick.jpg" = true)
    (hR : Spec.decodes ext "textures/Roof.jpg" = true)
    (hW : Spec.decodes ext "textures/Wood.jpg" = true) :
    ∃ p log, PrepareScene ext s = some p ∧
      FindTextureSlot p "Grass" = 0 ∧ FindTextureSlot p "Brick" = 1 ∧
      FindTextureSlot p "Roof" = 2 ∧ FindTextureSlot p "Wood" = 3 ∧
      RenderScene L uninit p = run L uninit Spec.sceneCalls p ∧
      RenderScene L uninit p = some { p with gl := p.gl ++ log } ∧
      (∀ tag ∈ Spec.textureTags (Spec.sceneCalls : List (Call R)),
        tag ∈ Spec.registeredTags p) ∧
      (∀ v ∈ Spec.samplerWrites log, v = 0 ∨ v = 1 ∨ v = 2 ∨ v = 3) ∧
      (-1 : Int) ∉ Spec.samplerWrites log ∧
      (∀ tag ∈ Spec.materialTags (Spec.sceneCalls : List (Call R)),
        ∃ m, m ∈ (DefineObjectMaterials s).m_objectMaterials ∧ m.tag = tag ∧
          FindMaterial p tag uninit = (true, Spec.copyMaterial m uninit)) := by
  obtain ⟨p, hp, hpsm, hpn, hpids, hpm⟩ := PrepareScene_fields ext s sm hsm
  have hregp : Spec.registeredTags p = ["Grass", "Brick", "Roof", "Wood"] := by
    have hreg := registeredTags_LoadSceneTextures ext s h0
    unfold Spec.registeredTags at hreg ⊢
    rw [hpn, hpids, hreg]
    simp [Spec.loadedSceneTags, hG, hB, hR, hW]
  have hslotG : FindTextureSlot p "Grass" = 0 := by
    rw [FindTextureSlot_of_tags, hregp]; simp [List.indexOf_cons]
  have hslotB : FindTextureSlot p "Brick" = 1 := by
    rw [FindTextureSlot_of_tags, hregp]; simp [List.indexOf_cons]
  have hslotR : FindTextureSlot p "Roof" = 2 := by
    rw [FindTextureSlot_of_tags, hregp]; simp [List.indexOf_cons]
  have hslotW : FindTextureSlot p "Wood" = 3 := by
    rw [FindTextureSlot_of_tags, hregp]; simp [List.indexOf_cons]
  have hwrites : ∀ v ∈ Spec.samplerWrites (Spec.sceneLog L uninit p Spec.sceneCalls),
      v = 0 ∨ v = 1 ∨ v = 2 ∨ v = 3 := by
    intro v hv
    rw [samplerWrites_sceneLog, List.mem_map] at hv
    obtain ⟨tag, htag, hval⟩ := hv
    have hmem := textureTags_sceneCalls tag htag
    simp only [List.mem_cons, List.mem_singleton, List.not_mem_nil, or_false] at hmem
    rcases hmem with h | h | h | h <;> subst h
    · left; rw [← hval, hslotG]
    · right; left; rw [← hval, hslotB]
    · right; right; left; rw [← hval, hslotR]
    · right; right; right; rw [← hval, hslotW]
  have hpmats : p.m_objectMaterials = (DefineObjectMaterials s).m_objectMaterials := by
    rw [hpm]
    simp only [DefineObjectMaterials, LoadSceneTextures_materials]
  refine ⟨p, Spec.sceneLog L uninit p Spec.sceneCalls, hp, hslotG, hslotB, hslotR, hslotW,
    RenderScene_eq_run L uninit p, ?_, ?_, hwrites, ?_, ?_⟩
  · rw [RenderScene_eq_run]
    exact run_eq L hsqrt uninit Spec.sceneCalls p sm hpsm
  · intro tag htag
    rw [hregp]
    exact textureTags_sceneCalls tag htag
  · intro hneg
    have := hwrites (-1) hneg
    omega
  · intro tag htag
    have hmem := materialTags_sceneCalls tag htag
    have hex : ∃ x ∈ p.m_objectMaterials, x.tag = tag := by
      rw [hpmats]
      simp only [List.mem_cons, List.mem_singleton, List.not_mem_nil, or_false] at hmem
      rcases hmem with h | h | h | h | h | h <;> subst h <;>
        simp [DefineObjectMaterials, hmats]
    obtain ⟨m, hfind, hin, hmtag⟩ := exists_find_material p.m_objectMaterials tag hex
    refine ⟨m, hpmats ▸ hin, hmtag, ?_⟩
    have hne : ¬ p.m_objectMaterials.length = 0 := by
      intro hlen
      have hnil : p.m_objectMaterials = [] := List.length_eq_zero.mp hlen
      rw [hnil] at hin
      simp at hin
    rw [FindMaterial_eq, if_neg hne, hfind]

/-- Witness for C26: the empty example scene, prepared and rendered in the example
environment, where the four texture files decode with 3 channels. -/
theorem RenderScene_lookups_match_witness :
    Example.libm.sqrt 1 = 1 ∧ Example.scene0.m_pShaderManager = some ⟨1⟩ ∧
      Example.scene0.m_loadedTextures = 0 ∧ Example.scene0.m_objectMaterials = [] ∧
      Spec.decodes Example.ext "textures/Grass.jpg" = true ∧
      Spec.decodes Example.ext "textures/Brick.jpg" = true ∧
      Spec.decodes Example.ext "textures/Roof.jpg" = true ∧
      Spec.decodes Example.ext "textures/Wood.jpg" = true ∧
      ∃ p log, PrepareScene Example.ext Example.scene0 = some p ∧
        FindTextureSlot p "Grass" = 0 ∧ FindTextureSlot p "Brick" = 1 ∧
        FindTextureSlot p "Roof" = 2 ∧ FindTextureSlot p "Wood" = 3 ∧
        RenderScene Example.libm Example.garbage p = some { p with gl := p.gl ++ log } ∧
        (-1 : Int) ∉ Spec.samplerWrites log := by
  have hsqrt : Example.libm.sqrt 1 = 1 := by norm_num [Example.libm]
  have hG : Spec.decodes Example.ext "textures/Grass.jpg" = true := by
    simp [Spec.decodes, Example.ext, Example.imageRGB]
  have hB : Spec.decodes Example.ext "textures/Brick.jpg" = true := by
    simp [Spec.decodes, Example.ext, Example.imageRGB]
  have hR : Spec.decodes Example.ext "textures/Roof.jpg" = true := by
    simp [Spec.decodes, Example.ext, Example.imageRGB]
  have hW : Spec.decodes Example.ext "textures/Wood.jpg" = true := by
    simp [Spec.decodes, Example.ext, Example.imageRGB]
  obtain ⟨p, log, hp, h1, h2, h3, h4, _, hrun, _, _, hneg, _⟩ :=
    RenderScene_lookups_match Example.libm hsqrt Example.ext Example.garbage Example.scene0
      ⟨1⟩ rfl rfl rfl hG hB hR hW
  exact ⟨hsqrt, rfl, rfl, rfl, hG, hB, hR, hW, p, log, hp, h1, h2, h3, h4, hrun, hneg⟩

end SceneManager

namespace SceneManager

variable {R : Type}

end SceneManager

namespace SceneManager

/-- C20, the code at the failing input: the empty scene with a null shader manager, in
the example environment.  `LoadSceneTextures` registers the four textures and
`DefineObjectMaterials` defines the seven materials; then `SetupSceneLights` dereferences
the null `m_pShaderManager` (it has no test of the pointer), so that `PrepareScene` does
not return and the mesh loads that follow are never performed.  With a shader manager the
same call returns, and the nine mesh loads end its log. -/
theorem PrepareScene_null_shader_manager :
    Example.scene0Null.m_pShaderManager = none ∧
      (LoadSceneTextures Example.ext Example.scene0Null).m_loadedTextures = 4 ∧
      (DefineObjectMaterials
        (LoadSceneTextures Example.ext Example.scene0Null)).m_objectMaterials.length = 7 ∧
      SetupSceneLights
        (DefineObjectMaterials (LoadSceneTextures Example.ext Example.scene0Null)) = none ∧
      PrepareScene Example.ext Example.scene0Null = none ∧
      ∃ p pre, PrepareScene Example.ext Example.scene0 = some p ∧
        p.gl = pre ++ Spec.meshLoads := by
  have hnull : (DefineObjectMaterials
      (LoadSceneTextures Example.ext Example.scene0Null)).m_pShaderManager = none := by
    show (LoadSceneTextures Example.ext Example.scene0Null).m_pShaderManager = none
    rw [LoadSceneTextures_keeps]
    rfl
  have hlights : SetupSceneLights
      (DefineObjectMaterials (LoadSceneTextures Example.ext Example.scene0Null)) = none := by
    simp only [SetupSceneLights, hnull]
  refine ⟨rfl, ?_, ?_, hlights, ?_, ?_⟩
  · simp [LoadSceneTextures, BindGLTextures, CreateGLTexture, Example.ext, Example.imageRGB,
      Example.scene0Null, Example.scene0]
  · simp [DefineObjectMaterials, LoadSceneTextures_materials, Example.scene0Null,
      Example.scene0]
  · simp only [PrepareScene, hlights]
  · obtain ⟨p, loads, hp, _, hgl, _⟩ := PrepareScene_gl Example.ext Example.scene0 ⟨1⟩ rfl
    exact ⟨p, _, hp, hgl⟩

end SceneManager

section

set_option maxRecDepth 100000

namespace SceneManager

end SceneManager

end
